import Mathlib

/-!
# AquaMonitor: the in-memory telemetry store of `server.js`

A shallow embedding of the server-side state of `src/server.js` (the
`sensorData` histories, `latestData`, `config`, the MQTT `message` handler
and the `/api/latest` endpoint) and of the status logic in the page
scripts it serves, followed by theorems about them.

Conventions of the embedding

* A JavaScript value is a `JsValue`.  Numbers carry a rational; a `Date`
  carries its epoch milliseconds.  A JavaScript string is a sequence of
  UTF-16 code units; a `String` stands for it, one `Char` per unit.
* A plain object is the list of its own enumerable properties in
  `Object.keys` order.  A property read `o[k]` is `getProp`: the first
  binding of `k`, or `undefined`.
* `JSON.parse` and `new Date()` are library calls: an inbound message
  carries the result of `JSON.parse(message.toString())` (`none` when it
  throws `SyntaxError`) and the clock reading taken by `new Date()`.
* Mutation is explicit state passing.  A block that can throw returns a
  `Completion`: the state at the point where control left the block and
  the error thrown, if any.
-/

namespace AquaMonitor

/-- JavaScript values that occur in the server state. -/
inductive JsValue where
  | undefined : JsValue
  | null : JsValue
  | bool (b : Bool) : JsValue
  | num (x : ℚ) : JsValue
  | str (s : String) : JsValue
  | arr (xs : List JsValue) : JsValue
  | obj (props : List (String × JsValue)) : JsValue
  | date (ms : Nat) : JsValue

/-- Own enumerable properties of a plain object, in `Object.keys` order. -/
abbrev JsProps := List (String × JsValue)

/-- Errors a JavaScript block can throw. -/
inductive JsError where
  | syntaxError : JsError
  | typeError : JsError
  deriving DecidableEq, Repr

/-- Property read `o[key]` on a plain object given by its own properties. -/
def getProp (o : JsProps) (key : String) : JsValue :=
  match o with
  | [] => JsValue.undefined
  | (k, v) :: rest => if k = key then v else getProp rest key

/-- Property write `o[key] = v`: replaces the binding in place, or appends. -/
def setProp (o : JsProps) (key : String) (v : JsValue) : JsProps :=
  match o with
  | [] => [(key, v)]
  | (k, w) :: rest => if k = key then (k, v) :: rest else (k, w) :: setProp rest key v

/-- Whether `key` is an own property of the object. -/
def hasOwn (o : JsProps) (key : String) : Bool :=
  match o with
  | [] => false
  | (k, _) :: rest => if k = key then true else hasOwn rest key

/-- Index-keyed own properties of an array-like value, from index `i`. -/
def indexedProps (i : Nat) (xs : List JsValue) : JsProps :=
  match xs with
  | [] => []
  | x :: rest => (toString i, x) :: indexedProps (i + 1) rest

/-- Own enumerable properties of a value, as seen by `Object.keys` and by
object spread; `none` where `Object.keys` throws `TypeError`. -/
def ownProps (v : JsValue) : Option JsProps :=
  match v with
  | JsValue.undefined => none
  | JsValue.null => none
  | JsValue.bool _ => some []
  | JsValue.num _ => some []
  | JsValue.date _ => some []
  | JsValue.str s => some (indexedProps 0 (s.data.map (fun ch => JsValue.str (String.singleton ch))))
  | JsValue.arr xs => some (indexedProps 0 xs)
  | JsValue.obj props => some props

/-- `Object.keys(v)` for a value on which it does not throw. -/
def objectKeys (props : JsProps) : List String :=
  props.map Prod.fst

/-- One history entry: `{ value, timestamp }`. -/
structure Reading where
  value : JsValue
  timestamp : Nat

/-- The `sensorData` object: six array-valued own properties. -/
structure SensorData where
  temperature_ds18b20 : List Reading
  distance_ultrasonic : List Reading
  turbidity : List Reading
  tds : List Reading
  humidity_dht11 : List Reading
  temperature_dht11 : List Reading

/-- The six own keys of `sensorData`, in declaration order. -/
def knownChannels : List String :=
  ["temperature_ds18b20", "distance_ultrasonic", "turbidity", "tds",
   "humidity_dht11", "temperature_dht11"]

/-- Property names every plain object inherits from `Object.prototype`.
Each is bound to a function, or (`__proto__`) to `Object.prototype`
itself: a truthy value without a `push` method. -/
def objectPrototypeKeys : List String :=
  ["constructor", "__defineGetter__", "__defineSetter__", "hasOwnProperty",
   "__lookupGetter__", "__lookupSetter__", "isPrototypeOf",
   "propertyIsEnumerable", "toString", "valueOf", "__proto__", "toLocaleString"]

/-- What the read `sensorData[key]` yields. -/
inductive SensorLookup where
  | history (h : List Reading) : SensorLookup
  | inherited : SensorLookup
  | undefined : SensorLookup

/-- The read `sensorData[key]`. -/
def SensorData.lookup (sd : SensorData) (key : String) : SensorLookup :=
  if key = "temperature_ds18b20" then SensorLookup.history sd.temperature_ds18b20
  else if key = "distance_ultrasonic" then SensorLookup.history sd.distance_ultrasonic
  else if key = "turbidity" then SensorLookup.history sd.turbidity
  else if key = "tds" then SensorLookup.history sd.tds
  else if key = "humidity_dht11" then SensorLookup.history sd.humidity_dht11
  else if key = "temperature_dht11" then SensorLookup.history sd.temperature_dht11
  else if key ∈ objectPrototypeKeys then SensorLookup.inherited
  else SensorLookup.undefined

/-- The array held under a known channel; empty for any other key. -/
def SensorData.history (sd : SensorData) (key : String) : List Reading :=
  match sd.lookup key with
  | SensorLookup.history h => h
  | _ => []

/-- In-place update of the array held under a known channel. -/
def SensorData.store (sd : SensorData) (key : String) (h : List Reading) : SensorData :=
  if key = "temperature_ds18b20" then { sd with temperature_ds18b20 := h }
  else if key = "distance_ultrasonic" then { sd with distance_ultrasonic := h }
  else if key = "turbidity" then { sd with turbidity := h }
  else if key = "tds" then { sd with tds := h }
  else if key = "humidity_dht11" then { sd with humidity_dht11 := h }
  else if key = "temperature_dht11" then { sd with temperature_dht11 := h }
  else sd

/-- Configuration thresholds. -/
structure Config where
  tankTotalVolume : ℚ
  distanceFull : ℚ
  distanceEmpty : ℚ
  turbidityThreshold : ℚ
  tdsMin : ℚ
  tdsMax : ℚ
  tempMin : ℚ
  tempMax : ℚ
  outsideTempMax : ℚ

/-- The `config` constant. -/
def config : Config :=
  { tankTotalVolume := 1000
    distanceFull := 1
    distanceEmpty := 11
    turbidityThreshold := 1000
    tdsMin := 50
    tdsMax := 300
    tempMin := 15
    tempMax := 30
    outsideTempMax := 45 }

/-- The payload `{ latest, historical, config }` sent to observers and
returned by `/api/latest`. -/
structure Snapshot where
  latest : JsProps
  historical : SensorData
  config : Config

/-- Lines written to the console by the message handler. -/
inductive LogLine where
  | dataUpdated (ms : Nat) : LogLine
  | parseError (err : JsError) : LogLine

/-- Server state: the two module-level variables, and the traces of what
has been emitted on the socket server and written to the console. -/
structure Server where
  sensorData : SensorData
  latestData : JsProps
  emitted : List Snapshot
  console : List LogLine

/-- State at module load. -/
def initialServer : Server :=
  { sensorData := ⟨[], [], [], [], [], []⟩
    latestData := []
    emitted := []
    console := [] }

/-- An inbound MQTT message as the handler sees it. -/
structure Inbound where
  topic : String
  parsed : Option JsValue
  now : Nat

/-- State when control leaves a block, and the error thrown, if any. -/
structure Completion (σ : Type) where
  state : σ
  thrown : Option JsError

/-- Lines 81-84 on one array: `push`, then `shift` when the length
exceeds 200. -/
def pushReading (h : List Reading) (r : Reading) : List Reading :=
  let pushed := h ++ [r]
  if pushed.length > 200 then pushed.tail else pushed

/-- The body of the `forEach` callback, lines 80-85.  A key that
`sensorData` inherits passes the truthiness test and has no `push`. -/
def forEachBody (parsed : JsProps) (timestamp : Nat) (sd : SensorData) (key : String) :
    Completion SensorData :=
  match sd.lookup key with
  | SensorLookup.undefined => ⟨sd, none⟩
  | SensorLookup.inherited => ⟨sd, some JsError.typeError⟩
  | SensorLookup.history h =>
    ⟨sd.store key (pushReading h { value := getProp parsed key, timestamp := timestamp }), none⟩

/-- The loop `Object.keys(parsed).forEach(...)`, lines 79-86: stops at the
first key whose callback throws. -/
def forEachKey (parsed : JsProps) (timestamp : Nat) (sd : SensorData) (keys : List String) :
    Completion SensorData :=
  match keys with
  | [] => ⟨sd, none⟩
  | key :: rest =>
    match forEachBody parsed timestamp sd key with
    | ⟨sd1, none⟩ => forEachKey parsed timestamp sd1 rest
    | ⟨sd1, some err⟩ => ⟨sd1, some err⟩

/-- The `try` block, lines 76-96. -/
def tryBlock (s : Server) (msg : Inbound) : Completion Server :=
  match msg.parsed with
  | none => ⟨s, some JsError.syntaxError⟩
  | some parsed =>
    match ownProps parsed with
    | none => ⟨s, some JsError.typeError⟩
    | some props =>
      match forEachKey props msg.now s.sensorData (objectKeys props) with
      | ⟨sd, some err⟩ => ⟨{ s with sensorData := sd }, some err⟩
      | ⟨sd, none⟩ =>
        let latest := setProp props "timestamp" (JsValue.date msg.now)
        ⟨{ sensorData := sd
           latestData := latest
           emitted := s.emitted ++ [{ latest := latest, historical := sd, config := config }]
           console := s.console ++ [LogLine.dataUpdated msg.now] }, none⟩

/-- The handler `mqttClient.on("message", ...)`, lines 72-101. -/
def onMessage (s : Server) (msg : Inbound) : Completion Server :=
  if msg.topic = "sensor/data" then
    match tryBlock s msg with
    | ⟨s1, none⟩ => ⟨s1, none⟩
    | ⟨s1, some err⟩ => ⟨{ s1 with console := s1.console ++ [LogLine.parseError err] }, none⟩
  else ⟨s, none⟩

/-- The handler `app.get("/api/latest", ...)`, lines 104-106. -/
def apiLatest (s : Server) : Snapshot :=
  { latest := s.latestData, historical := s.sensorData, config := config }

/-- The server after handling a sequence of messages in order. -/
def run (s : Server) (msgs : List Inbound) : Server :=
  match msgs with
  | [] => s
  | msg :: rest => run (onMessage s msg).state rest

/-- A message on `sensor/data` whose payload is the object `props`. -/
def objectMessage (props : JsProps) (now : Nat) : Inbound :=
  { topic := "sensor/data", parsed := some (JsValue.obj props), now := now }

/-- Own properties of the parsed payload; `none` when `JSON.parse` or
`Object.keys` throws. -/
def messageProps (msg : Inbound) : Option JsProps :=
  match msg.parsed with
  | none => none
  | some parsed => ownProps parsed

/-- Keys of the payload that the `forEach` loop iterates over; empty when
the loop is never entered. -/
def messageKeys (msg : Inbound) : List String :=
  match messageProps msg with
  | none => []
  | some props => objectKeys props

/-- The read `parsed[key]` on the payload of a message. -/
def messageValue (msg : Inbound) (key : String) : JsValue :=
  match messageProps msg with
  | none => JsValue.undefined
  | some props => getProp props key

/-- Keys whose callback runs to completion: those before the first key
that `sensorData` inherits from `Object.prototype`. -/
def visitedKeys (keys : List String) : List String :=
  match keys with
  | [] => []
  | key :: rest => if key ∈ objectPrototypeKeys then [] else key :: visitedKeys rest

/-- Every channel history holds at most 200 readings. -/
def Bounded (sd : SensorData) : Prop :=
  ∀ c ∈ knownChannels, (sd.history c).length ≤ 200

/-- The message carrying the single value `p.1` for channel `c`, arriving
at time `p.2`. -/
def singleValueMessage (c : String) (p : JsValue × Nat) : Inbound :=
  objectMessage [(c, p.1)] p.2

/-- The reading the handler builds from a value and its arrival time. -/
def readingOf (p : JsValue × Nat) : Reading :=
  { value := p.1, timestamp := p.2 }

/-- The readings `1, 2, ..., n`, the `i`-th arriving at time `i`. -/
def sequentialValues (n : Nat) : List (JsValue × Nat) :=
  (List.range' 1 n).map (fun (i : Nat) => (JsValue.num (i : ℚ), i))

/-- Whether a value is a JavaScript number. -/
def JsValue.isNumber (v : JsValue) : Bool :=
  match v with
  | JsValue.num _ => true
  | _ => false

/-- For each known channel with an entry in `latestData`, that entry is
the value of the channel's last reading, and `latestData.timestamp` is
that reading's timestamp. -/
def LatestAgrees (s : Server) : Prop :=
  ∀ c ∈ knownChannels, hasOwn s.latestData c = true →
    ∃ r, (s.sensorData.history c).getLast? = some r ∧
      getProp s.latestData c = r.value ∧
      getProp s.latestData "timestamp" = JsValue.date r.timestamp

/-- A message for `turbidity`, then a message for `tds`. -/
def turbidityThenTds : List Inbound :=
  [objectMessage [("turbidity", JsValue.num 1)] 10, objectMessage [("tds", JsValue.num 2)] 20]

/-- A message for `turbidity`, then a message for `tds` and `turbidity`. -/
def turbidityThenBoth : List Inbound :=
  [objectMessage [("turbidity", JsValue.num 1)] 10,
   objectMessage [("tds", JsValue.num 2), ("turbidity", JsValue.num 3)] 20]

/-- The payload `{"foo": 1, "constructor": 2}`: no known channel. -/
def unknownKeysMessage : Inbound :=
  objectMessage [("foo", JsValue.num 1), ("constructor", JsValue.num 2)] 7

/-- The payload `{"tds": 5, "foo": 1}`. -/
def tdsAndFooMessage : Inbound :=
  objectMessage [("tds", JsValue.num 5), ("foo", JsValue.num 1)] 7

/-- The payload `{"constructor": 1, "tds": 5}`. -/
def inheritedKeyFirst : Inbound :=
  objectMessage [("constructor", JsValue.num 1), ("tds", JsValue.num 5)] 7

/-- The payload `{"tds": 5, "constructor": 1}`. -/
def inheritedKeyLast : Inbound :=
  objectMessage [("tds", JsValue.num 5), ("constructor", JsValue.num 1)] 7

/-- The payload `{"tds": "abc", "turbidity": 5}`. -/
def nonNumericMessage : Inbound :=
  objectMessage [("tds", JsValue.str "abc"), ("turbidity", JsValue.num 5)] 7

/-- The readings of a history are in non-decreasing timestamp order and
none is stamped later than `t`. -/
def SortedUpTo (t : Nat) (h : List Reading) : Prop :=
  h.Pairwise (fun a b => a.timestamp ≤ b.timestamp) ∧ ∀ r ∈ h, r.timestamp ≤ t

/-- Three messages with arrival times 10, 10 and 20. -/
def threeTimedMessages : List Inbound :=
  [objectMessage [("tds", JsValue.num 1), ("turbidity", JsValue.num 2)] 10,
   objectMessage [("tds", JsValue.num 3)] 10,
   objectMessage [("turbidity", JsValue.num 4), ("tds", JsValue.num 5)] 20]

/-! ### The page scripts

The pages sent by the server carry scripts that handle `dataUpdate`.
Their numbers are embedded as `JsNum`: a finite number, held as the
rational it is equal to, or NaN.  Comparisons and `Math.round` are exact
on doubles and are embedded as such.  The operations `-`, `*` and `/`
are embedded twice: here in exact arithmetic, which keeps the order
properties of the results, and further down with the rounding of each
operation as a parameter (`calculateVolumeWith`, `fillPercentageWith`),
which gives the values the pages show.  Infinities and the sign of zero
are outside the embedding. -/

/-- A number as the page scripts compute with it. -/
inductive JsNum where
  | nan : JsNum
  | fin (q : ℚ) : JsNum
  deriving DecidableEq

/-- The comparison `a < b`: false when either side is NaN. -/
def JsNum.lt (a b : JsNum) : Bool :=
  match a, b with
  | JsNum.fin x, JsNum.fin y => decide (x < y)
  | _, _ => false

/-- The comparison `a <= b`: false when either side is NaN. -/
def JsNum.le (a b : JsNum) : Bool :=
  match a, b with
  | JsNum.fin x, JsNum.fin y => decide (x ≤ y)
  | _, _ => false

/-- The comparison `a > b`. -/
def JsNum.gt (a b : JsNum) : Bool := JsNum.lt b a

/-- The comparison `a >= b`. -/
def JsNum.ge (a b : JsNum) : Bool := JsNum.le b a

/-- The difference `a - b`. -/
def JsNum.sub (a b : JsNum) : JsNum :=
  match a, b with
  | JsNum.fin x, JsNum.fin y => JsNum.fin (x - y)
  | _, _ => JsNum.nan

/-- The product `a * b`. -/
def JsNum.mul (a b : JsNum) : JsNum :=
  match a, b with
  | JsNum.fin x, JsNum.fin y => JsNum.fin (x * y)
  | _, _ => JsNum.nan

/-- The quotient `a / b`.  `0 / 0` is NaN.  A non-zero number over zero is
an infinity in JavaScript, which `JsNum` does not hold: it is rendered as
NaN, and `calculateVolume_fin` and `specVolume_of_empty_tank` show that
the scripts never form such a quotient from a finite reading. -/
def JsNum.div (a b : JsNum) : JsNum :=
  match a, b with
  | JsNum.fin x, JsNum.fin y => if y = 0 then JsNum.nan else JsNum.fin (x / y)
  | _, _ => JsNum.nan

/-- Rounding to the nearest integer, halves toward positive infinity. -/
def roundHalfUp (q : ℚ) : ℤ := ⌊q + 1 / 2⌋

/-- The call `Math.round(a)`. -/
def mathRound (a : JsNum) : JsNum :=
  match a with
  | JsNum.fin x => JsNum.fin (roundHalfUp x)
  | JsNum.nan => JsNum.nan

/-- The function `calculateVolume(distance, config)`, lines 901-907 and,
with the same text, lines 2282-2288, in exact arithmetic: it is
`calculateVolumeWith` under the identity rounding. -/
def calculateVolume (distance : JsNum) (config : Config) : JsNum :=
  if JsNum.le distance (JsNum.fin config.distanceFull) then JsNum.fin config.tankTotalVolume
  else if JsNum.ge distance (JsNum.fin config.distanceEmpty) then JsNum.fin 0
  else
    let percentage := JsNum.sub (JsNum.fin 1)
      (JsNum.div (JsNum.sub distance (JsNum.fin config.distanceFull))
        (JsNum.sub (JsNum.fin config.distanceEmpty) (JsNum.fin config.distanceFull)))
    mathRound (JsNum.mul percentage (JsNum.fin config.tankTotalVolume))

/-- The volume as the specification words it, its cases taken in order. -/
def specVolume (distance : ℚ) (config : Config) : ℚ :=
  if distance ≤ config.distanceFull then config.tankTotalVolume
  else if distance ≥ config.distanceEmpty then 0
  else roundHalfUp (config.tankTotalVolume *
    (1 - (distance - config.distanceFull) / (config.distanceEmpty - config.distanceFull)))

/-- The `className` given to a status indicator: `safe`, `warning` or
`danger`. -/
inductive Indicator where
  | safe : Indicator
  | warning : Indicator
  | danger : Indicator
  deriving DecidableEq

/-- The fill percentage, lines 947 and 2241:
`Math.round((volume / config.tankTotalVolume) * 100)`, in exact
arithmetic: it is `fillPercentageWith` under the identity rounding. -/
def fillPercentage (volume : JsNum) (config : Config) : JsNum :=
  mathRound (JsNum.mul (JsNum.div volume (JsNum.fin config.tankTotalVolume)) (JsNum.fin 100))

/-- The dashboard raises its water-level alert, lines 953-955. -/
def dashboardLowWaterAlert (percentage : JsNum) : Bool :=
  JsNum.lt percentage (JsNum.fin 20)

/-- The three branches of the distance page, lines 2251-2261. -/
inductive LevelStatus where
  | low : LevelStatus
  | moderate : LevelStatus
  | good : LevelStatus
  deriving DecidableEq

/-- The status shown by the distance page, lines 2250-2261. -/
def distancePageStatus (percentage : JsNum) : LevelStatus :=
  if JsNum.lt percentage (JsNum.fin 20) then LevelStatus.low
  else if JsNum.lt percentage (JsNum.fin 50) then LevelStatus.moderate
  else LevelStatus.good

/-- The class each branch of the distance page sets. -/
def LevelStatus.className (st : LevelStatus) : Indicator :=
  match st with
  | LevelStatus.low => Indicator.danger
  | LevelStatus.moderate => Indicator.warning
  | LevelStatus.good => Indicator.safe

/-- Whether the branch of the distance page calls `showAlert`. -/
def LevelStatus.alert (st : LevelStatus) : Bool :=
  match st with
  | LevelStatus.low => true
  | _ => false

/-- The three branches of the temperature page, lines 2193-2204. -/
inductive TemperatureStatus where
  | tooCold : TemperatureStatus
  | tooHot : TemperatureStatus
  | normal : TemperatureStatus
  deriving DecidableEq

/-- The status shown by the temperature page, lines 2192-2204. -/
def temperaturePageStatus (temp : JsNum) (config : Config) : TemperatureStatus :=
  if JsNum.lt temp (JsNum.fin config.tempMin) then TemperatureStatus.tooCold
  else if JsNum.gt temp (JsNum.fin config.tempMax) then TemperatureStatus.tooHot
  else TemperatureStatus.normal

/-- The class each branch of the temperature page sets. -/
def TemperatureStatus.className (st : TemperatureStatus) : Indicator :=
  match st with
  | TemperatureStatus.tooCold => Indicator.warning
  | TemperatureStatus.tooHot => Indicator.danger
  | TemperatureStatus.normal => Indicator.safe

/-- Whether the branch of the temperature page calls `showAlert`. -/
def TemperatureStatus.alert (st : TemperatureStatus) : Bool :=
  match st with
  | TemperatureStatus.normal => false
  | _ => true

/-- The dashboard raises its temperature alert, lines 939-941; it shows
no status indicator for the water temperature. -/
def dashboardTemperatureAlert (temp : JsNum) (config : Config) : Bool :=
  JsNum.lt temp (JsNum.fin config.tempMin) || JsNum.gt temp (JsNum.fin config.tempMax)

/-- The status shown by the dashboard for turbidity, lines 962-969. -/
def dashboardTurbidityStatus (turbidity : JsNum) (config : Config) : Indicator :=
  if JsNum.gt turbidity (JsNum.fin config.turbidityThreshold) then Indicator.danger
  else Indicator.safe

/-- The four branches of the TDS page, lines 2344-2362. -/
inductive TdsStatus where
  | lowMineral : TdsStatus
  | high : TdsStatus
  | excellent : TdsStatus
  | good : TdsStatus
  deriving DecidableEq

/-- The status shown by the TDS page, lines 2344-2362. -/
def tdsPageStatus (tds : JsNum) (config : Config) : TdsStatus :=
  if JsNum.lt tds (JsNum.fin config.tdsMin) then TdsStatus.lowMineral
  else if JsNum.gt tds (JsNum.fin config.tdsMax) then TdsStatus.high
  else if JsNum.le tds (JsNum.fin 150) then TdsStatus.excellent
  else TdsStatus.good

/-- The class each branch of the TDS page sets. -/
def TdsStatus.className (st : TdsStatus) : Indicator :=
  match st with
  | TdsStatus.lowMineral => Indicator.warning
  | TdsStatus.high => Indicator.danger
  | TdsStatus.excellent => Indicator.safe
  | TdsStatus.good => Indicator.safe

/-- Whether the branch of the TDS page calls `showAlert`. -/
def TdsStatus.alert (st : TdsStatus) : Bool :=
  match st with
  | TdsStatus.lowMineral => true
  | TdsStatus.high => true
  | _ => false

/-- The status shown by the dashboard for TDS, lines 976-983; the alert is
raised in the `danger` branch. -/
def dashboardTdsStatus (tds : JsNum) (config : Config) : Indicator :=
  if JsNum.lt tds (JsNum.fin config.tdsMin) || JsNum.gt tds (JsNum.fin config.tdsMax) then
    Indicator.danger
  else Indicator.safe

/-- The three verdicts of the dashboard on tank integrity. -/
inductive Integrity where
  | good : Integrity
  | compromised : Integrity
  | normal : Integrity
  deriving DecidableEq

/-- The verdict of the dashboard, lines 996-1006. -/
def dashboardIntegrity (outsideTemp insideTemp : JsNum) (config : Config) : Integrity :=
  if JsNum.gt outsideTemp (JsNum.fin config.outsideTempMax) &&
      JsNum.lt insideTemp (JsNum.fin config.tempMax) then Integrity.good
  else if JsNum.gt outsideTemp (JsNum.fin config.outsideTempMax) &&
      JsNum.gt insideTemp (JsNum.fin config.tempMax) then Integrity.compromised
  else Integrity.normal

/-- The three verdicts of the environment page on tank integrity. -/
inductive EnvironmentIntegrity where
  | excellent : EnvironmentIntegrity
  | compromised : EnvironmentIntegrity
  | normal : EnvironmentIntegrity
  deriving DecidableEq

/-- The verdict of the environment page, lines 2435-2445. -/
def environmentIntegrity (outsideTemp insideTemp : JsNum) (config : Config) :
    EnvironmentIntegrity :=
  if JsNum.gt outsideTemp (JsNum.fin config.outsideTempMax) &&
      JsNum.lt insideTemp (JsNum.fin config.tempMax) then EnvironmentIntegrity.excellent
  else if JsNum.gt outsideTemp (JsNum.fin config.outsideTempMax) &&
      JsNum.gt insideTemp (JsNum.fin config.tempMax) then EnvironmentIntegrity.compromised
  else EnvironmentIntegrity.normal

/-- The test `v === undefined`. -/
def JsValue.isUndefined (v : JsValue) : Bool :=
  match v with
  | JsValue.undefined => true
  | _ => false

/-- Truthiness of a value: `undefined`, `null`, `false`, `0` and the
empty string are falsy. -/
def JsValue.truthy (v : JsValue) : Bool :=
  match v with
  | JsValue.undefined => false
  | JsValue.null => false
  | JsValue.bool b => b
  | JsValue.num x => decide (x ≠ 0)
  | JsValue.str s => decide (s ≠ "")
  | _ => true

/-- The expression `v || d`. -/
def JsValue.orElse (v d : JsValue) : JsValue :=
  if v.truthy then v else d

/-- A message on a topic other than `sensor/data`. -/
def otherTopicMessage : Inbound :=
  { topic := "sensor/other", parsed := some (JsValue.obj [("tds", JsValue.num 9)]), now := 30 }

/-- The quality labels of the history table of the TDS page. -/
inductive TdsQuality where
  | lowMineral : TdsQuality
  | excellent : TdsQuality
  | good : TdsQuality
  | fair : TdsQuality
  | poor : TdsQuality
  deriving DecidableEq

/-- The quality label of one row of the TDS history table, lines
2374-2379. -/
def tdsRowQuality (tdsVal : JsNum) : TdsQuality :=
  if JsNum.lt tdsVal (JsNum.fin 50) then TdsQuality.lowMineral
  else if JsNum.le tdsVal (JsNum.fin 150) then TdsQuality.excellent
  else if JsNum.le tdsVal (JsNum.fin 300) then TdsQuality.good
  else if JsNum.le tdsVal (JsNum.fin 500) then TdsQuality.fair
  else TdsQuality.poor

/-- The three ways `calculateVolume` returns. -/
inductive VolumeBranch where
  | full : VolumeBranch
  | empty : VolumeBranch
  | interpolated : VolumeBranch
  deriving DecidableEq

/-- The branch `calculateVolume` takes: the two tests of lines 903-904
(and 2284-2285), in order. -/
def volumeBranch (distance : JsNum) (config : Config) : VolumeBranch :=
  if JsNum.le distance (JsNum.fin config.distanceFull) then VolumeBranch.full
  else if JsNum.ge distance (JsNum.fin config.distanceEmpty) then VolumeBranch.empty
  else VolumeBranch.interpolated

/-- A configuration whose full and empty distances coincide. -/
def equalDistancesConfig : Config :=
  { config with distanceFull := 5, distanceEmpty := 5 }

/-- A configuration whose tank volume is not a whole number. -/
def fractionalTankConfig : Config :=
  { config with tankTotalVolume := 3 / 5 }

/-! ### The socket server

`server.js` creates the socket.io server `io` (line 9) and uses it in one
place, `io.emit("dataUpdate", ...)` on line 90.  The library hands the
payload of `io.emit` to every socket connected at that moment.
`server.js` registers no `connection` listener, and no page script
requests `/api/latest`. -/

/-- What happens at the server: a page connects or disconnects its
socket, or an MQTT message arrives. -/
inductive ServerEvent where
  | connect (socket : Nat) : ServerEvent
  | disconnect (socket : Nat) : ServerEvent
  | message (msg : Inbound) : ServerEvent

/-- The server together with its sockets: the connected ones, and every
delivery made so far as a pair of socket and payload. -/
structure Hub where
  server : Server
  connected : List Nat
  deliveries : List (Nat × Snapshot)

/-- The hub at module load. -/
def initialHub : Hub :=
  { server := initialServer, connected := [], deliveries := [] }

/-- One call of `io.emit`: the payload goes to each connected socket. -/
def broadcast (connected : List Nat) (payload : Snapshot) : List (Nat × Snapshot) :=
  connected.map (fun socket => (socket, payload))

/-- The deliveries of several payloads, in order. -/
def broadcastAll (connected : List Nat) (payloads : List Snapshot) : List (Nat × Snapshot) :=
  match payloads with
  | [] => []
  | payload :: rest => broadcast connected payload ++ broadcastAll connected rest

/-- The payloads the handler emits while it handles one message. -/
def emittedBy (s : Server) (msg : Inbound) : List Snapshot :=
  (onMessage s msg).state.emitted.drop s.emitted.length

/-- One event at the hub.  Connecting sends nothing: there is no
`connection` listener. -/
def Hub.step (h : Hub) (ev : ServerEvent) : Hub :=
  match ev with
  | ServerEvent.connect socket =>
    { h with connected := if socket ∈ h.connected then h.connected else h.connected ++ [socket] }
  | ServerEvent.disconnect socket =>
    { h with connected := h.connected.filter (fun other => decide (other ≠ socket)) }
  | ServerEvent.message msg =>
    { server := (onMessage h.server msg).state
      connected := h.connected
      deliveries := h.deliveries ++ broadcastAll h.connected (emittedBy h.server msg) }

/-- The hub after a sequence of events. -/
def Hub.runEvents (h : Hub) (evs : List ServerEvent) : Hub :=
  match evs with
  | [] => h
  | ev :: rest => Hub.runEvents (h.step ev) rest

/-- The payloads one socket has been handed, in order. -/
def Hub.receivedBy (h : Hub) (socket : Nat) : List Snapshot :=
  (h.deliveries.filter (fun d => decide (d.1 = socket))).map Prod.snd

/-- One message, then socket 7 connects. -/
def messageThenConnect : List ServerEvent :=
  [ServerEvent.message tdsAndFooMessage, ServerEvent.connect 7]

/-! ### Arithmetic in doubles

A JavaScript number is an IEEE 754 double: `a - b`, `a * b` and `a / b`
yield the exact result rounded to the nearest double, ties to even.  The
definitions below take that rounding as a parameter `rnd`, applied after
each operation; `roundToDouble` is the rounding of the language, and the
identity gives the exact arithmetic of `calculateVolume` and
`fillPercentage` above.  Comparisons and `Math.round` are exact on
doubles.  A result beyond the largest double, which the language turns
into an infinity, stays finite here. -/

/-- Rounding to the nearest integer, ties to the even one. -/
def roundHalfEven (q : ℚ) : ℤ :=
  if q - ⌊q⌋ < 1 / 2 then ⌊q⌋
  else if q - ⌊q⌋ > 1 / 2 then ⌊q⌋ + 1
  else if ⌊q⌋ % 2 = 0 then ⌊q⌋ else ⌊q⌋ + 1

/-- The binary exponent under which a double holds `x`: the `e` with
`2 ^ e ≤ |x| < 2 ^ (e + 1)`, and `-1022` below the normal range. -/
def doubleExponent (x : ℚ) : ℤ := max (Int.log 2 |x|) (-1022)

/-- The double nearest to `x`, ties to even: doubles of exponent `e` are
the multiples of `2 ^ (e - 52)`. -/
def roundToDouble (x : ℚ) : ℚ :=
  roundHalfEven (x / 2 ^ (doubleExponent x - 52)) * 2 ^ (doubleExponent x - 52)

/-- The literal `0.7` of line 2305: the double nearest to `7 / 10`. -/
def pointSeven : ℚ := 3152519739159347 / 4503599627370496

/-- The difference `a - b`, rounded. -/
def JsNum.subWith (rnd : ℚ → ℚ) (a b : JsNum) : JsNum :=
  match a, b with
  | JsNum.fin x, JsNum.fin y => JsNum.fin (rnd (x - y))
  | _, _ => JsNum.nan

/-- The product `a * b`, rounded. -/
def JsNum.mulWith (rnd : ℚ → ℚ) (a b : JsNum) : JsNum :=
  match a, b with
  | JsNum.fin x, JsNum.fin y => JsNum.fin (rnd (x * y))
  | _, _ => JsNum.nan

/-- The quotient `a / b`, rounded; a zero divisor as in `JsNum.div`. -/
def JsNum.divWith (rnd : ℚ → ℚ) (a b : JsNum) : JsNum :=
  match a, b with
  | JsNum.fin x, JsNum.fin y => if y = 0 then JsNum.nan else JsNum.fin (rnd (x / y))
  | _, _ => JsNum.nan

/-- The function `calculateVolume(distance, config)`, lines 901-907 and
2282-2288, each arithmetic operation rounded by `rnd`. -/
def calculateVolumeWith (rnd : ℚ → ℚ) (distance : JsNum) (config : Config) : JsNum :=
  if JsNum.le distance (JsNum.fin config.distanceFull) then JsNum.fin config.tankTotalVolume
  else if JsNum.ge distance (JsNum.fin config.distanceEmpty) then JsNum.fin 0
  else
    let percentage := JsNum.subWith rnd (JsNum.fin 1)
      (JsNum.divWith rnd (JsNum.subWith rnd distance (JsNum.fin config.distanceFull))
        (JsNum.subWith rnd (JsNum.fin config.distanceEmpty) (JsNum.fin config.distanceFull)))
    mathRound (JsNum.mulWith rnd percentage (JsNum.fin config.tankTotalVolume))

/-- The volume as the specification words it, its cases taken in order
and its operations rounded by `rnd`:
`round(tankTotalVolume * (1 - (distance - distanceFull) / (distanceEmpty - distanceFull)))`. -/
def specVolumeWith (rnd : ℚ → ℚ) (distance : JsNum) (config : Config) : JsNum :=
  if JsNum.le distance (JsNum.fin config.distanceFull) then JsNum.fin config.tankTotalVolume
  else if JsNum.ge distance (JsNum.fin config.distanceEmpty) then JsNum.fin 0
  else
    mathRound (JsNum.mulWith rnd (JsNum.fin config.tankTotalVolume)
      (JsNum.subWith rnd (JsNum.fin 1)
        (JsNum.divWith rnd (JsNum.subWith rnd distance (JsNum.fin config.distanceFull))
          (JsNum.subWith rnd (JsNum.fin config.distanceEmpty)
            (JsNum.fin config.distanceFull)))))

/-- The fill percentage, lines 947 and 2241:
`Math.round((volume / config.tankTotalVolume) * 100)`, the quotient and
the product rounded by `rnd`. -/
def fillPercentageWith (rnd : ℚ → ℚ) (volume : JsNum) (config : Config) : JsNum :=
  mathRound (JsNum.mulWith rnd (JsNum.divWith rnd volume (JsNum.fin config.tankTotalVolume))
    (JsNum.fin 100))

/-- The fill percentage as the specification words it:
`round(100 * volume / tankTotalVolume)`, the product and the quotient
rounded by `rnd`. -/
def specPercentageWith (rnd : ℚ → ℚ) (volume : JsNum) (config : Config) : JsNum :=
  mathRound (JsNum.divWith rnd (JsNum.mulWith rnd (JsNum.fin 100) volume)
    (JsNum.fin config.tankTotalVolume))

/-- The status shown by the turbidity page, lines 2300-2313; the product
`config.turbidityThreshold * 0.7` is rounded by `rnd`. -/
def turbidityPageStatus (rnd : ℚ → ℚ) (turbidity : JsNum) (config : Config) : Indicator :=
  if JsNum.gt turbidity (JsNum.fin config.turbidityThreshold) then Indicator.danger
  else if JsNum.gt turbidity
      (JsNum.mulWith rnd (JsNum.fin config.turbidityThreshold) (JsNum.fin pointSeven)) then
    Indicator.warning
  else Indicator.safe

/-- A configuration with `turbidityThreshold = 87585`. -/
def highThresholdConfig : Config :=
  { config with turbidityThreshold := 87585 }

/-! ### The `dataUpdate` handlers

Each page handles `dataUpdate` with a sequence of blocks, each guarded by
a test that its channel is present in `latest`.  `parseFloat` converts
its argument to a string first, and that conversion throws `TypeError` on
an object with an own property `toString`, which in a parsed JSON payload
is never a function.  No block catches the error: a throw ends the
handler, and the blocks after it do not run.  Nothing else in a block
throws: every element the handlers look up by id is in the page they run
in, and `toFixed`, the comparisons and `new Date(latest.timestamp)` accept
every number and every timestamp the server sends. -/

/-- The library calls under `parseFloat`: the number read from a string,
and the number read from the string form of an array, where
`Array.prototype.join` can throw. -/
structure Library where
  parseString : String → JsNum
  parseArray : List JsValue → Except JsError JsNum

/-- The call `parseFloat(v)`.  On a number it is the number; on
`undefined`, `null`, a boolean and a `Date` it is NaN; on an object it is
NaN when the inherited `toString` is reached and a `TypeError` when an own
property `toString` shadows it; on a string and an array it is what the
library reads. -/
def parseFloat (lib : Library) (v : JsValue) : Except JsError JsNum :=
  match v with
  | JsValue.num x => Except.ok (JsNum.fin x)
  | JsValue.undefined => Except.ok JsNum.nan
  | JsValue.null => Except.ok JsNum.nan
  | JsValue.bool _ => Except.ok JsNum.nan
  | JsValue.date _ => Except.ok JsNum.nan
  | JsValue.str s => Except.ok (lib.parseString s)
  | JsValue.arr xs => lib.parseArray xs
  | JsValue.obj props =>
    if hasOwn props "toString" then Except.error JsError.typeError else Except.ok JsNum.nan

/-- Whether `parseFloat(v)` returns, with a number or NaN. -/
def parses (lib : Library) (v : JsValue) : Bool :=
  match parseFloat lib v with
  | Except.ok _ => true
  | Except.error _ => false

/-- A library that reads no number from any string or array. -/
def parseNothing : Library :=
  { parseString := fun _ => JsNum.nan, parseArray := fun _ => Except.ok JsNum.nan }

/-- The test `latest[key] !== undefined`. -/
def isPresent (latest : JsProps) (key : String) : Bool :=
  !(getProp latest key).isUndefined

/-- Whether a block that ends in a status class calls `showAlert`: the
turbidity blocks and the TDS block of the dashboard do so in their
`danger` branch only. -/
def Indicator.raisesAlert (st : Indicator) : Bool :=
  match st with
  | Indicator.danger => true
  | _ => false

/-- The channels the dashboard classifies each in a block of its own,
in the order of the blocks. -/
def waterChannels : List String :=
  ["temperature_ds18b20", "distance_ultrasonic", "turbidity", "tds"]

/-- The water-temperature block of the dashboard, lines 934-942: `none`
when the block is skipped, else whether it calls `showAlert`. -/
def dashboardTemperatureBlock (lib : Library) (latest : JsProps) (config : Config) :
    Except JsError (Option Bool) :=
  if isPresent latest "temperature_ds18b20" then
    match parseFloat lib (getProp latest "temperature_ds18b20") with
    | Except.error err => Except.error err
    | Except.ok temp => Except.ok (some (dashboardTemperatureAlert temp config))
  else Except.ok none

/-- The water-level block of the dashboard, lines 944-956: `none` when
the block is skipped, else the percentage it shows. -/
def dashboardDistanceBlock (rnd : ℚ → ℚ) (lib : Library) (latest : JsProps) (config : Config) :
    Except JsError (Option JsNum) :=
  if isPresent latest "distance_ultrasonic" then
    match parseFloat lib (getProp latest "distance_ultrasonic") with
    | Except.error err => Except.error err
    | Except.ok distance =>
      Except.ok (some (fillPercentageWith rnd (calculateVolumeWith rnd distance config) config))
  else Except.ok none

/-- The turbidity block of the dashboard, lines 958-970. -/
def dashboardTurbidityBlock (lib : Library) (latest : JsProps) (config : Config) :
    Except JsError (Option Indicator) :=
  if isPresent latest "turbidity" then
    match parseFloat lib (getProp latest "turbidity") with
    | Except.error err => Except.error err
    | Except.ok turbidity => Except.ok (some (dashboardTurbidityStatus turbidity config))
  else Except.ok none

/-- The TDS block of the dashboard, lines 972-984. -/
def dashboardTdsBlock (lib : Library) (latest : JsProps) (config : Config) :
    Except JsError (Option Indicator) :=
  if isPresent latest "tds" then
    match parseFloat lib (getProp latest "tds") with
    | Except.error err => Except.error err
    | Except.ok tds => Except.ok (some (dashboardTdsStatus tds config))
  else Except.ok none

/-- The tank-integrity block of the dashboard, lines 986-1007: it reads
the ambient temperature, the humidity and the water temperature, in that
order. -/
def dashboardIntegrityBlock (lib : Library) (latest : JsProps) (config : Config) :
    Except JsError (Option Integrity) :=
  if isPresent latest "temperature_dht11" && isPresent latest "humidity_dht11" then
    match parseFloat lib (getProp latest "temperature_dht11") with
    | Except.error err => Except.error err
    | Except.ok outsideTemp =>
      match parseFloat lib (getProp latest "humidity_dht11") with
      | Except.error err => Except.error err
      | Except.ok _ =>
        match parseFloat lib (getProp latest "temperature_ds18b20") with
        | Except.error err => Except.error err
        | Except.ok insideTemp => Except.ok (some (dashboardIntegrity outsideTemp insideTemp config))
  else Except.ok none

/-- What the dashboard has derived from the `latest` object of one
`dataUpdate`: for each block `none` when the block was skipped or never
reached. -/
structure DashboardView where
  temperatureAlert : Option Bool
  percentage : Option JsNum
  lowWaterAlert : Option Bool
  turbidity : Option Indicator
  tds : Option Indicator
  integrity : Option Integrity

/-- The dashboard before any block has run. -/
def blankView : DashboardView :=
  { temperatureAlert := none, percentage := none, lowWaterAlert := none,
    turbidity := none, tds := none, integrity := none }

/-- Lines 934-1007 of the `dataUpdate` handler of the dashboard, on the
`latest` object and the `config` of the payload: the five blocks in
order, up to the first that throws. -/
def dashboardUpdate (rnd : ℚ → ℚ) (lib : Library) (latest : JsProps) (config : Config) :
    Completion DashboardView :=
  match dashboardTemperatureBlock lib latest config with
  | Except.error err => ⟨blankView, some err⟩
  | Except.ok temperatureAlert =>
    match dashboardDistanceBlock rnd lib latest config with
    | Except.error err => ⟨{ blankView with temperatureAlert := temperatureAlert }, some err⟩
    | Except.ok percentage =>
      match dashboardTurbidityBlock lib latest config with
      | Except.error err =>
        ⟨{ blankView with
            temperatureAlert := temperatureAlert
            percentage := percentage
            lowWaterAlert := percentage.map dashboardLowWaterAlert }, some err⟩
      | Except.ok turbidity =>
        match dashboardTdsBlock lib latest config with
        | Except.error err =>
          ⟨{ blankView with
              temperatureAlert := temperatureAlert
              percentage := percentage
              lowWaterAlert := percentage.map dashboardLowWaterAlert
              turbidity := turbidity }, some err⟩
        | Except.ok tds =>
          match dashboardIntegrityBlock lib latest config with
          | Except.error err =>
            ⟨{ temperatureAlert := temperatureAlert
               percentage := percentage
               lowWaterAlert := percentage.map dashboardLowWaterAlert
               turbidity := turbidity
               tds := tds
               integrity := none }, some err⟩
          | Except.ok integrity =>
            ⟨{ temperatureAlert := temperatureAlert
               percentage := percentage
               lowWaterAlert := percentage.map dashboardLowWaterAlert
               turbidity := turbidity
               tds := tds
               integrity := integrity }, none⟩

/-- The values `data.map(item => parseFloat(item.value))`, in order. -/
def parseValues (lib : Library) (data : List Reading) : Except JsError (List JsNum) :=
  match data with
  | [] => Except.ok []
  | item :: rest =>
    match parseFloat lib item.value with
    | Except.error err => Except.error err
    | Except.ok value =>
      match parseValues lib rest with
      | Except.error err => Except.error err
      | Except.ok values => Except.ok (value :: values)

/-- The function `updateChart`, lines 1016-1022, on one history: `none`
when it returns without touching the chart, else the timestamps behind
the labels and the plotted values of the last 50 readings. -/
def updateChart (lib : Library) (data : List Reading) :
    Except JsError (Option (List Nat × List JsNum)) :=
  if data.length = 0 then Except.ok none
  else
    match parseValues lib (data.drop (data.length - 50)) with
    | Except.error err => Except.error err
    | Except.ok values =>
      Except.ok (some ((data.drop (data.length - 50)).map (fun item => item.timestamp), values))

/-- The function `updateDHTChart`, lines 1024-1031: the timestamps behind
the labels and the two plotted series.  Its early return needs a history
that is not an array, which `historical` never holds. -/
def updateDHTChart (lib : Library) (historical : SensorData) :
    Except JsError (List Nat × List JsNum × List JsNum) :=
  match parseValues lib
      (historical.temperature_dht11.drop (historical.temperature_dht11.length - 50)) with
  | Except.error err => Except.error err
  | Except.ok temperatures =>
    match parseValues lib
        (historical.humidity_dht11.drop (historical.humidity_dht11.length - 50)) with
    | Except.error err => Except.error err
    | Except.ok humidities =>
      Except.ok ((historical.temperature_dht11.drop
        (historical.temperature_dht11.length - 50)).map (fun item => item.timestamp),
        temperatures, humidities)

/-- The charts the dashboard has redrawn: for each chart `none` when
`updateChart` returned early or the chart was never reached. -/
structure ChartsView where
  tempWater : Option (List Nat × List JsNum)
  distance : Option (List Nat × List JsNum)
  turbidity : Option (List Nat × List JsNum)
  tds : Option (List Nat × List JsNum)
  dht : Option (List Nat × List JsNum × List JsNum)

/-- The dashboard before any chart has been redrawn. -/
def blankCharts : ChartsView :=
  { tempWater := none, distance := none, turbidity := none, tds := none, dht := none }

/-- Lines 1009-1013 of the handler: the five chart updates in order, up
to the first that throws. -/
def dashboardCharts (lib : Library) (historical : SensorData) : Completion ChartsView :=
  match updateChart lib historical.temperature_ds18b20 with
  | Except.error err => ⟨blankCharts, some err⟩
  | Except.ok tempWater =>
    match updateChart lib historical.distance_ultrasonic with
    | Except.error err => ⟨{ blankCharts with tempWater := tempWater }, some err⟩
    | Except.ok distance =>
      match updateChart lib historical.turbidity with
      | Except.error err =>
        ⟨{ blankCharts with tempWater := tempWater, distance := distance }, some err⟩
      | Except.ok turbidity =>
        match updateChart lib historical.tds with
        | Except.error err =>
          ⟨{ blankCharts with
              tempWater := tempWater, distance := distance, turbidity := turbidity }, some err⟩
        | Except.ok tds =>
          match updateDHTChart lib historical with
          | Except.error err =>
            ⟨{ tempWater := tempWater, distance := distance, turbidity := turbidity,
               tds := tds, dht := none }, some err⟩
          | Except.ok dht =>
            ⟨{ tempWater := tempWater, distance := distance, turbidity := turbidity,
               tds := tds, dht := some dht }, none⟩

/-- The `dataUpdate` handler of the dashboard, lines 928-1014, on one
payload: the status blocks, then the charts. -/
def dashboardHandler (rnd : ℚ → ℚ) (lib : Library) (data : Snapshot) :
    Completion (DashboardView × ChartsView) :=
  match dashboardUpdate rnd lib data.latest data.config with
  | ⟨view, some err⟩ => ⟨(view, blankCharts), some err⟩
  | ⟨view, none⟩ =>
    match dashboardCharts lib data.historical with
    | ⟨charts, thrown⟩ => ⟨(view, charts), thrown⟩

/-- The status block of the temperature page, lines 2177-2205. -/
def temperaturePageUpdate (lib : Library) (latest : JsProps) (config : Config) :
    Except JsError (Option TemperatureStatus) :=
  if isPresent latest "temperature_ds18b20" then
    match parseFloat lib (getProp latest "temperature_ds18b20") with
    | Except.error err => Except.error err
    | Except.ok temp => Except.ok (some (temperaturePageStatus temp config))
  else Except.ok none

/-- The status block of the distance page, lines 2238-2262. -/
def distancePageUpdate (rnd : ℚ → ℚ) (lib : Library) (latest : JsProps) (config : Config) :
    Except JsError (Option LevelStatus) :=
  if isPresent latest "distance_ultrasonic" then
    match parseFloat lib (getProp latest "distance_ultrasonic") with
    | Except.error err => Except.error err
    | Except.ok distance =>
      Except.ok (some (distancePageStatus
        (fillPercentageWith rnd (calculateVolumeWith rnd distance config) config)))
  else Except.ok none

/-- The status block of the turbidity page, lines 2293-2314. -/
def turbidityPageUpdate (rnd : ℚ → ℚ) (lib : Library) (latest : JsProps) (config : Config) :
    Except JsError (Option Indicator) :=
  if isPresent latest "turbidity" then
    match parseFloat lib (getProp latest "turbidity") with
    | Except.error err => Except.error err
    | Except.ok turbidity => Except.ok (some (turbidityPageStatus rnd turbidity config))
  else Except.ok none

/-- The status block of the TDS page, lines 2337-2363. -/
def tdsPageUpdate (lib : Library) (latest : JsProps) (config : Config) :
    Except JsError (Option TdsStatus) :=
  if isPresent latest "tds" then
    match parseFloat lib (getProp latest "tds") with
    | Except.error err => Except.error err
    | Except.ok tds => Except.ok (some (tdsPageStatus tds config))
  else Except.ok none

/-- The tank-integrity verdict of the environment page, lines 2392-2446:
the block reads the ambient temperature, the humidity and
`latest.temperature_ds18b20 || 0`, in that order. -/
def environmentPageUpdate (lib : Library) (latest : JsProps) (config : Config) :
    Except JsError (Option EnvironmentIntegrity) :=
  if isPresent latest "temperature_dht11" && isPresent latest "humidity_dht11" then
    match parseFloat lib (getProp latest "temperature_dht11") with
    | Except.error err => Except.error err
    | Except.ok outsideTemp =>
      match parseFloat lib (getProp latest "humidity_dht11") with
      | Except.error err => Except.error err
      | Except.ok _ =>
        match parseFloat lib ((getProp latest "temperature_ds18b20").orElse (JsValue.num 0)) with
        | Except.error err => Except.error err
        | Except.ok insideTemp =>
          Except.ok (some (environmentIntegrity outsideTemp insideTemp config))
  else Except.ok none

/-- The verdict of the environment page that bears the same meaning as a
verdict of the dashboard. -/
def Integrity.toEnvironment (v : Integrity) : EnvironmentIntegrity :=
  match v with
  | Integrity.good => EnvironmentIntegrity.excellent
  | Integrity.compromised => EnvironmentIntegrity.compromised
  | Integrity.normal => EnvironmentIntegrity.normal

/-- The object `{"toString": 1}`. -/
def unprintable : JsValue := JsValue.obj [("toString", JsValue.num 1)]

/-- A `latest` object with both temperatures and no humidity. -/
def latestWithoutHumidity : JsProps :=
  [("temperature_dht11", JsValue.num 46), ("temperature_ds18b20", JsValue.num 25),
   ("timestamp", JsValue.str "2025-01-01T00:00:00.000Z")]

/-- A `latest` object with ambient temperature and humidity and no water
temperature. -/
def latestWithoutWater : JsProps :=
  [("temperature_dht11", JsValue.num 46), ("humidity_dht11", JsValue.num 50),
   ("timestamp", JsValue.str "2025-01-01T00:00:00.000Z")]

/-- A `latest` object in which the water temperature is `null`. -/
def latestWithNullWater : JsProps :=
  [("temperature_dht11", JsValue.num 46), ("humidity_dht11", JsValue.num 50),
   ("temperature_ds18b20", JsValue.null),
   ("timestamp", JsValue.str "2025-01-01T00:00:00.000Z")]

/-- A `latest` object with all six channels. -/
def latestWithAll : JsProps :=
  [("temperature_ds18b20", JsValue.num 25), ("distance_ultrasonic", JsValue.num 6),
   ("turbidity", JsValue.num 800), ("tds", JsValue.num 40),
   ("humidity_dht11", JsValue.num 50), ("temperature_dht11", JsValue.num 46),
   ("timestamp", JsValue.str "2025-01-01T00:00:00.000Z")]

/-- A `latest` object whose water temperature is `{"toString": 1}` and
whose TDS is 400. -/
def latestWithUnprintableWater : JsProps :=
  [("temperature_ds18b20", unprintable), ("tds", JsValue.num 400),
   ("timestamp", JsValue.str "2025-01-01T00:00:00.000Z")]

/-- A `latest` object with ambient temperature 46, humidity 50, water
temperature 25 and the TDS `{"toString": 1}`. -/
def latestWithUnprintableTds : JsProps :=
  [("temperature_ds18b20", JsValue.num 25), ("tds", unprintable),
   ("humidity_dht11", JsValue.num 50), ("temperature_dht11", JsValue.num 46),
   ("timestamp", JsValue.str "2025-01-01T00:00:00.000Z")]

/-- A `latest` object with ambient temperature 46, water temperature 25
and the humidity `{"toString": 1}`. -/
def latestWithUnprintableHumidity : JsProps :=
  [("temperature_ds18b20", JsValue.num 25), ("humidity_dht11", unprintable),
   ("temperature_dht11", JsValue.num 46),
   ("timestamp", JsValue.str "2025-01-01T00:00:00.000Z")]

/-- The payload of a `dataUpdate` with the given `latest` object, empty
histories and the configured thresholds. -/
def payloadOf (latest : JsProps) : Snapshot :=
  { latest := latest, historical := ⟨[], [], [], [], [], []⟩, config := config }

/-! ## Reading and writing `sensorData` -/

theorem mem_knownChannels {c : String} :
    c ∈ knownChannels ↔ c = "temperature_ds18b20" ∨ c = "distance_ultrasonic" ∨
      c = "turbidity" ∨ c = "tds" ∨ c = "humidity_dht11" ∨ c = "temperature_dht11" := by
  simp [knownChannels]

theorem lookup_of_known (sd : SensorData) {c : String} (hc : c ∈ knownChannels) :
    sd.lookup c = SensorLookup.history (sd.history c) := by
  rcases mem_knownChannels.mp hc with h | h | h | h | h | h <;> subst h <;>
    simp [SensorData.lookup, SensorData.history]

theorem lookup_of_not_known (sd : SensorData) {k : String} (hk : k ∉ knownChannels) :
    sd.lookup k = (if k ∈ objectPrototypeKeys then SensorLookup.inherited
      else SensorLookup.undefined) := by
  have h := mt mem_knownChannels.mpr hk
  simp only [not_or] at h
  obtain ⟨h1, h2, h3, h4, h5, h6⟩ := h
  simp [SensorData.lookup, h1, h2, h3, h4, h5, h6]

theorem not_known_of_prototype {k : String} (hk : k ∈ objectPrototypeKeys) :
    k ∉ knownChannels := by
  simp only [objectPrototypeKeys, List.mem_cons, List.mem_singleton, List.not_mem_nil,
    or_false] at hk
  rcases hk with h | h | h | h | h | h | h | h | h | h | h | h <;> subst h <;> decide

theorem history_store_same (sd : SensorData) {c : String} (hc : c ∈ knownChannels)
    (h : List Reading) : (sd.store c h).history c = h := by
  rcases mem_knownChannels.mp hc with e | e | e | e | e | e <;> subst e <;>
    simp [SensorData.lookup, SensorData.history, SensorData.store]

theorem history_store_other (sd : SensorData) {c k : String} (hne : k ≠ c)
    (h : List Reading) : (sd.store k h).history c = sd.history c := by
  unfold SensorData.store
  split_ifs <;> subst_vars <;>
    simp_all [SensorData.lookup, SensorData.history, eq_comm]

/-! ## Pushing one reading -/

theorem pushReading_of_lt {h : List Reading} (r : Reading) (hlen : h.length < 200) :
    pushReading h r = h ++ [r] := by
  have : ¬ (h.length + 1 > 200) := by omega
  simp [pushReading, this]

theorem pushReading_of_full {h : List Reading} (r : Reading) (hlen : h.length = 200) :
    pushReading h r = h.tail ++ [r] := by
  cases h with
  | nil => simp at hlen
  | cons a t =>
    have ht : 200 < t.length + 1 + 1 := by simp at hlen; omega
    simp [pushReading, ht]

theorem pushReading_length_le {h : List Reading} (r : Reading) (hlen : h.length ≤ 200) :
    (pushReading h r).length ≤ 200 := by
  rcases Nat.lt_or_ge h.length 200 with hlt | hge
  · rw [pushReading_of_lt r hlt]; simp; omega
  · have heq : h.length = 200 := by omega
    rw [pushReading_of_full r heq]; simp; omega

theorem pushReading_eq_drop {h : List Reading} (r : Reading) (hlen : h.length ≤ 200) :
    pushReading h r = (h ++ [r]).drop ((h ++ [r]).length - 200) := by
  rcases Nat.lt_or_ge h.length 200 with hlt | hge
  · rw [pushReading_of_lt r hlt]
    have : (h ++ [r]).length - 200 = 0 := by simp; omega
    rw [this, List.drop_zero]
  · have heq : h.length = 200 := by omega
    rw [pushReading_of_full r heq]
    have : (h ++ [r]).length - 200 = 1 := by simp; omega
    rw [this]
    cases h with
    | nil => simp at heq
    | cons a t => simp

theorem pushReading_getLast? (h : List Reading) (r : Reading) :
    (pushReading h r).getLast? = some r := by
  unfold pushReading
  cases h with
  | nil => simp
  | cons a t =>
    by_cases hl : 200 < t.length + 1 + 1
    · simp [hl]
    · have hlast : (a :: (t ++ [r])).getLast? = some r := by
        rw [← List.cons_append, List.getLast?_append]
        simp
      simp [hl, hlast]

theorem pushReading_ne_nil (h : List Reading) (r : Reading) : pushReading h r ≠ [] := by
  intro hnil
  have := pushReading_getLast? h r
  rw [hnil] at this
  simp at this

/-! ## One key of the loop -/

theorem forEachBody_known (parsed : JsProps) (t : Nat) (sd : SensorData) {c : String}
    (hc : c ∈ knownChannels) :
    forEachBody parsed t sd c =
      ⟨sd.store c (pushReading (sd.history c) ⟨getProp parsed c, t⟩), none⟩ := by
  simp [forEachBody, lookup_of_known sd hc]

theorem forEachBody_prototype (parsed : JsProps) (t : Nat) (sd : SensorData) {k : String}
    (hk : k ∈ objectPrototypeKeys) :
    forEachBody parsed t sd k = ⟨sd, some JsError.typeError⟩ := by
  simp [forEachBody, lookup_of_not_known sd (not_known_of_prototype hk), hk]

theorem forEachBody_other (parsed : JsProps) (t : Nat) (sd : SensorData) {k : String}
    (hk : k ∉ knownChannels) (hp : k ∉ objectPrototypeKeys) :
    forEachBody parsed t sd k = ⟨sd, none⟩ := by
  simp [forEachBody, lookup_of_not_known sd hk, hp]

theorem forEachKey_nil (parsed : JsProps) (t : Nat) (sd : SensorData) :
    forEachKey parsed t sd [] = ⟨sd, none⟩ := rfl

theorem forEachKey_cons_known (parsed : JsProps) (t : Nat) (sd : SensorData) {c : String}
    (hc : c ∈ knownChannels) (rest : List String) :
    forEachKey parsed t sd (c :: rest) =
      forEachKey parsed t (sd.store c (pushReading (sd.history c) ⟨getProp parsed c, t⟩)) rest := by
  simp [forEachKey, forEachBody_known parsed t sd hc]

theorem forEachKey_cons_prototype (parsed : JsProps) (t : Nat) (sd : SensorData) {k : String}
    (hk : k ∈ objectPrototypeKeys) (rest : List String) :
    forEachKey parsed t sd (k :: rest) = ⟨sd, some JsError.typeError⟩ := by
  simp [forEachKey, forEachBody_prototype parsed t sd hk]

theorem forEachKey_cons_other (parsed : JsProps) (t : Nat) (sd : SensorData) {k : String}
    (hk : k ∉ knownChannels) (hp : k ∉ objectPrototypeKeys) (rest : List String) :
    forEachKey parsed t sd (k :: rest) = forEachKey parsed t sd rest := by
  simp [forEachKey, forEachBody_other parsed t sd hk hp]

theorem visitedKeys_eq_self {keys : List String} (h : ∀ k ∈ keys, k ∉ objectPrototypeKeys) :
    visitedKeys keys = keys := by
  induction keys with
  | nil => rfl
  | cons k rest ih =>
    have hk : k ∉ objectPrototypeKeys := h k (List.mem_cons_self _ _)
    simp [visitedKeys, hk, ih (fun x hx => h x (List.mem_cons_of_mem _ hx))]

theorem visitedKeys_subset {keys : List String} {c : String} (h : c ∈ visitedKeys keys) :
    c ∈ keys := by
  induction keys with
  | nil => simp [visitedKeys] at h
  | cons k rest ih =>
    by_cases hk : k ∈ objectPrototypeKeys
    · simp [visitedKeys, hk] at h
    · simp only [visitedKeys, hk, if_false, List.mem_cons] at h
      rcases h with h | h
      · simp [h]
      · exact List.mem_cons_of_mem _ (ih h)

/-- The loop throws exactly when some key is inherited from `Object.prototype`. -/
theorem forEachKey_thrown (parsed : JsProps) (t : Nat) (sd : SensorData) (keys : List String) :
    (forEachKey parsed t sd keys).thrown =
      if ∀ k ∈ keys, k ∉ objectPrototypeKeys then none else some JsError.typeError := by
  induction keys generalizing sd with
  | nil => simp [forEachKey]
  | cons k rest ih =>
    by_cases hp : k ∈ objectPrototypeKeys
    · rw [forEachKey_cons_prototype parsed t sd hp]
      simp [hp]
    · by_cases hk : k ∈ knownChannels
      · rw [forEachKey_cons_known parsed t sd hk, ih]
        simp [hp]
      · rw [forEachKey_cons_other parsed t sd hk hp, ih]
        simp [hp]

/-- A key that is not a known channel leaves `sensorData` as it is. -/
theorem forEachKey_state_of_not_known (parsed : JsProps) (t : Nat) (sd : SensorData)
    (keys : List String) (h : ∀ k ∈ keys, k ∉ knownChannels) :
    (forEachKey parsed t sd keys).state = sd := by
  induction keys with
  | nil => rfl
  | cons k rest ih =>
    have hk : k ∉ knownChannels := h k (List.mem_cons_self _ _)
    by_cases hp : k ∈ objectPrototypeKeys
    · rw [forEachKey_cons_prototype parsed t sd hp]
    · rw [forEachKey_cons_other parsed t sd hk hp]
      exact ih (fun x hx => h x (List.mem_cons_of_mem _ hx))

/-- A channel that is not among the visited keys keeps its history. -/
theorem forEachKey_history_of_not_visited (parsed : JsProps) (t : Nat) (sd : SensorData)
    (keys : List String) {c : String} (h : c ∉ visitedKeys keys) :
    (forEachKey parsed t sd keys).state.history c = sd.history c := by
  induction keys generalizing sd with
  | nil => rfl
  | cons k rest ih =>
    by_cases hp : k ∈ objectPrototypeKeys
    · rw [forEachKey_cons_prototype parsed t sd hp]
    · simp only [visitedKeys, hp, if_false, List.mem_cons, not_or] at h
      by_cases hk : k ∈ knownChannels
      · rw [forEachKey_cons_known parsed t sd hk, ih _ h.2]
        exact history_store_other sd (fun e => h.1 e.symm) _
      · rw [forEachKey_cons_other parsed t sd hk hp]
        exact ih sd h.2

/-- A known channel visited by the loop, with distinct keys, gains exactly
one reading. -/
theorem forEachKey_history_of_visited (parsed : JsProps) (t : Nat) (sd : SensorData)
    (keys : List String) (hnd : keys.Nodup) {c : String} (hc : c ∈ knownChannels)
    (h : c ∈ visitedKeys keys) :
    (forEachKey parsed t sd keys).state.history c =
      pushReading (sd.history c) ⟨getProp parsed c, t⟩ := by
  induction keys generalizing sd with
  | nil => simp [visitedKeys] at h
  | cons k rest ih =>
    have hnd1 := List.nodup_cons.mp hnd
    by_cases hp : k ∈ objectPrototypeKeys
    · simp [visitedKeys, hp] at h
    · simp only [visitedKeys, hp, if_false, List.mem_cons] at h
      by_cases hkc : c = k
      · subst hkc
        have hnv : c ∉ visitedKeys rest := fun hv => hnd1.1 (visitedKeys_subset hv)
        rw [forEachKey_cons_known parsed t sd hc,
          forEachKey_history_of_not_visited parsed t _ rest hnv]
        exact history_store_same sd hc _
      · have hv : c ∈ visitedKeys rest := by
          rcases h with h | h
          · exact absurd h hkc
          · exact h
        by_cases hk : k ∈ knownChannels
        · rw [forEachKey_cons_known parsed t sd hk, ih _ hnd1.2 hv,
            history_store_other sd (fun e => hkc e.symm) _]
        · rw [forEachKey_cons_other parsed t sd hk hp]
          exact ih sd hnd1.2 hv

/-! ## The handler -/

theorem onMessage_of_other_topic (s : Server) (msg : Inbound) (h : msg.topic ≠ "sensor/data") :
    onMessage s msg = ⟨s, none⟩ := by
  simp [onMessage, h]

/-- Nothing escapes the handler: the `catch` clause takes every error. -/
theorem onMessage_thrown (s : Server) (msg : Inbound) : (onMessage s msg).thrown = none := by
  unfold onMessage
  split_ifs
  · split <;> rfl
  · rfl

theorem tryBlock_of_no_props (s : Server) (msg : Inbound) (h : messageProps msg = none) :
    (tryBlock s msg).state = s ∧ (tryBlock s msg).thrown ≠ none := by
  unfold messageProps at h
  unfold tryBlock
  cases hp : msg.parsed with
  | none => simp
  | some parsed =>
    rw [hp] at h
    simp only at h
    simp [h]

theorem tryBlock_sensorData (s : Server) (msg : Inbound) {props : JsProps}
    (h : messageProps msg = some props) :
    (tryBlock s msg).state.sensorData =
      (forEachKey props msg.now s.sensorData (objectKeys props)).state := by
  unfold messageProps at h
  unfold tryBlock
  cases hp : msg.parsed with
  | none => rw [hp] at h; simp at h
  | some parsed =>
    rw [hp] at h
    simp only at h
    simp only [h]
    cases hf : forEachKey props msg.now s.sensorData (objectKeys props) with
    | mk sd thr => cases thr <;> rfl

theorem tryBlock_thrown (s : Server) (msg : Inbound) {props : JsProps}
    (h : messageProps msg = some props) :
    (tryBlock s msg).thrown =
      (forEachKey props msg.now s.sensorData (objectKeys props)).thrown := by
  unfold messageProps at h
  unfold tryBlock
  cases hp : msg.parsed with
  | none => rw [hp] at h; simp at h
  | some parsed =>
    rw [hp] at h
    simp only at h
    simp only [h]
    cases hf : forEachKey props msg.now s.sensorData (objectKeys props) with
    | mk sd thr => cases thr <;> rfl

theorem onMessage_sensorData_of_topic (s : Server) (msg : Inbound)
    (h : msg.topic = "sensor/data") :
    (onMessage s msg).state.sensorData = (tryBlock s msg).state.sensorData := by
  unfold onMessage
  rw [if_pos h]
  cases ht : tryBlock s msg with
  | mk s1 thr => cases thr <;> rfl

theorem onMessage_latestData_of_topic (s : Server) (msg : Inbound)
    (h : msg.topic = "sensor/data") :
    (onMessage s msg).state.latestData = (tryBlock s msg).state.latestData := by
  unfold onMessage
  rw [if_pos h]
  cases ht : tryBlock s msg with
  | mk s1 thr => cases thr <;> rfl

theorem onMessage_emitted_of_topic (s : Server) (msg : Inbound)
    (h : msg.topic = "sensor/data") :
    (onMessage s msg).state.emitted = (tryBlock s msg).state.emitted := by
  unfold onMessage
  rw [if_pos h]
  cases ht : tryBlock s msg with
  | mk s1 thr => cases thr <;> rfl

/-- How one message changes one channel history, for a payload with
distinct keys. -/
theorem onMessage_history (s : Server) (msg : Inbound) (hnd : (messageKeys msg).Nodup)
    {c : String} (hc : c ∈ knownChannels) :
    (onMessage s msg).state.sensorData.history c =
      if msg.topic = "sensor/data" ∧ c ∈ visitedKeys (messageKeys msg)
      then pushReading (s.sensorData.history c) ⟨messageValue msg c, msg.now⟩
      else s.sensorData.history c := by
  by_cases ht : msg.topic = "sensor/data"
  · rw [onMessage_sensorData_of_topic s msg ht]
    cases hp : messageProps msg with
    | none =>
      rw [(tryBlock_of_no_props s msg hp).1]
      simp [messageKeys, hp, visitedKeys]
    | some props =>
      rw [tryBlock_sensorData s msg hp]
      have hk : messageKeys msg = objectKeys props := by simp [messageKeys, hp]
      have hv : messageValue msg c = getProp props c := by simp [messageValue, hp]
      rw [hk] at hnd ⊢
      rw [hv]
      by_cases hvis : c ∈ visitedKeys (objectKeys props)
      · rw [forEachKey_history_of_visited props msg.now _ _ hnd hc hvis]
        simp [ht, hvis]
      · rw [forEachKey_history_of_not_visited props msg.now _ _ hvis]
        simp [hvis]
  · rw [onMessage_of_other_topic s msg ht]
    simp [ht]

/-! ## The capacity invariant -/

theorem bounded_initial : Bounded initialServer.sensorData := by
  intro c hc
  rcases mem_knownChannels.mp hc with e | e | e | e | e | e <;> subst e <;> decide

theorem bounded_store {sd : SensorData} (hb : Bounded sd) {k : String} (hk : k ∈ knownChannels)
    (r : Reading) : Bounded (sd.store k (pushReading (sd.history k) r)) := by
  intro c hc
  by_cases e : k = c
  · subst e
    rw [history_store_same sd hk]
    exact pushReading_length_le r (hb k hk)
  · rw [history_store_other sd e]
    exact hb c hc

theorem bounded_forEachKey (parsed : JsProps) (t : Nat) (keys : List String) {sd : SensorData}
    (hb : Bounded sd) : Bounded (forEachKey parsed t sd keys).state := by
  induction keys generalizing sd with
  | nil => exact hb
  | cons k rest ih =>
    by_cases hp : k ∈ objectPrototypeKeys
    · rw [forEachKey_cons_prototype parsed t sd hp]; exact hb
    · by_cases hk : k ∈ knownChannels
      · rw [forEachKey_cons_known parsed t sd hk]
        exact ih (bounded_store hb hk _)
      · rw [forEachKey_cons_other parsed t sd hk hp]
        exact ih hb

theorem bounded_onMessage {s : Server} (hb : Bounded s.sensorData) (msg : Inbound) :
    Bounded (onMessage s msg).state.sensorData := by
  by_cases ht : msg.topic = "sensor/data"
  · rw [onMessage_sensorData_of_topic s msg ht]
    cases hp : messageProps msg with
    | none => rw [(tryBlock_of_no_props s msg hp).1]; exact hb
    | some props =>
      rw [tryBlock_sensorData s msg hp]
      exact bounded_forEachKey props msg.now _ hb
  · rw [onMessage_of_other_topic s msg ht]; exact hb

theorem bounded_run (msgs : List Inbound) {s : Server} (hb : Bounded s.sensorData) :
    Bounded (run s msgs).sensorData := by
  induction msgs generalizing s with
  | nil => exact hb
  | cons m rest ih => exact ih (bounded_onMessage hb m)

/-! ## A stream of single-channel messages -/

theorem visitedKeys_single {c : String} (hc : c ∈ knownChannels) : visitedKeys [c] = [c] := by
  have hp : c ∉ objectPrototypeKeys := fun h => not_known_of_prototype h hc
  simp [visitedKeys, hp]

theorem onMessage_single_history (s : Server) {c : String} (hc : c ∈ knownChannels)
    (p : JsValue × Nat) :
    (onMessage s (singleValueMessage c p)).state.sensorData.history c =
      pushReading (s.sensorData.history c) (readingOf p) := by
  have hk : messageKeys (singleValueMessage c p) = [c] := rfl
  have hnd : (messageKeys (singleValueMessage c p)).Nodup := by rw [hk]; simp
  rw [onMessage_history s _ hnd hc, hk, visitedKeys_single hc]
  have hv : messageValue (singleValueMessage c p) c = p.1 := by
    simp [messageValue, messageProps, singleValueMessage, objectMessage, ownProps, getProp]
  have ht : (singleValueMessage c p).topic = "sensor/data" := rfl
  rw [if_pos ⟨ht, List.mem_singleton_self c⟩, hv]
  rfl

theorem run_single_history (c : String) (hc : c ∈ knownChannels) (vs : List (JsValue × Nat))
    (s : Server) (hb : Bounded s.sensorData) :
    (run s (vs.map (singleValueMessage c))).sensorData.history c =
      (s.sensorData.history c ++ vs.map readingOf).drop
        ((s.sensorData.history c ++ vs.map readingOf).length - 200) := by
  induction vs generalizing s with
  | nil =>
    have := hb c hc
    have h0 : (s.sensorData.history c).length - 200 = 0 := by omega
    simp [run, h0]
  | cons p rest ih =>
    have hb1 := bounded_onMessage hb (singleValueMessage c p)
    simp only [List.map_cons, run]
    rw [ih _ hb1, onMessage_single_history s hc p, pushReading_eq_drop _ (hb c hc)]
    have hle : (s.sensorData.history c ++ [readingOf p]).length - 200 ≤
        (s.sensorData.history c ++ [readingOf p]).length := Nat.sub_le _ _
    rw [← List.drop_append_of_le_length hle, List.drop_drop, List.append_assoc,
      List.singleton_append]
    refine congr (congrArg List.drop ?_) rfl
    have := hb c hc
    simp only [List.length_drop, List.length_append, List.length_cons, List.length_map,
      List.length_nil]
    omega

/-! ## Bounded history -/

/-- C1: for every known channel `c` and every sequence of `n` values, after
the handler has processed, from the initial state, `n` messages that each
carry one value for `c`, the history of `c` is the last `min n 200`
readings in arrival order: the arrival sequence without its first
`n - 200` elements. -/
theorem history_holds_last_200 (c : String) (hc : c ∈ knownChannels)
    (vs : List (JsValue × Nat)) :
    (run initialServer (vs.map (singleValueMessage c))).sensorData.history c =
        (vs.map readingOf).drop (vs.length - 200) ∧
      ((run initialServer (vs.map (singleValueMessage c))).sensorData.history c).length =
        min vs.length 200 := by
  have h := run_single_history c hc vs initialServer bounded_initial
  have h0 : initialServer.sensorData.history c = [] := by
    rcases mem_knownChannels.mp hc with e | e | e | e | e | e <;> subst e <;> rfl
  rw [h0] at h
  simp only [List.nil_append, List.length_map] at h
  refine ⟨h, ?_⟩
  rw [h]
  simp only [List.length_drop, List.length_map]
  omega

set_option maxRecDepth 100000 in
/-- C1 at the values `1..205` on `turbidity`: the history is `6..205`. -/
theorem history_holds_last_200_witness :
    "turbidity" ∈ knownChannels ∧
      (run initialServer ((sequentialValues 205).map (singleValueMessage "turbidity"))
        ).sensorData.history "turbidity" =
        (List.range' 6 200).map (fun (i : Nat) => (⟨JsValue.num (i : ℚ), i⟩ : Reading)) :=
  ⟨by decide,
    (history_holds_last_200 "turbidity" (by decide) (sequentialValues 205)).1.trans (by rfl)⟩

/-- C2: in every state reached from the initial state by any sequence of
messages, every channel history holds at most 200 readings; and when a
history holds 200, a message (with distinct keys) whose loop reaches that
channel leaves the history without its first element, the rest in the
same order, followed by the new reading, while any other message leaves
it as it is. -/
theorem histories_bounded_fifo (msgs : List Inbound) (c : String) (hc : c ∈ knownChannels) :
    ((run initialServer msgs).sensorData.history c).length ≤ 200 ∧
      ∀ msg : Inbound, (messageKeys msg).Nodup →
        ((run initialServer msgs).sensorData.history c).length = 200 →
        (onMessage (run initialServer msgs) msg).state.sensorData.history c =
          if msg.topic = "sensor/data" ∧ c ∈ visitedKeys (messageKeys msg)
          then ((run initialServer msgs).sensorData.history c).tail ++
            [⟨messageValue msg c, msg.now⟩]
          else (run initialServer msgs).sensorData.history c := by
  refine ⟨bounded_run msgs bounded_initial c hc, ?_⟩
  intro msg hnd hfull
  rw [onMessage_history _ msg hnd hc]
  by_cases h : msg.topic = "sensor/data" ∧ c ∈ visitedKeys (messageKeys msg)
  · rw [if_pos h, if_pos h, pushReading_of_full _ hfull]
  · rw [if_neg h, if_neg h]

set_option maxRecDepth 100000 in
/-- C2 at a full `turbidity` history `1..200` receiving the value `201`:
the history becomes `2..201`. -/
theorem histories_bounded_fifo_witness :
    "turbidity" ∈ knownChannels ∧
      (messageKeys (singleValueMessage "turbidity" (JsValue.num 201, 201))).Nodup ∧
      ((run initialServer ((sequentialValues 200).map (singleValueMessage "turbidity"))
        ).sensorData.history "turbidity").length = 200 ∧
      (onMessage (run initialServer ((sequentialValues 200).map (singleValueMessage "turbidity")))
        (singleValueMessage "turbidity" (JsValue.num 201, 201))).state.sensorData.history
          "turbidity" =
        (List.range' 2 200).map (fun (i : Nat) => (⟨JsValue.num (i : ℚ), i⟩ : Reading)) :=
  ⟨by decide, by decide, by rfl,
    ((histories_bounded_fifo ((sequentialValues 200).map (singleValueMessage "turbidity"))
      "turbidity" (by decide)).2 (singleValueMessage "turbidity" (JsValue.num 201, 201))
      (by decide) (by rfl)).trans (by rfl)⟩

/-! ## Properties of plain objects -/

theorem getProp_setProp_same (o : JsProps) (k : String) (v : JsValue) :
    getProp (setProp o k v) k = v := by
  induction o with
  | nil => simp [setProp, getProp]
  | cons p rest ih =>
    obtain ⟨k1, w⟩ := p
    by_cases h : k1 = k
    · simp [setProp, getProp, h]
    · simp [setProp, getProp, h, ih]

theorem getProp_setProp_other (o : JsProps) {k k1 : String} (h : k1 ≠ k) (v : JsValue) :
    getProp (setProp o k v) k1 = getProp o k1 := by
  induction o with
  | nil => simp [setProp, getProp, Ne.symm h]
  | cons p rest ih =>
    obtain ⟨k2, w⟩ := p
    by_cases h2 : k2 = k
    · subst h2
      simp [setProp, getProp, Ne.symm h]
    · by_cases h3 : k2 = k1
      · subst h3
        simp [setProp, getProp, h]
      · simp [setProp, getProp, h2, h3, ih]

theorem hasOwn_setProp_other (o : JsProps) {k k1 : String} (h : k1 ≠ k) (v : JsValue) :
    hasOwn (setProp o k v) k1 = hasOwn o k1 := by
  induction o with
  | nil => simp [setProp, hasOwn, Ne.symm h]
  | cons p rest ih =>
    obtain ⟨k2, w⟩ := p
    by_cases h2 : k2 = k
    · subst h2
      simp [setProp, hasOwn, Ne.symm h]
    · by_cases h3 : k2 = k1
      · subst h3
        simp [setProp, hasOwn, h]
      · simp [setProp, hasOwn, h2, h3, ih]

theorem hasOwn_iff_mem_objectKeys (o : JsProps) (k : String) :
    hasOwn o k = true ↔ k ∈ objectKeys o := by
  induction o with
  | nil => simp [hasOwn, objectKeys]
  | cons p rest ih =>
    obtain ⟨k1, w⟩ := p
    by_cases h : k1 = k
    · simp [hasOwn, objectKeys, h]
    · have ih1 : hasOwn rest k = true ↔ k ∈ List.map Prod.fst rest := ih
      simp [hasOwn, objectKeys, h, Ne.symm h, ih1]

theorem known_ne_timestamp {c : String} (hc : c ∈ knownChannels) : c ≠ "timestamp" := by
  rcases mem_knownChannels.mp hc with e | e | e | e | e | e <;> subst e <;> decide

/-! ## `latestData` after the `try` block -/

theorem tryBlock_latestData_of_ok (s : Server) (msg : Inbound) {props : JsProps}
    (h : messageProps msg = some props) (hok : (tryBlock s msg).thrown = none) :
    (tryBlock s msg).state.latestData = setProp props "timestamp" (JsValue.date msg.now) := by
  unfold messageProps at h
  unfold tryBlock at hok ⊢
  cases hp : msg.parsed with
  | none => rw [hp] at h; simp at h
  | some parsed =>
    rw [hp] at h hok
    simp only at h
    simp only [h] at hok ⊢
    cases hf : forEachKey props msg.now s.sensorData (objectKeys props) with
    | mk sd thr =>
      rw [hf] at hok
      cases thr with
      | none => rfl
      | some err => simp at hok

theorem tryBlock_unchanged_of_thrown (s : Server) (msg : Inbound)
    (hthrown : (tryBlock s msg).thrown ≠ none) :
    (tryBlock s msg).state.latestData = s.latestData ∧
      (tryBlock s msg).state.emitted = s.emitted := by
  unfold tryBlock at hthrown ⊢
  cases hp : msg.parsed with
  | none => simp
  | some parsed =>
    rw [hp] at hthrown
    simp only at hthrown ⊢
    cases ho : ownProps parsed with
    | none => simp
    | some props =>
      rw [ho] at hthrown
      simp only at hthrown ⊢
      cases hf : forEachKey props msg.now s.sensorData (objectKeys props) with
      | mk sd thr =>
        rw [hf] at hthrown
        cases thr with
        | none => simp at hthrown
        | some err => simp

/-! ## The last reading of a channel the loop has pushed to -/

theorem forEachKey_getLast?_preserved (parsed : JsProps) (t : Nat) (keys : List String)
    {c : String} (hc : c ∈ knownChannels) (sd : SensorData)
    (h : (sd.history c).getLast? = some ⟨getProp parsed c, t⟩) :
    ((forEachKey parsed t sd keys).state.history c).getLast? = some ⟨getProp parsed c, t⟩ := by
  induction keys generalizing sd with
  | nil => exact h
  | cons k rest ih =>
    by_cases hp : k ∈ objectPrototypeKeys
    · rw [forEachKey_cons_prototype parsed t sd hp]; exact h
    · by_cases hk : k ∈ knownChannels
      · rw [forEachKey_cons_known parsed t sd hk]
        apply ih
        by_cases e : k = c
        · subst e
          rw [history_store_same sd hk, pushReading_getLast?]
        · rw [history_store_other sd e]; exact h
      · rw [forEachKey_cons_other parsed t sd hk hp]
        exact ih sd h

theorem forEachKey_getLast? (parsed : JsProps) (t : Nat) (keys : List String)
    {c : String} (hc : c ∈ knownChannels) (hmem : c ∈ keys)
    (hclean : ∀ k ∈ keys, k ∉ objectPrototypeKeys) (sd : SensorData) :
    ((forEachKey parsed t sd keys).state.history c).getLast? = some ⟨getProp parsed c, t⟩ := by
  induction keys generalizing sd with
  | nil => simp at hmem
  | cons k rest ih =>
    have hp : k ∉ objectPrototypeKeys := hclean k (List.mem_cons_self _ _)
    have hrest : ∀ x ∈ rest, x ∉ objectPrototypeKeys :=
      fun x hx => hclean x (List.mem_cons_of_mem _ hx)
    by_cases e : c = k
    · subst e
      rw [forEachKey_cons_known parsed t sd hc]
      apply forEachKey_getLast?_preserved parsed t rest hc
      rw [history_store_same sd hc, pushReading_getLast?]
    · have hmem1 : c ∈ rest := by
        rcases List.mem_cons.mp hmem with h | h
        · exact absurd h e
        · exact h
      by_cases hk : k ∈ knownChannels
      · rw [forEachKey_cons_known parsed t sd hk]
        exact ih hmem1 hrest _
      · rw [forEachKey_cons_other parsed t sd hk hp]
        exact ih hmem1 hrest sd

theorem noInherited_of_ok (s : Server) (msg : Inbound) {props : JsProps}
    (h : messageProps msg = some props) (hok : (tryBlock s msg).thrown = none) :
    ∀ k ∈ objectKeys props, k ∉ objectPrototypeKeys := by
  rw [tryBlock_thrown s msg h, forEachKey_thrown] at hok
  by_contra hcon
  rw [if_neg hcon] at hok
  simp at hok

theorem ok_of_noInherited (s : Server) (msg : Inbound) {props : JsProps}
    (h : messageProps msg = some props)
    (hclean : ∀ k ∈ objectKeys props, k ∉ objectPrototypeKeys) :
    (tryBlock s msg).thrown = none := by
  rw [tryBlock_thrown s msg h, forEachKey_thrown, if_pos hclean]

/-- After a `try` block that ran to completion, `latestData` and the
history of each known channel named in the message agree. -/
theorem tryBlock_latest_agrees (s : Server) (msg : Inbound) {props : JsProps}
    (h : messageProps msg = some props) (hok : (tryBlock s msg).thrown = none)
    {c : String} (hc : c ∈ knownChannels) (hmem : c ∈ objectKeys props) :
    ((tryBlock s msg).state.sensorData.history c).getLast? =
        some ⟨getProp props c, msg.now⟩ ∧
      getProp (tryBlock s msg).state.latestData c = getProp props c ∧
      getProp (tryBlock s msg).state.latestData "timestamp" = JsValue.date msg.now ∧
      hasOwn (tryBlock s msg).state.latestData c = true := by
  have hne := known_ne_timestamp hc
  rw [tryBlock_sensorData s msg h, tryBlock_latestData_of_ok s msg h hok,
    getProp_setProp_same, getProp_setProp_other _ hne, hasOwn_setProp_other _ hne]
  exact ⟨forEachKey_getLast? props msg.now _ hc hmem (noInherited_of_ok s msg h hok) _,
    rfl, rfl, (hasOwn_iff_mem_objectKeys props c).mpr hmem⟩

theorem tryBlock_hasOwn_latest (s : Server) (msg : Inbound) {props : JsProps}
    (h : messageProps msg = some props) (hok : (tryBlock s msg).thrown = none)
    {c : String} (hc : c ∈ knownChannels) :
    hasOwn (tryBlock s msg).state.latestData c = true ↔ c ∈ objectKeys props := by
  rw [tryBlock_latestData_of_ok s msg h hok, hasOwn_setProp_other _ (known_ne_timestamp hc)]
  exact hasOwn_iff_mem_objectKeys props c

theorem latestAgrees_initial : LatestAgrees initialServer := by
  intro c _ h
  simp [initialServer, hasOwn] at h

theorem latestAgrees_onMessage {s : Server} (hs : LatestAgrees s) (msg : Inbound)
    (hclean : ∀ k ∈ messageKeys msg, k ∉ objectPrototypeKeys) :
    LatestAgrees (onMessage s msg).state := by
  by_cases ht : msg.topic = "sensor/data"
  · unfold LatestAgrees
    rw [onMessage_sensorData_of_topic s msg ht, onMessage_latestData_of_topic s msg ht]
    cases hp : messageProps msg with
    | none =>
      rw [(tryBlock_of_no_props s msg hp).1]
      exact hs
    | some props =>
      have hk : messageKeys msg = objectKeys props := by simp [messageKeys, hp]
      rw [hk] at hclean
      have hok := ok_of_noInherited s msg hp hclean
      intro c hc hown
      have hmem : c ∈ objectKeys props := by
        rw [tryBlock_latestData_of_ok s msg hp hok,
          hasOwn_setProp_other _ (known_ne_timestamp hc)] at hown
        exact (hasOwn_iff_mem_objectKeys props c).mp hown
      have h := tryBlock_latest_agrees s msg hp hok hc hmem
      exact ⟨⟨getProp props c, msg.now⟩, h.1, h.2.1, h.2.2.1⟩
  · rw [onMessage_of_other_topic s msg ht]
    exact hs

theorem latestAgrees_run (msgs : List Inbound) {s : Server} (hs : LatestAgrees s)
    (hclean : ∀ msg ∈ msgs, ∀ k ∈ messageKeys msg, k ∉ objectPrototypeKeys) :
    LatestAgrees (run s msgs) := by
  induction msgs generalizing s with
  | nil => exact hs
  | cons m rest ih =>
    exact ih (latestAgrees_onMessage hs m (hclean m (List.mem_cons_self _ _)))
      (fun x hx => hclean x (List.mem_cons_of_mem _ hx))

/-! ## `latestData` against the histories -/

/-- C3: after the handler has processed a message on `sensor/data` whose
`try` block ran to completion, for every known channel `c` among the
message's keys, the history of `c` has a last reading `r`, `latestData[c]`
is the value of `r` and `latestData.timestamp` is the timestamp of `r`. -/
theorem latest_equals_last_reading (s : Server) (msg : Inbound) (c : String)
    (hc : c ∈ knownChannels) (hkey : c ∈ messageKeys msg)
    (htopic : msg.topic = "sensor/data") (hok : (tryBlock s msg).thrown = none) :
    ∃ r, ((onMessage s msg).state.sensorData.history c).getLast? = some r ∧
      hasOwn (onMessage s msg).state.latestData c = true ∧
      getProp (onMessage s msg).state.latestData c = r.value ∧
      getProp (onMessage s msg).state.latestData "timestamp" = JsValue.date r.timestamp := by
  rw [onMessage_sensorData_of_topic s msg htopic, onMessage_latestData_of_topic s msg htopic]
  cases hp : messageProps msg with
  | none => simp [messageKeys, hp] at hkey
  | some props =>
    have hk : messageKeys msg = objectKeys props := by simp [messageKeys, hp]
    rw [hk] at hkey
    have h := tryBlock_latest_agrees s msg hp hok hc hkey
    exact ⟨⟨getProp props c, msg.now⟩, h.1, h.2.2.2, h.2.1, h.2.2.1⟩

/-- C3 at the payload `{"tds": 5, "foo": 1}` on the initial state. -/
theorem latest_equals_last_reading_witness :
    "tds" ∈ knownChannels ∧ "tds" ∈ messageKeys tdsAndFooMessage ∧
      tdsAndFooMessage.topic = "sensor/data" ∧
      (tryBlock initialServer tdsAndFooMessage).thrown = none ∧
      ∃ r, ((onMessage initialServer tdsAndFooMessage).state.sensorData.history "tds").getLast?
          = some r ∧
        hasOwn (onMessage initialServer tdsAndFooMessage).state.latestData "tds" = true ∧
        getProp (onMessage initialServer tdsAndFooMessage).state.latestData "tds" = r.value ∧
        getProp (onMessage initialServer tdsAndFooMessage).state.latestData "timestamp" =
          JsValue.date r.timestamp :=
  ⟨by decide, by decide, rfl, rfl,
    latest_equals_last_reading initialServer tdsAndFooMessage "tds" (by decide) (by decide)
      rfl rfl⟩

/-- C4 fails as stated: after a message for `turbidity` and then a message
for `tds`, the history of `turbidity` holds a reading and `latestData` has
no entry for `turbidity`. -/
theorem latest_lacks_unmentioned_channel :
    "turbidity" ∈ knownChannels ∧
      ((run initialServer turbidityThenTds).sensorData.history "turbidity").length = 1 ∧
      hasOwn (run initialServer turbidityThenTds).latestData "turbidity" = false ∧
      getProp (run initialServer turbidityThenTds).latestData "turbidity" =
        JsValue.undefined :=
  ⟨by decide, rfl, rfl, rfl⟩

/-- C4, amended: in every state reached from the initial state by messages
none of whose keys is a name inherited from `Object.prototype`, every
known channel that has an entry in `latestData` has a non-empty history
whose last reading carries that entry as its value and
`latestData.timestamp` as its timestamp; and after one more message whose
`try` block runs to completion, `latestData` has an entry for a known
channel exactly when the channel is a key of that message. -/
theorem latest_entry_is_last_reading (msgs : List Inbound)
    (hclean : ∀ msg ∈ msgs, ∀ k ∈ messageKeys msg, k ∉ objectPrototypeKeys)
    (c : String) (hc : c ∈ knownChannels) :
    (hasOwn (run initialServer msgs).latestData c = true →
      ∃ r, ((run initialServer msgs).sensorData.history c).getLast? = some r ∧
        getProp (run initialServer msgs).latestData c = r.value ∧
        getProp (run initialServer msgs).latestData "timestamp" = JsValue.date r.timestamp) ∧
      ∀ msg : Inbound, msg.topic = "sensor/data" →
        (tryBlock (run initialServer msgs) msg).thrown = none →
        (hasOwn (onMessage (run initialServer msgs) msg).state.latestData c = true ↔
          c ∈ messageKeys msg) := by
  refine ⟨latestAgrees_run msgs latestAgrees_initial hclean c hc, ?_⟩
  intro msg htopic hok
  rw [onMessage_latestData_of_topic _ msg htopic]
  cases hp : messageProps msg with
  | none => exact absurd hok (tryBlock_of_no_props _ msg hp).2
  | some props =>
    have hk : messageKeys msg = objectKeys props := by simp [messageKeys, hp]
    rw [hk]
    exact tryBlock_hasOwn_latest _ msg hp hok hc

/-- C4, amended, at a message for `turbidity` followed by a message for
`tds` and `turbidity`, and then one more message for `tds` alone. -/
theorem latest_entry_is_last_reading_witness :
    (∀ msg ∈ turbidityThenBoth, ∀ k ∈ messageKeys msg, k ∉ objectPrototypeKeys) ∧
      "turbidity" ∈ knownChannels ∧
      hasOwn (run initialServer turbidityThenBoth).latestData "turbidity" = true ∧
      (∃ r, ((run initialServer turbidityThenBoth).sensorData.history "turbidity").getLast?
          = some r ∧
        getProp (run initialServer turbidityThenBoth).latestData "turbidity" = r.value ∧
        getProp (run initialServer turbidityThenBoth).latestData "timestamp" =
          JsValue.date r.timestamp) ∧
      (objectMessage [("tds", JsValue.num 4)] 30).topic = "sensor/data" ∧
      (tryBlock (run initialServer turbidityThenBoth)
        (objectMessage [("tds", JsValue.num 4)] 30)).thrown = none ∧
      (hasOwn (onMessage (run initialServer turbidityThenBoth)
          (objectMessage [("tds", JsValue.num 4)] 30)).state.latestData "turbidity" = true ↔
        "turbidity" ∈ messageKeys (objectMessage [("tds", JsValue.num 4)] 30)) :=
  ⟨by decide, by decide, rfl,
    (latest_entry_is_last_reading turbidityThenBoth (by decide) "turbidity" (by decide)).1 rfl,
    rfl, rfl,
    (latest_entry_is_last_reading turbidityThenBoth (by decide) "turbidity" (by decide)).2
      (objectMessage [("tds", JsValue.num 4)] 30) rfl rfl⟩

/-! ## Unknown keys, malformed values, malformed payloads -/

/-- C5: a message none of whose keys is a known channel (whatever the
keys are, `constructor` included) leaves `sensorData`, hence all six
histories, as it was, and the handler completes without throwing. -/
theorem unknown_keys_change_no_history (s : Server) (msg : Inbound)
    (hunknown : ∀ k ∈ messageKeys msg, k ∉ knownChannels) :
    (onMessage s msg).state.sensorData = s.sensorData ∧ (onMessage s msg).thrown = none := by
  refine ⟨?_, onMessage_thrown s msg⟩
  by_cases ht : msg.topic = "sensor/data"
  · rw [onMessage_sensorData_of_topic s msg ht]
    cases hp : messageProps msg with
    | none => rw [(tryBlock_of_no_props s msg hp).1]
    | some props =>
      have hk : messageKeys msg = objectKeys props := by simp [messageKeys, hp]
      rw [hk] at hunknown
      rw [tryBlock_sensorData s msg hp]
      exact forEachKey_state_of_not_known props msg.now _ _ hunknown
  · rw [onMessage_of_other_topic s msg ht]

/-- C5 at the payload `{"foo": 1, "constructor": 2}`, after two messages. -/
theorem unknown_keys_change_no_history_witness :
    (∀ k ∈ messageKeys unknownKeysMessage, k ∉ knownChannels) ∧
      (onMessage (run initialServer turbidityThenTds) unknownKeysMessage).state.sensorData =
        (run initialServer turbidityThenTds).sensorData ∧
      (onMessage (run initialServer turbidityThenTds) unknownKeysMessage).thrown = none :=
  ⟨by decide,
    unknown_keys_change_no_history (run initialServer turbidityThenTds) unknownKeysMessage
      (by decide)⟩

/-- C6 fails on the code: on the payload `{"constructor": 1, "tds": 5}`
the unknown key `constructor` comes first, `sensorData["constructor"]` is
truthy and has no `push`, the loop stops there, and the value of the
known channel `tds` is not appended. -/
theorem inherited_key_blocks_known_key :
    "constructor" ∉ knownChannels ∧ "tds" ∈ knownChannels ∧
      messageKeys inheritedKeyFirst = ["constructor", "tds"] ∧
      (tryBlock initialServer inheritedKeyFirst).thrown = some JsError.typeError ∧
      (onMessage initialServer inheritedKeyFirst).state.sensorData.history "tds" = [] :=
  ⟨by decide, by decide, rfl, rfl, rfl⟩

/-- C7 fails as stated: on the payload `{"tds": "abc", "turbidity": 5}`
the value of `tds` is not a number and the history of `tds` changes: it
gains a reading whose value is the string. -/
theorem non_numeric_value_is_appended :
    JsValue.isNumber (messageValue nonNumericMessage "tds") = false ∧
      initialServer.sensorData.history "tds" = [] ∧
      (onMessage initialServer nonNumericMessage).state.sensorData.history "tds" =
        [⟨JsValue.str "abc", 7⟩] :=
  ⟨rfl, rfl, rfl⟩

/-- C7, amended: for every message on `sensor/data` whose keys are
distinct and none of them inherited from `Object.prototype`, every known
channel among the keys gains one reading holding the message's value for
it and the message's timestamp, whatever the type of that value: no
check is made that it is a number. -/
theorem every_known_key_gains_its_value (s : Server) (msg : Inbound) (c : String)
    (htopic : msg.topic = "sensor/data") (hnd : (messageKeys msg).Nodup)
    (hclean : ∀ k ∈ messageKeys msg, k ∉ objectPrototypeKeys)
    (hc : c ∈ knownChannels) (hkey : c ∈ messageKeys msg) :
    (onMessage s msg).state.sensorData.history c =
      pushReading (s.sensorData.history c) ⟨messageValue msg c, msg.now⟩ := by
  rw [onMessage_history s msg hnd hc, visitedKeys_eq_self hclean, if_pos ⟨htopic, hkey⟩]

/-- C7, amended, at the payload `{"tds": "abc", "turbidity": 5}`: both
channels gain their reading. -/
theorem every_known_key_gains_its_value_witness :
    nonNumericMessage.topic = "sensor/data" ∧ (messageKeys nonNumericMessage).Nodup ∧
      (∀ k ∈ messageKeys nonNumericMessage, k ∉ objectPrototypeKeys) ∧
      "tds" ∈ knownChannels ∧ "tds" ∈ messageKeys nonNumericMessage ∧
      (onMessage initialServer nonNumericMessage).state.sensorData.history "tds" =
        pushReading (initialServer.sensorData.history "tds")
          ⟨messageValue nonNumericMessage "tds", nonNumericMessage.now⟩ :=
  ⟨rfl, by decide, by decide, by decide, by decide,
    every_known_key_gains_its_value initialServer nonNumericMessage "tds" rfl (by decide)
      (by decide) (by decide) (by decide)⟩

/-- C8: on a message on `sensor/data` whose payload `JSON.parse` rejects,
the handler completes without throwing, `sensorData` and `latestData`
are as before, and nothing is emitted. -/
theorem invalid_json_changes_nothing (s : Server) (now : Nat) :
    (onMessage s { topic := "sensor/data", parsed := none, now := now }).thrown = none ∧
      (onMessage s { topic := "sensor/data", parsed := none, now := now }).state.sensorData =
        s.sensorData ∧
      (onMessage s { topic := "sensor/data", parsed := none, now := now }).state.latestData =
        s.latestData ∧
      (onMessage s { topic := "sensor/data", parsed := none, now := now }).state.emitted =
        s.emitted :=
  ⟨rfl, rfl, rfl, rfl⟩

/-- C9 fails on the code: on the payload `{"tds": 5, "constructor": 1}`
the reading for `tds` is appended, then the key `constructor` makes the
loop throw, and the handler returns with the history of `tds` extended
while `latestData` is still empty and nothing was emitted. -/
theorem history_extended_without_latest :
    "tds" ∈ knownChannels ∧
      messageKeys inheritedKeyLast = ["tds", "constructor"] ∧
      (onMessage initialServer inheritedKeyLast).thrown = none ∧
      (onMessage initialServer inheritedKeyLast).state.sensorData.history "tds" =
        [⟨JsValue.num 5, 7⟩] ∧
      (onMessage initialServer inheritedKeyLast).state.latestData = [] ∧
      (onMessage initialServer inheritedKeyLast).state.emitted.length = 0 :=
  ⟨by decide, rfl, rfl, rfl, rfl, rfl⟩

/-! ## The query path -/

/-- C10: on the initial state `/api/latest` answers with a snapshot whose
`historical` has each of the six channels bound to an empty array, whose
`latest` is the empty object and whose `config` is the configured
thresholds. -/
theorem snapshot_of_initial_store :
    knownChannels.map (fun c => (apiLatest initialServer).historical.lookup c) =
        List.replicate 6 (SensorLookup.history []) ∧
      (apiLatest initialServer).historical = ⟨[], [], [], [], [], []⟩ ∧
      (apiLatest initialServer).latest = [] ∧
      (apiLatest initialServer).config =
        { tankTotalVolume := 1000, distanceFull := 1, distanceEmpty := 11,
          turbidityThreshold := 1000, tdsMin := 50, tdsMax := 300, tempMin := 15,
          tempMax := 30, outsideTempMax := 45 } :=
  ⟨rfl, rfl, rfl, rfl⟩

/-! ## Push path and pull path -/

theorem tryBlock_emitted_of_ok (s : Server) (msg : Inbound)
    (hok : (tryBlock s msg).thrown = none) :
    (tryBlock s msg).state.emitted = s.emitted ++ [apiLatest (tryBlock s msg).state] := by
  unfold tryBlock at hok ⊢
  cases hp : msg.parsed with
  | none => rw [hp] at hok; simp at hok
  | some parsed =>
    rw [hp] at hok
    simp only at hok ⊢
    cases ho : ownProps parsed with
    | none => rw [ho] at hok; simp at hok
    | some props =>
      rw [ho] at hok
      simp only at hok ⊢
      cases hf : forEachKey props msg.now s.sensorData (objectKeys props) with
      | mk sd thr =>
        rw [hf] at hok
        cases thr with
        | none => rfl
        | some err => simp at hok

theorem onMessage_state_of_ok (s : Server) (msg : Inbound) (htopic : msg.topic = "sensor/data")
    (hok : (tryBlock s msg).thrown = none) :
    (onMessage s msg).state = (tryBlock s msg).state := by
  unfold onMessage
  rw [if_pos htopic]
  cases ht : tryBlock s msg with
  | mk s1 thr =>
    rw [ht] at hok
    simp only at hok
    subst hok
    rfl

/-- C11: after a message on `sensor/data` whose `try` block ran to
completion, exactly one `dataUpdate` payload has been added to what was
emitted, and it is the snapshot that `/api/latest` returns on the state
the handler leaves: the same `latest`, `historical` and `config`. -/
theorem pushed_snapshot_is_pulled_snapshot (s : Server) (msg : Inbound)
    (htopic : msg.topic = "sensor/data") (hok : (tryBlock s msg).thrown = none) :
    (onMessage s msg).state.emitted = s.emitted ++ [apiLatest (onMessage s msg).state] ∧
      (apiLatest (onMessage s msg).state).latest = (onMessage s msg).state.latestData ∧
      (apiLatest (onMessage s msg).state).historical = (onMessage s msg).state.sensorData ∧
      (apiLatest (onMessage s msg).state).config = config := by
  rw [onMessage_state_of_ok s msg htopic hok]
  exact ⟨tryBlock_emitted_of_ok s msg hok, rfl, rfl, rfl⟩

/-- C11 at the payload `{"tds": 5, "foo": 1}` after two earlier messages. -/
theorem pushed_snapshot_is_pulled_snapshot_witness :
    tdsAndFooMessage.topic = "sensor/data" ∧
      (tryBlock (run initialServer turbidityThenTds) tdsAndFooMessage).thrown = none ∧
      (onMessage (run initialServer turbidityThenTds) tdsAndFooMessage).state.emitted =
        (run initialServer turbidityThenTds).emitted ++
          [apiLatest (onMessage (run initialServer turbidityThenTds) tdsAndFooMessage).state] :=
  ⟨rfl, rfl,
    (pushed_snapshot_is_pulled_snapshot (run initialServer turbidityThenTds) tdsAndFooMessage
      rfl rfl).1⟩

/-! ## Timestamp order -/

theorem sortedUpTo_mono {t u : Nat} {h : List Reading} (hs : SortedUpTo t h) (htu : t ≤ u) :
    SortedUpTo u h :=
  ⟨hs.1, fun r hr => Nat.le_trans (hs.2 r hr) htu⟩

theorem mem_pushReading {h : List Reading} {r x : Reading} (hr : r ∈ pushReading h x) :
    r ∈ h ∨ r = x := by
  unfold pushReading at hr
  have hmem : r ∈ h ++ [x] := by
    by_cases hl : (h ++ [x]).length > 200
    · simp only [hl, if_true] at hr
      exact List.mem_of_mem_tail hr
    · simp only [hl, if_false] at hr
      exact hr
  simpa using hmem

theorem sortedUpTo_pushReading {t : Nat} {h : List Reading} (hs : SortedUpTo t h)
    (v : JsValue) : SortedUpTo t (pushReading h ⟨v, t⟩) := by
  have happ : (h ++ [(⟨v, t⟩ : Reading)]).Pairwise (fun a b => a.timestamp ≤ b.timestamp) := by
    rw [List.pairwise_append]
    refine ⟨hs.1, List.pairwise_singleton _ _, ?_⟩
    intro a ha b hb
    rw [List.mem_singleton] at hb
    subst hb
    exact hs.2 a ha
  refine ⟨?_, ?_⟩
  · unfold pushReading
    by_cases hl : (h ++ [(⟨v, t⟩ : Reading)]).length > 200
    · simp only [hl, if_true]
      exact happ.sublist (List.tail_sublist _)
    · simp only [hl, if_false]
      exact happ
  · intro r hr
    rcases mem_pushReading hr with h1 | h1
    · exact hs.2 r h1
    · subst h1; exact Nat.le_refl _

theorem sortedUpTo_forEachKey (parsed : JsProps) (t : Nat) (keys : List String)
    {sd : SensorData} (hs : ∀ c ∈ knownChannels, SortedUpTo t (sd.history c)) :
    ∀ c ∈ knownChannels, SortedUpTo t ((forEachKey parsed t sd keys).state.history c) := by
  induction keys generalizing sd with
  | nil => exact hs
  | cons k rest ih =>
    by_cases hp : k ∈ objectPrototypeKeys
    · rw [forEachKey_cons_prototype parsed t sd hp]; exact hs
    · by_cases hk : k ∈ knownChannels
      · rw [forEachKey_cons_known parsed t sd hk]
        apply ih
        intro c hc
        by_cases e : k = c
        · subst e
          rw [history_store_same sd hk]
          exact sortedUpTo_pushReading (hs k hk) _
        · rw [history_store_other sd e]
          exact hs c hc
      · rw [forEachKey_cons_other parsed t sd hk hp]
        exact ih hs

theorem sortedUpTo_onMessage {s : Server} {t : Nat}
    (hs : ∀ c ∈ knownChannels, SortedUpTo t (s.sensorData.history c)) (msg : Inbound)
    (ht : t ≤ msg.now) :
    ∀ c ∈ knownChannels, SortedUpTo msg.now ((onMessage s msg).state.sensorData.history c) := by
  have hs1 : ∀ c ∈ knownChannels, SortedUpTo msg.now (s.sensorData.history c) :=
    fun c hc => sortedUpTo_mono (hs c hc) ht
  by_cases htopic : msg.topic = "sensor/data"
  · rw [onMessage_sensorData_of_topic s msg htopic]
    cases hp : messageProps msg with
    | none => rw [(tryBlock_of_no_props s msg hp).1]; exact hs1
    | some props =>
      rw [tryBlock_sensorData s msg hp]
      exact sortedUpTo_forEachKey props msg.now _ hs1
  · rw [onMessage_of_other_topic s msg htopic]; exact hs1

theorem sortedUpTo_run (msgs : List Inbound) {s : Server} {t : Nat}
    (hs : ∀ c ∈ knownChannels, SortedUpTo t (s.sensorData.history c))
    (hge : ∀ m ∈ msgs, t ≤ m.now) (hmono : msgs.Pairwise (fun a b => a.now ≤ b.now)) :
    ∀ c ∈ knownChannels,
      ((run s msgs).sensorData.history c).Pairwise (fun a b => a.timestamp ≤ b.timestamp) := by
  induction msgs generalizing s t with
  | nil => exact fun c hc => (hs c hc).1
  | cons m rest ih =>
    rw [List.pairwise_cons] at hmono
    exact ih (sortedUpTo_onMessage hs m (hge m (List.mem_cons_self _ _))) hmono.1 hmono.2

theorem sortedUpTo_initial : ∀ c ∈ knownChannels, SortedUpTo 0 (initialServer.sensorData.history c) := by
  intro c hc
  have h0 : initialServer.sensorData.history c = [] := by
    rcases mem_knownChannels.mp hc with e | e | e | e | e | e <;> subst e <;> rfl
  rw [h0]
  exact ⟨List.Pairwise.nil, fun r hr => absurd hr (List.not_mem_nil r)⟩

theorem forEachKey_new_readings (parsed : JsProps) (t : Nat) (keys : List String)
    (sd : SensorData) (c : String) :
    ∀ r ∈ (forEachKey parsed t sd keys).state.history c, r ∈ sd.history c ∨ r.timestamp = t := by
  induction keys generalizing sd with
  | nil => exact fun r hr => Or.inl hr
  | cons k rest ih =>
    by_cases hp : k ∈ objectPrototypeKeys
    · rw [forEachKey_cons_prototype parsed t sd hp]; exact fun r hr => Or.inl hr
    · by_cases hk : k ∈ knownChannels
      · rw [forEachKey_cons_known parsed t sd hk]
        intro r hr
        rcases ih _ r hr with h1 | h1
        · by_cases e : k = c
          · subst e
            rw [history_store_same sd hk] at h1
            rcases mem_pushReading h1 with h2 | h2
            · exact Or.inl h2
            · subst h2; exact Or.inr rfl
          · rw [history_store_other sd e] at h1
            exact Or.inl h1
        · exact Or.inr h1
      · rw [forEachKey_cons_other parsed t sd hk hp]
        exact ih sd

theorem onMessage_new_readings (s : Server) (msg : Inbound) (c : String) :
    ∀ r ∈ (onMessage s msg).state.sensorData.history c,
      r ∈ s.sensorData.history c ∨ r.timestamp = msg.now := by
  by_cases htopic : msg.topic = "sensor/data"
  · rw [onMessage_sensorData_of_topic s msg htopic]
    cases hp : messageProps msg with
    | none => rw [(tryBlock_of_no_props s msg hp).1]; exact fun r hr => Or.inl hr
    | some props =>
      rw [tryBlock_sensorData s msg hp]
      exact forEachKey_new_readings props msg.now _ _ c
  · rw [onMessage_of_other_topic s msg htopic]; exact fun r hr => Or.inl hr

/-- C13: when the messages are stamped with non-decreasing arrival times,
every channel history in the state they lead to from the initial state is
in non-decreasing timestamp order; and whatever one further message adds
to a history carries that message's timestamp. -/
theorem histories_sorted_by_timestamp (msgs : List Inbound)
    (hmono : msgs.Pairwise (fun a b => a.now ≤ b.now)) (c : String)
    (hc : c ∈ knownChannels) :
    ((run initialServer msgs).sensorData.history c).Pairwise
        (fun a b => a.timestamp ≤ b.timestamp) ∧
      ∀ msg : Inbound, ∀ r ∈ (onMessage (run initialServer msgs) msg).state.sensorData.history c,
        r ∈ (run initialServer msgs).sensorData.history c ∨ r.timestamp = msg.now :=
  ⟨sortedUpTo_run msgs sortedUpTo_initial (fun _ _ => Nat.zero_le _) hmono c hc,
    fun msg => onMessage_new_readings _ msg c⟩

/-- C13 at three messages with arrival times 10, 10, 20: the `tds`
history is stamped 10, 10, 20. -/
theorem histories_sorted_by_timestamp_witness :
    threeTimedMessages.Pairwise (fun a b => a.now ≤ b.now) ∧ "tds" ∈ knownChannels ∧
      ((run initialServer threeTimedMessages).sensorData.history "tds").map
        (fun r => r.timestamp) = [10, 10, 20] ∧
      ((run initialServer threeTimedMessages).sensorData.history "tds").Pairwise
        (fun a b => a.timestamp ≤ b.timestamp) :=
  ⟨by decide, by decide, rfl,
    (histories_sorted_by_timestamp threeTimedMessages (by decide) "tds" (by decide)).1⟩

/-! ## The volume of water -/

theorem calculateVolume_fin (d : ℚ) (cfg : Config) :
    calculateVolume (JsNum.fin d) cfg = JsNum.fin (specVolume d cfg) := by
  unfold calculateVolume specVolume
  by_cases h1 : d ≤ cfg.distanceFull
  · simp [JsNum.le, h1]
  · by_cases h2 : cfg.distanceEmpty ≤ d
    · simp [JsNum.le, JsNum.ge, h1, h2]
    · have hne : cfg.distanceEmpty - cfg.distanceFull ≠ 0 := by
        have : cfg.distanceFull < cfg.distanceEmpty :=
          lt_trans (not_le.mp h1) (not_le.mp h2)
        exact ne_of_gt (sub_pos.mpr this)
      simp [JsNum.le, JsNum.ge, JsNum.sub, JsNum.div, JsNum.mul, mathRound, h1, h2, hne,
        mul_comm]

theorem calculateVolume_nan (cfg : Config) : calculateVolume JsNum.nan cfg = JsNum.nan := by
  simp [calculateVolume, JsNum.le, JsNum.ge, JsNum.sub, JsNum.div, JsNum.mul, mathRound]

theorem specVolume_of_empty_tank (d : ℚ) (cfg : Config) (h : cfg.tankTotalVolume = 0) :
    specVolume d cfg = 0 := by
  unfold specVolume roundHalfUp
  rw [h]
  split_ifs
  · rfl
  · rfl
  · have hfloor : ⌊(0 : ℚ) + 1 / 2⌋ = 0 := by
      rw [Int.floor_eq_iff]; norm_num
    rw [zero_mul, hfloor, Int.cast_zero]

/-! ## The fill percentage -/

theorem fillPercentage_fin (v : ℚ) (cfg : Config) :
    fillPercentage (JsNum.fin v) cfg =
      if cfg.tankTotalVolume = 0 then JsNum.nan
      else JsNum.fin (roundHalfUp (100 * v / cfg.tankTotalVolume)) := by
  unfold fillPercentage
  by_cases h : cfg.tankTotalVolume = 0
  · simp [JsNum.div, JsNum.mul, mathRound, h]
  · have e : v / cfg.tankTotalVolume * 100 = 100 * v / cfg.tankTotalVolume := by ring
    simp [JsNum.div, JsNum.mul, mathRound, h, e]

/-! ## Status of the single sensors -/

theorem temperaturePageStatus_fin (v : ℚ) (cfg : Config) :
    temperaturePageStatus (JsNum.fin v) cfg =
      if v < cfg.tempMin then TemperatureStatus.tooCold
      else if v > cfg.tempMax then TemperatureStatus.tooHot
      else TemperatureStatus.normal := by
  simp [temperaturePageStatus, JsNum.lt, JsNum.gt]

/-- C16 fails as stated: at 14 with `tempMin = 15` the temperature page
takes its too-cold branch, whose indicator class is `warning`, not
`danger`. -/
theorem too_cold_is_shown_as_warning :
    JsNum.lt (JsNum.fin 14) (JsNum.fin config.tempMin) = true ∧
      temperaturePageStatus (JsNum.fin 14) config = TemperatureStatus.tooCold ∧
      (temperaturePageStatus (JsNum.fin 14) config).className = Indicator.warning ∧
      (temperaturePageStatus (JsNum.fin 14) config).className ≠ Indicator.danger := by
  have h : temperaturePageStatus (JsNum.fin 14) config = TemperatureStatus.tooCold := by
    rw [temperaturePageStatus_fin]; norm_num [config]
  refine ⟨by norm_num [JsNum.lt, config], h, ?_, ?_⟩ <;> rw [h] <;> decide

/-- C16, amended: for every value and configuration the temperature page
shows too cold, with class `warning`, when `value < tempMin`; otherwise too
hot, with class `danger`, when `value > tempMax`; otherwise normal, with
class `safe`.  It raises an alert in the first two cases, and the
dashboard, which shows no status for the water temperature, raises its
alert exactly when `value < tempMin` or `value > tempMax`.  With
`tempMin = 15`, `tempMax = 30`: 14 is too cold, 30 is normal, 30.01 is too
hot. -/
theorem temperature_status (v : ℚ) (cfg : Config) :
    temperaturePageStatus (JsNum.fin v) cfg =
        (if v < cfg.tempMin then TemperatureStatus.tooCold
         else if v > cfg.tempMax then TemperatureStatus.tooHot
         else TemperatureStatus.normal) ∧
      (temperaturePageStatus (JsNum.fin v) cfg).className =
        (if v < cfg.tempMin then Indicator.warning
         else if v > cfg.tempMax then Indicator.danger
         else Indicator.safe) ∧
      ((temperaturePageStatus (JsNum.fin v) cfg).alert = true ↔
        (v < cfg.tempMin ∨ v > cfg.tempMax)) ∧
      (dashboardTemperatureAlert (JsNum.fin v) cfg = true ↔
        (v < cfg.tempMin ∨ v > cfg.tempMax)) ∧
      temperaturePageStatus (JsNum.fin 14) config = TemperatureStatus.tooCold ∧
      temperaturePageStatus (JsNum.fin 30) config = TemperatureStatus.normal ∧
      temperaturePageStatus (JsNum.fin (3001 / 100)) config = TemperatureStatus.tooHot := by
  refine ⟨temperaturePageStatus_fin v cfg, ?_, ?_, ?_, ?_, ?_, ?_⟩
  · rw [temperaturePageStatus_fin]
    split_ifs <;> rfl
  · rw [temperaturePageStatus_fin]
    split_ifs with h1 h2
    · simp [TemperatureStatus.alert, h1]
    · simp [TemperatureStatus.alert, h2]
    · simp [TemperatureStatus.alert, h1, h2]
  · simp [dashboardTemperatureAlert, JsNum.lt, JsNum.gt]
  · rw [temperaturePageStatus_fin]; norm_num [config]
  · rw [temperaturePageStatus_fin]; norm_num [config]
  · rw [temperaturePageStatus_fin]; norm_num [config]

theorem tdsPageStatus_fin (v : ℚ) (cfg : Config) :
    tdsPageStatus (JsNum.fin v) cfg =
      if v < cfg.tdsMin then TdsStatus.lowMineral
      else if v > cfg.tdsMax then TdsStatus.high
      else if v ≤ 150 then TdsStatus.excellent
      else TdsStatus.good := by
  simp [tdsPageStatus, JsNum.lt, JsNum.gt, JsNum.le]

/-- C18 fails as stated: at 40 with `tdsMin = 50` the TDS page takes its
low-mineral branch, whose indicator class is `warning`, not `danger`. -/
theorem low_tds_is_shown_as_warning :
    (40 : ℚ) < config.tdsMin ∧
      tdsPageStatus (JsNum.fin 40) config = TdsStatus.lowMineral ∧
      (tdsPageStatus (JsNum.fin 40) config).className = Indicator.warning ∧
      (tdsPageStatus (JsNum.fin 40) config).className ≠ Indicator.danger ∧
      dashboardTdsStatus (JsNum.fin 40) config = Indicator.danger := by
  have h : tdsPageStatus (JsNum.fin 40) config = TdsStatus.lowMineral := by
    rw [tdsPageStatus_fin]; norm_num [config]
  refine ⟨by norm_num [config], h, ?_, ?_, ?_⟩
  · rw [h]; decide
  · rw [h]; decide
  · norm_num [dashboardTdsStatus, JsNum.lt, JsNum.gt, config]

/-- C18, amended: for every TDS value and configuration the dashboard
shows `danger` when `value < tdsMin` or `value > tdsMax` and `safe`
otherwise; the TDS page shows `warning` when `value < tdsMin`, otherwise
`danger` when `value > tdsMax`, otherwise `safe`, and raises an alert
exactly when `value < tdsMin` or `value > tdsMax`. -/
theorem tds_status (v : ℚ) (cfg : Config) :
    dashboardTdsStatus (JsNum.fin v) cfg =
        (if v < cfg.tdsMin ∨ v > cfg.tdsMax then Indicator.danger else Indicator.safe) ∧
      (tdsPageStatus (JsNum.fin v) cfg).className =
        (if v < cfg.tdsMin then Indicator.warning
         else if v > cfg.tdsMax then Indicator.danger
         else Indicator.safe) ∧
      ((tdsPageStatus (JsNum.fin v) cfg).alert = true ↔ (v < cfg.tdsMin ∨ v > cfg.tdsMax)) := by
  refine ⟨?_, ?_, ?_⟩
  · simp [dashboardTdsStatus, JsNum.lt, JsNum.gt]
  · rw [tdsPageStatus_fin]
    split_ifs <;> rfl
  · rw [tdsPageStatus_fin]
    split_ifs with h1 h2 h3
    · simp [TdsStatus.alert, h1]
    · simp [TdsStatus.alert, h2]
    · simp [TdsStatus.alert, h1, h2]
    · simp [TdsStatus.alert, h1, h2]

/-! ## Tank integrity -/

theorem dashboardIntegrity_fin (a w : ℚ) (cfg : Config) :
    dashboardIntegrity (JsNum.fin a) (JsNum.fin w) cfg =
      if a > cfg.outsideTempMax ∧ w < cfg.tempMax then Integrity.good
      else if a > cfg.outsideTempMax ∧ w > cfg.tempMax then Integrity.compromised
      else Integrity.normal := by
  simp [dashboardIntegrity, JsNum.lt, JsNum.gt]

/-- C19: for every ambient temperature, water temperature and
configuration the dashboard's verdict is compromised when
`ambient > outsideTempMax` and `water > tempMax`, good when
`ambient > outsideTempMax` and `water < tempMax`, and normal otherwise, in
particular when `water = tempMax`.  With `outsideTempMax = 45`,
`tempMax = 30`: (46, 25) is good, (46, 31) compromised, (40, 31) normal. -/
theorem integrity_verdict (a w : ℚ) (cfg : Config) :
    dashboardIntegrity (JsNum.fin a) (JsNum.fin w) cfg =
        (if a > cfg.outsideTempMax ∧ w > cfg.tempMax then Integrity.compromised
         else if a > cfg.outsideTempMax ∧ w < cfg.tempMax then Integrity.good
         else Integrity.normal) ∧
      dashboardIntegrity (JsNum.fin a) (JsNum.fin cfg.tempMax) cfg = Integrity.normal ∧
      dashboardIntegrity (JsNum.fin 46) (JsNum.fin 25) config = Integrity.good ∧
      dashboardIntegrity (JsNum.fin 46) (JsNum.fin 31) config = Integrity.compromised ∧
      dashboardIntegrity (JsNum.fin 40) (JsNum.fin 31) config = Integrity.normal := by
  refine ⟨?_, ?_, ?_, ?_, ?_⟩
  · rw [dashboardIntegrity_fin]
    by_cases h1 : a > cfg.outsideTempMax ∧ w > cfg.tempMax
    · have h2 : ¬ (a > cfg.outsideTempMax ∧ w < cfg.tempMax) :=
        fun h => lt_asymm h.2 h1.2
      rw [if_neg h2, if_pos h1, if_pos h1]
    · rw [if_neg h1, if_neg h1]
  · rw [dashboardIntegrity_fin]
    simp
  · rw [dashboardIntegrity_fin]; norm_num [config]
  · rw [dashboardIntegrity_fin]; norm_num [config]
  · rw [dashboardIntegrity_fin]; norm_num [config]

theorem dashboardIntegrity_nan_inside (outsideTemp : JsNum) (cfg : Config) :
    dashboardIntegrity outsideTemp JsNum.nan cfg = Integrity.normal := by
  cases outsideTemp <;> simp [dashboardIntegrity, JsNum.lt, JsNum.gt]

/-! ## What a message leaves alone -/

theorem onMessage_history_of_not_key (s : Server) (msg : Inbound) {c : String}
    (hc : c ∉ messageKeys msg) :
    (onMessage s msg).state.sensorData.history c = s.sensorData.history c := by
  by_cases ht : msg.topic = "sensor/data"
  · rw [onMessage_sensorData_of_topic s msg ht]
    cases hp : messageProps msg with
    | none => rw [(tryBlock_of_no_props s msg hp).1]
    | some props =>
      have hk : messageKeys msg = objectKeys props := by simp [messageKeys, hp]
      rw [hk] at hc
      rw [tryBlock_sensorData s msg hp]
      exact forEachKey_history_of_not_visited props msg.now _ _
        (fun hv => hc (visitedKeys_subset hv))
  · rw [onMessage_of_other_topic s msg ht]

/-- C30: a message leaves unchanged the history of every channel that
is not one of its keys; a message on a topic other than `sensor/data`
leaves the whole state as it was; and the snapshot served after any
message carries the same `config` as before. -/
theorem message_changes_only_its_channels (s : Server) (msg : Inbound) :
    (∀ c : String, c ∉ messageKeys msg →
        (onMessage s msg).state.sensorData.history c = s.sensorData.history c) ∧
      (msg.topic ≠ "sensor/data" → (onMessage s msg).state = s) ∧
      (apiLatest (onMessage s msg).state).config = (apiLatest s).config ∧
      (apiLatest (onMessage s msg).state).config = config :=
  ⟨fun _ hc => onMessage_history_of_not_key s msg hc,
    fun ht => by rw [onMessage_of_other_topic s msg ht], rfl, rfl⟩

/-- C30 at the payload `{"tds": 5, "foo": 1}` after two earlier
messages, for the channel `turbidity`, and at a message on another
topic. -/
theorem message_changes_only_its_channels_witness :
    "turbidity" ∉ messageKeys tdsAndFooMessage ∧
      (onMessage (run initialServer turbidityThenTds) tdsAndFooMessage).state.sensorData.history
          "turbidity" =
        (run initialServer turbidityThenTds).sensorData.history "turbidity" ∧
      otherTopicMessage.topic ≠ "sensor/data" ∧
      (onMessage (run initialServer turbidityThenTds) otherTopicMessage).state =
        run initialServer turbidityThenTds :=
  ⟨by decide,
    (message_changes_only_its_channels (run initialServer turbidityThenTds)
      tdsAndFooMessage).1 "turbidity" (by decide),
    by decide,
    (message_changes_only_its_channels (run initialServer turbidityThenTds)
      otherTopicMessage).2.1 (by decide)⟩

/-! ## The quality label of a TDS row -/

/-- C24: for every TDS value the label of a history row is Low Mineral
exactly when `value < 50`, Excellent exactly when `50 ≤ value ≤ 150`, Good
exactly when `150 < value ≤ 300`, Fair exactly when `300 < value ≤ 500`
and Poor exactly when `value > 500`; a row whose value is NaN, which is in
none of these ranges, is labelled Poor. -/
theorem tds_row_quality (v : ℚ) :
    ((tdsRowQuality (JsNum.fin v) = TdsQuality.lowMineral ↔ v < 50) ∧
      (tdsRowQuality (JsNum.fin v) = TdsQuality.excellent ↔ 50 ≤ v ∧ v ≤ 150) ∧
      (tdsRowQuality (JsNum.fin v) = TdsQuality.good ↔ 150 < v ∧ v ≤ 300) ∧
      (tdsRowQuality (JsNum.fin v) = TdsQuality.fair ↔ 300 < v ∧ v ≤ 500) ∧
      (tdsRowQuality (JsNum.fin v) = TdsQuality.poor ↔ 500 < v)) ∧
      tdsRowQuality JsNum.nan = TdsQuality.poor := by
  refine ⟨?_, by simp [tdsRowQuality, JsNum.lt, JsNum.le]⟩
  have h : tdsRowQuality (JsNum.fin v) =
      if v < 50 then TdsQuality.lowMineral
      else if v ≤ 150 then TdsQuality.excellent
      else if v ≤ 300 then TdsQuality.good
      else if v ≤ 500 then TdsQuality.fair
      else TdsQuality.poor := by
    simp [tdsRowQuality, JsNum.lt, JsNum.le]
  rw [h]
  split_ifs with h1 h2 h3 h4
  · refine ⟨?_, ?_, ?_, ?_, ?_⟩ <;> constructor <;> intro hx <;>
      first | exact h1 | exact False.elim hx | trivial | rfl |
        (exfalso; rcases hx with ⟨ha, hb⟩; linarith) | (exfalso; linarith)
  · refine ⟨?_, ?_, ?_, ?_, ?_⟩ <;> constructor <;> intro hx <;>
      first | exact ⟨not_lt.mp h1, h2⟩ | exact False.elim hx | trivial | rfl |
        (exfalso; rcases hx with ⟨ha, hb⟩; linarith) | (exfalso; linarith)
  · refine ⟨?_, ?_, ?_, ?_, ?_⟩ <;> constructor <;> intro hx <;>
      first | exact ⟨not_le.mp h2, h3⟩ | exact False.elim hx | trivial | rfl |
        (exfalso; rcases hx with ⟨ha, hb⟩; linarith) | (exfalso; linarith)
  · refine ⟨?_, ?_, ?_, ?_, ?_⟩ <;> constructor <;> intro hx <;>
      first | exact ⟨not_le.mp h3, h4⟩ | exact False.elim hx | trivial | rfl |
        (exfalso; rcases hx with ⟨ha, hb⟩; linarith) | (exfalso; linarith)
  · refine ⟨?_, ?_, ?_, ?_, ?_⟩ <;> constructor <;> intro hx <;>
      first | exact not_le.mp h4 | exact False.elim hx | trivial | rfl |
        (exfalso; rcases hx with ⟨ha, hb⟩; linarith)

/-! ## Bounds and monotonicity of the volume -/

theorem calculateVolume_of_branch (distance : JsNum) (cfg : Config) :
    calculateVolume distance cfg =
      match volumeBranch distance cfg with
      | VolumeBranch.full => JsNum.fin cfg.tankTotalVolume
      | VolumeBranch.empty => JsNum.fin 0
      | VolumeBranch.interpolated =>
        mathRound (JsNum.mul
          (JsNum.sub (JsNum.fin 1)
            (JsNum.div (JsNum.sub distance (JsNum.fin cfg.distanceFull))
              (JsNum.sub (JsNum.fin cfg.distanceEmpty) (JsNum.fin cfg.distanceFull))))
          (JsNum.fin cfg.tankTotalVolume)) := by
  unfold calculateVolume volumeBranch
  split_ifs <;> rfl

theorem volumeBranch_fin (d : ℚ) (cfg : Config) :
    volumeBranch (JsNum.fin d) cfg =
      if d ≤ cfg.distanceFull then VolumeBranch.full
      else if cfg.distanceEmpty ≤ d then VolumeBranch.empty
      else VolumeBranch.interpolated := by
  simp [volumeBranch, JsNum.le, JsNum.ge]

theorem volumeBranch_nan (cfg : Config) :
    volumeBranch JsNum.nan cfg = VolumeBranch.interpolated := by
  simp [volumeBranch, JsNum.le, JsNum.ge]

theorem roundHalfUp_mono {a b : ℚ} (h : a ≤ b) : roundHalfUp a ≤ roundHalfUp b := by
  unfold roundHalfUp
  exact Int.floor_mono (by linarith)

theorem roundHalfUp_intCast (n : ℤ) : roundHalfUp (n : ℚ) = n := by
  unfold roundHalfUp
  rw [Int.floor_eq_iff]
  constructor <;> linarith

theorem roundHalfUp_nonneg {a : ℚ} (h : 0 ≤ a) : 0 ≤ roundHalfUp a := by
  have h0 := roundHalfUp_mono h
  have h1 : roundHalfUp (0 : ℚ) = 0 := by
    have := roundHalfUp_intCast 0
    simpa using this
  rw [h1] at h0
  exact h0

theorem interpolation_factor_bounds {d full empty : ℚ} (h1 : full < d) (h2 : d < empty) :
    0 < 1 - (d - full) / (empty - full) ∧ 1 - (d - full) / (empty - full) < 1 := by
  have hden : 0 < empty - full := by linarith
  have hnum : 0 < d - full := by linarith
  have hq : (d - full) / (empty - full) < 1 := by
    rw [div_lt_one hden]; linarith
  have hq0 : 0 < (d - full) / (empty - full) := div_pos hnum hden
  constructor <;> linarith

theorem specVolume_bounds (d : ℚ) (cfg : Config) (hnn : 0 ≤ cfg.tankTotalVolume)
    (hint : ∃ n : ℤ, cfg.tankTotalVolume = n) :
    0 ≤ specVolume d cfg ∧ specVolume d cfg ≤ cfg.tankTotalVolume := by
  unfold specVolume
  split_ifs with h1 h2
  · exact ⟨hnn, le_refl _⟩
  · exact ⟨le_refl _, hnn⟩
  · have hp := interpolation_factor_bounds (not_le.mp h1) (not_le.mp h2)
    obtain ⟨n, hn⟩ := hint
    constructor
    · have : 0 ≤ cfg.tankTotalVolume *
          (1 - (d - cfg.distanceFull) / (cfg.distanceEmpty - cfg.distanceFull)) :=
        mul_nonneg hnn (le_of_lt hp.1)
      exact_mod_cast roundHalfUp_nonneg this
    · have hle : cfg.tankTotalVolume *
          (1 - (d - cfg.distanceFull) / (cfg.distanceEmpty - cfg.distanceFull)) ≤
          cfg.tankTotalVolume := by
        have := mul_le_mul_of_nonneg_left (le_of_lt hp.2) hnn
        simpa using this
      have hr := roundHalfUp_mono hle
      rw [hn] at hr ⊢
      rw [roundHalfUp_intCast] at hr
      exact_mod_cast hr

theorem specVolume_antitone (cfg : Config) (hnn : 0 ≤ cfg.tankTotalVolume)
    (hint : ∃ n : ℤ, cfg.tankTotalVolume = n) {d1 d2 : ℚ} (h : d1 ≤ d2) :
    specVolume d2 cfg ≤ specVolume d1 cfg := by
  by_cases h1 : d1 ≤ cfg.distanceFull
  · have e1 : specVolume d1 cfg = cfg.tankTotalVolume := by simp [specVolume, h1]
    rw [e1]
    exact (specVolume_bounds d2 cfg hnn hint).2
  · have h1' : ¬ d2 ≤ cfg.distanceFull := fun hc => h1 (le_trans h hc)
    by_cases h2 : d2 ≥ cfg.distanceEmpty
    · have e2 : specVolume d2 cfg = 0 := by simp [specVolume, h1', h2]
      rw [e2]
      exact (specVolume_bounds d1 cfg hnn hint).1
    · have h2' : ¬ d1 ≥ cfg.distanceEmpty := fun hc => h2 (le_trans hc h)
      have hden : 0 < cfg.distanceEmpty - cfg.distanceFull := by
        have := not_le.mp h1
        have := not_le.mp h2'
        linarith
      have hq : (d1 - cfg.distanceFull) / (cfg.distanceEmpty - cfg.distanceFull) ≤
          (d2 - cfg.distanceFull) / (cfg.distanceEmpty - cfg.distanceFull) :=
        div_le_div_of_nonneg_right (by linarith) (le_of_lt hden)
      have hx : cfg.tankTotalVolume *
          (1 - (d2 - cfg.distanceFull) / (cfg.distanceEmpty - cfg.distanceFull)) ≤
          cfg.tankTotalVolume *
          (1 - (d1 - cfg.distanceFull) / (cfg.distanceEmpty - cfg.distanceFull)) :=
        mul_le_mul_of_nonneg_left (by linarith) hnn
      simp only [specVolume, h1, h1', h2, h2', if_false]
      exact_mod_cast roundHalfUp_mono hx

/-- C25 fails as stated: a NaN distance, which `parseFloat` yields for a
reading that is not numeric, fails both comparisons and reaches the
interpolation branch under every configuration; with
`distanceFull = distanceEmpty = 5` the denominator there is 0. -/
theorem nan_distance_reaches_interpolation :
    volumeBranch JsNum.nan equalDistancesConfig = VolumeBranch.interpolated ∧
      equalDistancesConfig.distanceEmpty - equalDistancesConfig.distanceFull = 0 ∧
      JsNum.sub (JsNum.fin equalDistancesConfig.distanceEmpty)
        (JsNum.fin equalDistancesConfig.distanceFull) = JsNum.fin 0 ∧
      calculateVolume JsNum.nan equalDistancesConfig = JsNum.nan := by
  refine ⟨volumeBranch_nan _, ?_, ?_, calculateVolume_nan _⟩
  · norm_num [equalDistancesConfig, config]
  · norm_num [JsNum.sub, equalDistancesConfig, config]

/-- C25, amended: for every finite distance and every configuration,
`distanceFull = distanceEmpty` and `distanceFull > distanceEmpty`
included, `calculateVolume` reaches its interpolation branch exactly when
`distanceFull < distance < distanceEmpty`, and then the denominator
`distanceEmpty - distanceFull` is strictly positive; a NaN distance
reaches the branch under every configuration and the result is NaN. -/
theorem interpolation_denominator_positive (d : ℚ) (cfg : Config) :
    (volumeBranch (JsNum.fin d) cfg = VolumeBranch.interpolated ↔
        cfg.distanceFull < d ∧ d < cfg.distanceEmpty) ∧
      (volumeBranch (JsNum.fin d) cfg = VolumeBranch.interpolated →
        0 < cfg.distanceEmpty - cfg.distanceFull) ∧
      volumeBranch JsNum.nan cfg = VolumeBranch.interpolated ∧
      calculateVolume JsNum.nan cfg = JsNum.nan := by
  have hiff : volumeBranch (JsNum.fin d) cfg = VolumeBranch.interpolated ↔
      cfg.distanceFull < d ∧ d < cfg.distanceEmpty := by
    rw [volumeBranch_fin]
    split_ifs with h1 h2
    · constructor
      · intro hx; exact False.elim hx
      · intro hx; exact absurd h1 (not_le.mpr hx.1)
    · constructor
      · intro hx; exact False.elim hx
      · intro hx; exact absurd h2 (not_le.mpr hx.2)
    · exact ⟨fun _ => ⟨not_le.mp h1, not_le.mp h2⟩, fun _ => rfl⟩
  refine ⟨hiff, ?_, volumeBranch_nan cfg, calculateVolume_nan cfg⟩
  intro hb
  have := hiff.mp hb
  linarith [this.1, this.2]

/-- C25, amended, at distance 6 with the configured distances 1 and 11. -/
theorem interpolation_denominator_positive_witness :
    volumeBranch (JsNum.fin 6) config = VolumeBranch.interpolated ∧
      0 < config.distanceEmpty - config.distanceFull := by
  have hb : volumeBranch (JsNum.fin 6) config = VolumeBranch.interpolated := by
    rw [volumeBranch_fin]; norm_num [config]
  exact ⟨hb, (interpolation_denominator_positive 6 config).2.1 hb⟩

/-- C26 fails as stated: with `tankTotalVolume = 3/5`, which is positive,
and the configured distances 1 and 11, the distance 2 gives the volume
`round(0.54) = 1`, above `tankTotalVolume`, and the fill percentage 167. -/
theorem rounded_volume_exceeds_fractional_tank :
    0 < fractionalTankConfig.tankTotalVolume ∧
      calculateVolume (JsNum.fin 2) fractionalTankConfig = JsNum.fin 1 ∧
      JsNum.le (calculateVolume (JsNum.fin 2) fractionalTankConfig)
        (JsNum.fin fractionalTankConfig.tankTotalVolume) = false ∧
      fillPercentage (calculateVolume (JsNum.fin 2) fractionalTankConfig)
        fractionalTankConfig = JsNum.fin 167 := by
  have hv : calculateVolume (JsNum.fin 2) fractionalTankConfig = JsNum.fin 1 := by
    rw [calculateVolume_fin]
    have h1 : ¬ ((2 : ℚ) ≤ fractionalTankConfig.distanceFull) := by
      norm_num [fractionalTankConfig, config]
    have h2 : ¬ ((2 : ℚ) ≥ fractionalTankConfig.distanceEmpty) := by
      norm_num [fractionalTankConfig, config]
    have hr : roundHalfUp (fractionalTankConfig.tankTotalVolume *
        (1 - (2 - fractionalTankConfig.distanceFull) /
          (fractionalTankConfig.distanceEmpty - fractionalTankConfig.distanceFull))) = 1 := by
      unfold roundHalfUp
      rw [Int.floor_eq_iff]
      norm_num [fractionalTankConfig, config]
    simp only [specVolume, h1, h2, if_false, hr]
    norm_num
  refine ⟨by norm_num [fractionalTankConfig, config], hv, ?_, ?_⟩
  · rw [hv]
    norm_num [JsNum.le, fractionalTankConfig, config]
  · rw [hv, fillPercentage_fin]
    have hne : fractionalTankConfig.tankTotalVolume ≠ 0 := by
      norm_num [fractionalTankConfig, config]
    have hr : roundHalfUp (100 * 1 / fractionalTankConfig.tankTotalVolume) = 167 := by
      unfold roundHalfUp
      rw [Int.floor_eq_iff]
      norm_num [fractionalTankConfig, config]
    rw [if_neg hne, hr]
    norm_num

/-- C26, amended: for every finite distance and every configuration whose
`tankTotalVolume` is a positive whole number, the volume returned by
`calculateVolume` lies between 0 and `tankTotalVolume`, and the fill
percentage computed from it is a whole number between 0 and 100. -/
theorem volume_and_percentage_bounds (d : ℚ) (cfg : Config) (hpos : 0 < cfg.tankTotalVolume)
    (hint : ∃ n : ℤ, cfg.tankTotalVolume = n) :
    (∃ v : ℚ, calculateVolume (JsNum.fin d) cfg = JsNum.fin v ∧
        0 ≤ v ∧ v ≤ cfg.tankTotalVolume) ∧
      ∃ p : ℤ, fillPercentage (calculateVolume (JsNum.fin d) cfg) cfg = JsNum.fin p ∧
        0 ≤ p ∧ p ≤ 100 := by
  have hb := specVolume_bounds d cfg (le_of_lt hpos) hint
  refine ⟨⟨specVolume d cfg, calculateVolume_fin d cfg, hb.1, hb.2⟩, ?_⟩
  refine ⟨roundHalfUp (100 * specVolume d cfg / cfg.tankTotalVolume), ?_, ?_, ?_⟩
  · rw [calculateVolume_fin, fillPercentage_fin, if_neg (ne_of_gt hpos)]
  · apply roundHalfUp_nonneg
    exact div_nonneg (mul_nonneg (by norm_num) hb.1) (le_of_lt hpos)
  · have hle : 100 * specVolume d cfg / cfg.tankTotalVolume ≤ ((100 : ℤ) : ℚ) := by
      rw [div_le_iff₀ hpos]
      push_cast
      nlinarith [hb.2]
    have := roundHalfUp_mono hle
    rw [roundHalfUp_intCast] at this
    exact this

/-- C26, amended, at distance 6 with the configured thresholds. -/
theorem volume_and_percentage_bounds_witness :
    0 < config.tankTotalVolume ∧ (∃ n : ℤ, config.tankTotalVolume = n) ∧
      (∃ v : ℚ, calculateVolume (JsNum.fin 6) config = JsNum.fin v ∧
        0 ≤ v ∧ v ≤ config.tankTotalVolume) ∧
      ∃ p : ℤ, fillPercentage (calculateVolume (JsNum.fin 6) config) config = JsNum.fin p ∧
        0 ≤ p ∧ p ≤ 100 :=
  ⟨by norm_num [config], ⟨1000, by norm_num [config]⟩,
    volume_and_percentage_bounds 6 config (by norm_num [config])
      ⟨1000, by norm_num [config]⟩⟩

/-- C27 fails as stated: with `tankTotalVolume = 3/5`, which is not
negative, the volume at distance 1 is `3/5` and at distance 2 it is 1:
the volume grows with the distance. -/
theorem rounding_breaks_monotonicity :
    0 ≤ fractionalTankConfig.tankTotalVolume ∧ (1 : ℚ) ≤ 2 ∧
      calculateVolume (JsNum.fin 1) fractionalTankConfig = JsNum.fin (3 / 5) ∧
      calculateVolume (JsNum.fin 2) fractionalTankConfig = JsNum.fin 1 ∧
      JsNum.ge (calculateVolume (JsNum.fin 1) fractionalTankConfig)
        (calculateVolume (JsNum.fin 2) fractionalTankConfig) = false := by
  have hv1 : calculateVolume (JsNum.fin 1) fractionalTankConfig = JsNum.fin (3 / 5) := by
    rw [calculateVolume_fin]
    norm_num [specVolume, fractionalTankConfig, config]
  have hv2 : calculateVolume (JsNum.fin 2) fractionalTankConfig = JsNum.fin 1 := by
    rw [calculateVolume_fin]
    have h1 : ¬ ((2 : ℚ) ≤ fractionalTankConfig.distanceFull) := by
      norm_num [fractionalTankConfig, config]
    have h2 : ¬ ((2 : ℚ) ≥ fractionalTankConfig.distanceEmpty) := by
      norm_num [fractionalTankConfig, config]
    have hr : roundHalfUp (fractionalTankConfig.tankTotalVolume *
        (1 - (2 - fractionalTankConfig.distanceFull) /
          (fractionalTankConfig.distanceEmpty - fractionalTankConfig.distanceFull))) = 1 := by
      unfold roundHalfUp
      rw [Int.floor_eq_iff]
      norm_num [fractionalTankConfig, config]
    simp only [specVolume, h1, h2, if_false, hr]
    norm_num
  refine ⟨by norm_num [fractionalTankConfig, config], by norm_num, hv1, hv2, ?_⟩
  rw [hv1, hv2]
  norm_num [JsNum.ge, JsNum.le]

/-- C27, amended: for every configuration whose `tankTotalVolume` is a
non-negative whole number, `calculateVolume` is non-increasing in the
distance, rounding included: `d1 ≤ d2` implies
`calculateVolume(d1) ≥ calculateVolume(d2)`. -/
theorem volume_non_increasing (cfg : Config) (hnn : 0 ≤ cfg.tankTotalVolume)
    (hint : ∃ n : ℤ, cfg.tankTotalVolume = n) (d1 d2 : ℚ) (h : d1 ≤ d2) :
    JsNum.ge (calculateVolume (JsNum.fin d1) cfg) (calculateVolume (JsNum.fin d2) cfg) =
      true := by
  rw [calculateVolume_fin, calculateVolume_fin]
  simp only [JsNum.ge, JsNum.le, decide_eq_true_eq]
  exact specVolume_antitone cfg hnn hint h

/-- C27, amended, at the configured thresholds and the distances 3 and 6. -/
theorem volume_non_increasing_witness :
    0 ≤ config.tankTotalVolume ∧ (∃ n : ℤ, config.tankTotalVolume = n) ∧ (3 : ℚ) ≤ 6 ∧
      JsNum.ge (calculateVolume (JsNum.fin 3) config) (calculateVolume (JsNum.fin 6) config) =
        true :=
  ⟨by norm_num [config], ⟨1000, by norm_num [config]⟩, by norm_num,
    volume_non_increasing config (by norm_num [config]) ⟨1000, by norm_num [config]⟩ 3 6
      (by norm_num)⟩

/-! ## Delivery to the connected sockets -/

theorem emittedBy_of_ok (s : Server) (msg : Inbound) (htopic : msg.topic = "sensor/data")
    (hok : (tryBlock s msg).thrown = none) :
    emittedBy s msg = [apiLatest (onMessage s msg).state] := by
  unfold emittedBy
  rw [onMessage_state_of_ok s msg htopic hok, tryBlock_emitted_of_ok s msg hok]
  simp

theorem emittedBy_of_other_topic (s : Server) (msg : Inbound)
    (htopic : msg.topic ≠ "sensor/data") : emittedBy s msg = [] := by
  unfold emittedBy
  rw [onMessage_of_other_topic s msg htopic]
  simp

theorem emittedBy_of_thrown (s : Server) (msg : Inbound)
    (hthrown : (tryBlock s msg).thrown ≠ none) : emittedBy s msg = [] := by
  unfold emittedBy
  by_cases htopic : msg.topic = "sensor/data"
  · rw [onMessage_emitted_of_topic s msg htopic, (tryBlock_unchanged_of_thrown s msg hthrown).2]
    simp
  · rw [onMessage_of_other_topic s msg htopic]
    simp

theorem emittedBy_eq (s : Server) (msg : Inbound) :
    emittedBy s msg =
      if msg.topic = "sensor/data" ∧ (tryBlock s msg).thrown = none
      then [apiLatest (onMessage s msg).state] else [] := by
  by_cases h : msg.topic = "sensor/data" ∧ (tryBlock s msg).thrown = none
  · rw [if_pos h, emittedBy_of_ok s msg h.1 h.2]
  · rw [if_neg h]
    by_cases htopic : msg.topic = "sensor/data"
    · exact emittedBy_of_thrown s msg (fun hn => h ⟨htopic, hn⟩)
    · exact emittedBy_of_other_topic s msg htopic

theorem received_of_broadcast (connected : List Nat) (hnd : connected.Nodup)
    (payload : Snapshot) (socket : Nat) :
    ((broadcast connected payload).filter (fun d => decide (d.1 = socket))).map Prod.snd =
      if socket ∈ connected then [payload] else [] := by
  induction connected with
  | nil => simp [broadcast]
  | cons a rest ih =>
    have hnd1 := List.nodup_cons.mp hnd
    have ih1 := ih hnd1.2
    unfold broadcast at ih1 ⊢
    by_cases e : a = socket
    · subst e
      have hnot : a ∉ rest := hnd1.1
      simp only [hnot, if_false] at ih1
      simp [List.filter_cons, ih1]
    · have hne : ¬ socket = a := fun h => e h.symm
      simp only [List.map_cons, List.filter_cons, e, decide_False, Bool.false_eq_true,
        if_false, List.mem_cons, hne, false_or]
      exact ih1

theorem received_of_broadcastAll (connected : List Nat) (hnd : connected.Nodup)
    (payloads : List Snapshot) (socket : Nat) :
    ((broadcastAll connected payloads).filter (fun d => decide (d.1 = socket))).map Prod.snd =
      if socket ∈ connected then payloads else [] := by
  induction payloads with
  | nil => simp [broadcastAll]
  | cons p rest ih =>
    simp only [broadcastAll, List.filter_append, List.map_append, ih,
      received_of_broadcast connected hnd p socket]
    split_ifs <;> simp

theorem receivedBy_step_message (h : Hub) (hnd : h.connected.Nodup) (msg : Inbound)
    (socket : Nat) :
    (h.step (ServerEvent.message msg)).receivedBy socket =
      h.receivedBy socket ++ (if socket ∈ h.connected then emittedBy h.server msg else []) := by
  simp only [Hub.step, Hub.receivedBy, List.filter_append, List.map_append,
    received_of_broadcastAll h.connected hnd]

theorem nodup_step (h : Hub) (hnd : h.connected.Nodup) (ev : ServerEvent) :
    (h.step ev).connected.Nodup := by
  cases ev with
  | connect socket =>
    simp only [Hub.step]
    split_ifs with hmem
    · exact hnd
    · exact List.Nodup.append hnd (List.nodup_singleton _) (by simpa using hmem)
  | disconnect socket => exact hnd.filter _
  | message msg => exact hnd

theorem nodup_runEvents (evs : List ServerEvent) (h : Hub) (hnd : h.connected.Nodup) :
    (h.runEvents evs).connected.Nodup := by
  induction evs generalizing h with
  | nil => exact hnd
  | cons ev rest ih => exact ih _ (nodup_step h hnd ev)

theorem nodup_reachable (evs : List ServerEvent) :
    (initialHub.runEvents evs).connected.Nodup :=
  nodup_runEvents evs initialHub List.nodup_nil

/-- C22 fails as stated: after one message has been processed, so that a
current snapshot exists, socket 7 connects and is handed nothing. -/
theorem connecting_socket_is_sent_nothing :
    (initialHub.runEvents messageThenConnect).server.emitted.length = 1 ∧
      ((initialHub.runEvents messageThenConnect).server.sensorData.history "tds").length = 1 ∧
      7 ∈ (initialHub.runEvents messageThenConnect).connected ∧
      (initialHub.runEvents messageThenConnect).receivedBy 7 = [] :=
  ⟨rfl, rfl, by decide, rfl⟩

/-- C22, amended: connecting a socket makes no delivery and leaves the
server state as it was: the socket is handed nothing until a message is
next processed; from then on, for as long as it is connected, each
message adds to what it has been handed exactly the payloads the handler
emits for that message, which is the new snapshot when the `try` block
completes and nothing otherwise. -/
theorem connect_then_receive (h : Hub) (hnd : h.connected.Nodup) (socket : Nat) :
    (h.step (ServerEvent.connect socket)).deliveries = h.deliveries ∧
      (h.step (ServerEvent.connect socket)).server = h.server ∧
      socket ∈ (h.step (ServerEvent.connect socket)).connected ∧
      ∀ msg : Inbound,
        ((h.step (ServerEvent.connect socket)).step (ServerEvent.message msg)).receivedBy socket =
          h.receivedBy socket ++
            (if msg.topic = "sensor/data" ∧ (tryBlock h.server msg).thrown = none
             then [apiLatest (onMessage h.server msg).state] else []) := by
  have hmem : socket ∈ (h.step (ServerEvent.connect socket)).connected := by
    simp only [Hub.step]
    split_ifs with hm
    · exact hm
    · simp
  refine ⟨rfl, rfl, hmem, ?_⟩
  intro msg
  rw [receivedBy_step_message _ (nodup_step h hnd _) msg socket, if_pos hmem]
  have hs : (h.step (ServerEvent.connect socket)).server = h.server := rfl
  have hr : (h.step (ServerEvent.connect socket)).receivedBy socket = h.receivedBy socket := rfl
  rw [hs, hr, emittedBy_eq]

/-- C22, amended, at a hub that has processed one message: socket 7
connects, and the next message hands it that message's snapshot. -/
theorem connect_then_receive_witness :
    (initialHub.runEvents [ServerEvent.message tdsAndFooMessage]).connected.Nodup ∧
      ((initialHub.runEvents [ServerEvent.message tdsAndFooMessage]).step
        (ServerEvent.connect 7)).deliveries =
        (initialHub.runEvents [ServerEvent.message tdsAndFooMessage]).deliveries ∧
      ((((initialHub.runEvents [ServerEvent.message tdsAndFooMessage]).step
        (ServerEvent.connect 7)).step
          (ServerEvent.message (objectMessage [("tds", JsValue.num 4)] 30))).receivedBy 7).length
        = 1 := by
  have h := connect_then_receive (initialHub.runEvents [ServerEvent.message tdsAndFooMessage])
    (by decide) 7
  refine ⟨by decide, h.1, ?_⟩
  rw [h.2.2.2 (objectMessage [("tds", JsValue.num 4)] 30)]
  rfl

/-! ## Rounding to a double -/

theorem roundHalfEven_of_near {q : ℚ} {m : ℤ} (h1 : (m : ℚ) - 1 / 2 < q)
    (h2 : q < m + 1 / 2) : roundHalfEven q = m := by
  by_cases h : (m : ℚ) ≤ q
  · have hf : ⌊q⌋ = m := by
      rw [Int.floor_eq_iff]
      constructor <;> linarith
    unfold roundHalfEven
    rw [hf, if_pos (by linarith)]
  · have hf : ⌊q⌋ = m - 1 := by
      rw [Int.floor_eq_iff]
      push_cast
      constructor <;> linarith
    unfold roundHalfEven
    rw [hf, if_neg (by push_cast; linarith), if_pos (by push_cast; linarith)]
    ring

theorem doubleExponent_of_pos {x : ℚ} {e : ℤ} (he : -1022 ≤ e) (h1 : (2 : ℚ) ^ e ≤ x)
    (h2 : x < (2 : ℚ) ^ (e + 1)) : doubleExponent x = e := by
  have hpos : 0 < x := lt_of_lt_of_le (zpow_pos (by norm_num) e) h1
  have habs : |x| = x := abs_of_pos hpos
  have hlt : Int.log 2 x < e + 1 :=
    (Int.lt_zpow_iff_log_lt (by norm_num : 1 < 2) hpos).mp (by exact_mod_cast h2)
  have hle : e ≤ Int.log 2 x :=
    (Int.zpow_le_iff_le_log (by norm_num : 1 < 2) hpos).mp (by exact_mod_cast h1)
  have hlog : Int.log 2 x = e := by omega
  unfold doubleExponent
  rw [habs, hlog]
  exact max_eq_left he

theorem roundToDouble_of_pos {x y : ℚ} (e m : ℤ)
    (h : -1022 ≤ e ∧ (2 : ℚ) ^ e ≤ x ∧ x < (2 : ℚ) ^ (e + 1) ∧
      (m : ℚ) - 1 / 2 < x / 2 ^ (e - 52) ∧ x / 2 ^ (e - 52) < m + 1 / 2 ∧
      (m : ℚ) * 2 ^ (e - 52) = y) :
    roundToDouble x = y := by
  obtain ⟨he, h1, h2, h3, h4, hy⟩ := h
  unfold roundToDouble
  rw [doubleExponent_of_pos he h1 h2, roundHalfEven_of_near h3 h4, hy]

theorem pointSeven_eq : roundToDouble (7 / 10) = pointSeven :=
  roundToDouble_of_pos (-1) 6305039478318694 (by norm_num [pointSeven])

theorem subWith_id (a b : JsNum) : JsNum.subWith id a b = JsNum.sub a b := by
  cases a <;> cases b <;> rfl

theorem mulWith_id (a b : JsNum) : JsNum.mulWith id a b = JsNum.mul a b := by
  cases a <;> cases b <;> rfl

theorem divWith_id (a b : JsNum) : JsNum.divWith id a b = JsNum.div a b := by
  cases a <;> cases b <;> rfl

theorem calculateVolumeWith_id (distance : JsNum) (cfg : Config) :
    calculateVolumeWith id distance cfg = calculateVolume distance cfg := by
  unfold calculateVolumeWith calculateVolume
  simp only [subWith_id, mulWith_id, divWith_id]

theorem fillPercentageWith_id (volume : JsNum) (cfg : Config) :
    fillPercentageWith id volume cfg = fillPercentage volume cfg := by
  unfold fillPercentageWith fillPercentage
  simp only [mulWith_id, divWith_id]

theorem mulWith_comm (rnd : ℚ → ℚ) (a b : JsNum) :
    JsNum.mulWith rnd a b = JsNum.mulWith rnd b a := by
  cases a <;> cases b <;> simp [JsNum.mulWith, mul_comm]

theorem calculateVolumeWith_steps (rnd : ℚ → ℚ) (d : ℚ) (cfg : Config) (a b q p t : ℚ)
    (h1 : cfg.distanceFull < d) (h2 : d < cfg.distanceEmpty)
    (ha : rnd (d - cfg.distanceFull) = a)
    (hb : rnd (cfg.distanceEmpty - cfg.distanceFull) = b) (hb0 : b ≠ 0)
    (hq : rnd (a / b) = q) (hp : rnd (1 - q) = p) (ht : rnd (p * cfg.tankTotalVolume) = t) :
    calculateVolumeWith rnd (JsNum.fin d) cfg = JsNum.fin (roundHalfUp t) := by
  have hn1 : ¬ d ≤ cfg.distanceFull := not_le.mpr h1
  have hn2 : ¬ cfg.distanceEmpty ≤ d := not_le.mpr h2
  simp [calculateVolumeWith, JsNum.le, JsNum.ge, JsNum.subWith, JsNum.divWith, JsNum.mulWith,
    mathRound, hn1, hn2, ha, hb, hb0, hq, hp, ht]

theorem fillPercentageWith_steps (rnd : ℚ → ℚ) (v : ℚ) (cfg : Config) (q t : ℚ)
    (h0 : cfg.tankTotalVolume ≠ 0) (hq : rnd (v / cfg.tankTotalVolume) = q)
    (ht : rnd (q * 100) = t) :
    fillPercentageWith rnd (JsNum.fin v) cfg = JsNum.fin (roundHalfUp t) := by
  simp [fillPercentageWith, JsNum.divWith, JsNum.mulWith, mathRound, h0, hq, ht]

theorem specPercentageWith_steps (rnd : ℚ → ℚ) (v : ℚ) (cfg : Config) (q t : ℚ)
    (h0 : cfg.tankTotalVolume ≠ 0) (hq : rnd (100 * v) = q)
    (ht : rnd (q / cfg.tankTotalVolume) = t) :
    specPercentageWith rnd (JsNum.fin v) cfg = JsNum.fin (roundHalfUp t) := by
  simp [specPercentageWith, JsNum.divWith, JsNum.mulWith, mathRound, h0, hq, ht]

theorem roundHalfUp_of_near {q : ℚ} (n : ℤ) (h : (n : ℚ) - 1 / 2 ≤ q ∧ q < n + 1 / 2) :
    roundHalfUp q = n := by
  unfold roundHalfUp
  rw [Int.floor_eq_iff]
  constructor <;> linarith [h.1, h.2]

/-! ## The volume of water, in doubles -/

theorem volume_in_doubles_at_six :
    calculateVolumeWith roundToDouble (JsNum.fin 6) config = JsNum.fin 500 := by
  rw [calculateVolumeWith_steps roundToDouble 6 config 5 10 (1 / 2) (1 / 2) 500
    (by norm_num [config]) (by norm_num [config])
    (roundToDouble_of_pos 2 5629499534213120 (by norm_num [config]))
    (roundToDouble_of_pos 3 5629499534213120 (by norm_num [config]))
    (by norm_num)
    (roundToDouble_of_pos (-1) 4503599627370496 (by norm_num))
    (roundToDouble_of_pos (-1) 4503599627370496 (by norm_num))
    (roundToDouble_of_pos 8 8796093022208000 (by norm_num [config])),
    roundHalfUp_of_near 500 (by norm_num)]
  norm_num

theorem volume_in_doubles_at_7125 :
    calculateVolumeWith roundToDouble (JsNum.fin (57 / 8)) config = JsNum.fin 387 := by
  rw [calculateVolumeWith_steps roundToDouble (57 / 8) config (49 / 8) 10
    (5516909543528858 / 9007199254740992) (6980579422424268 / 18014398509481984)
    (6816972092211199 / 17592186044416)
    (by norm_num [config]) (by norm_num [config])
    (roundToDouble_of_pos 2 6896136929411072 (by norm_num [config]))
    (roundToDouble_of_pos 3 5629499534213120 (by norm_num [config]))
    (by norm_num)
    (roundToDouble_of_pos (-1) 5516909543528858 (by norm_num))
    (roundToDouble_of_pos (-2) 6980579422424268 (by norm_num))
    (roundToDouble_of_pos 8 6816972092211199 (by norm_num [config])),
    roundHalfUp_of_near 387 (by norm_num)]
  norm_num

theorem volume_in_doubles_at_95546875 :
    calculateVolumeWith roundToDouble (JsNum.fin (1223 / 128)) config = JsNum.fin 145 := by
  rw [calculateVolumeWith_steps roundToDouble (1223 / 128) config (1095 / 128) 10
    (219 / 256) (37 / 256) (4625 / 32)
    (by norm_num [config]) (by norm_num [config])
    (roundToDouble_of_pos 3 4815860929658880 (by norm_num [config]))
    (roundToDouble_of_pos 3 5629499534213120 (by norm_num [config]))
    (by norm_num)
    (roundToDouble_of_pos (-1) 7705377487454208 (by norm_num))
    (roundToDouble_of_pos (-3) 5207287069147136 (by norm_num))
    (roundToDouble_of_pos 7 5085241278464000 (by norm_num [config])),
    roundHalfUp_of_near 145 (by norm_num)]
  norm_num

/-- C14: for every distance, NaN included, and every configuration
`calculateVolume` returns `tankTotalVolume` when
`distance ≤ distanceFull`, otherwise 0 when `distance ≥ distanceEmpty`, and
otherwise `round(tankTotalVolume * (1 - (distance - distanceFull) /
(distanceEmpty - distanceFull)))`, the operations of the formula being
those of the language, each rounded to a double (the readings of the
specification are float64), or rounded in any other way.  In doubles,
with `distanceFull = 1`, `distanceEmpty = 11`, `tankTotalVolume = 1000`,
it returns 1000 at distance 1, 0 at distance 11 and 500 at distance 6;
at distance 7.125 it returns 387, the value of the formula in doubles. -/
theorem calculateVolume_piecewise (rnd : ℚ → ℚ) (distance : JsNum) (cfg : Config) :
    calculateVolumeWith rnd distance cfg = specVolumeWith rnd distance cfg ∧
      calculateVolumeWith roundToDouble (JsNum.fin 1) config = JsNum.fin 1000 ∧
      calculateVolumeWith roundToDouble (JsNum.fin 11) config = JsNum.fin 0 ∧
      calculateVolumeWith roundToDouble (JsNum.fin 6) config = JsNum.fin 500 ∧
      calculateVolumeWith roundToDouble (JsNum.fin (57 / 8)) config = JsNum.fin 387 ∧
      specVolumeWith roundToDouble (JsNum.fin (57 / 8)) config = JsNum.fin 387 := by
  have hspec : ∀ (r : ℚ → ℚ) (x : JsNum) (c : Config),
      calculateVolumeWith r x c = specVolumeWith r x c := by
    intro r x c
    unfold calculateVolumeWith specVolumeWith
    simp only [mulWith_comm r (JsNum.fin c.tankTotalVolume)]
  refine ⟨hspec rnd distance cfg, ?_, ?_, volume_in_doubles_at_six, volume_in_doubles_at_7125, ?_⟩
  · norm_num [calculateVolumeWith, JsNum.le, config]
  · norm_num [calculateVolumeWith, JsNum.le, JsNum.ge, config]
  · rw [← hspec]
    exact volume_in_doubles_at_7125

/-! ## The fill percentage, in doubles -/

theorem fillPercentageWith_fin (rnd : ℚ → ℚ) (v : ℚ) (cfg : Config) :
    fillPercentageWith rnd (JsNum.fin v) cfg =
      if cfg.tankTotalVolume = 0 then JsNum.nan
      else JsNum.fin (roundHalfUp (rnd (rnd (v / cfg.tankTotalVolume) * 100))) := by
  unfold fillPercentageWith
  by_cases h : cfg.tankTotalVolume = 0
  · simp [JsNum.divWith, JsNum.mulWith, mathRound, h]
  · simp [JsNum.divWith, JsNum.mulWith, mathRound, h]

theorem percentage_in_doubles_at_145 :
    fillPercentageWith roundToDouble (JsNum.fin 145) config = JsNum.fin 14 := by
  rw [fillPercentageWith_steps roundToDouble 145 config
    (5224175567749775 / 36028797018963968) (8162774324609023 / 562949953421312)
    (by norm_num [config])
    (roundToDouble_of_pos (-3) 5224175567749775 (by norm_num [config]))
    (roundToDouble_of_pos 3 8162774324609023 (by norm_num)),
    roundHalfUp_of_near 14 (by norm_num)]
  norm_num

/-- C15 fails as stated: at distance 9.5546875 with the shipped
configuration the volume is 145 and the pages show
`Math.round((145 / 1000) * 100) = 14`: the quotient rounds to a double
below 0.145 and the product to 14.499999999999998.  The formula of the
claim, `round(100 * 145 / 1000)`, is 15, in doubles and in exact
arithmetic alike. -/
theorem percentage_rounds_below_the_formula :
    calculateVolumeWith roundToDouble (JsNum.fin (1223 / 128)) config = JsNum.fin 145 ∧
      roundToDouble (145 / 1000) = 5224175567749775 / 36028797018963968 ∧
      roundToDouble (5224175567749775 / 36028797018963968 * 100) =
        8162774324609023 / 562949953421312 ∧
      fillPercentageWith roundToDouble
        (calculateVolumeWith roundToDouble (JsNum.fin (1223 / 128)) config) config =
          JsNum.fin 14 ∧
      specPercentageWith roundToDouble
        (calculateVolumeWith roundToDouble (JsNum.fin (1223 / 128)) config) config =
          JsNum.fin 15 ∧
      specPercentageWith id (JsNum.fin 145) config = JsNum.fin 15 := by
  refine ⟨volume_in_doubles_at_95546875,
    roundToDouble_of_pos (-3) 5224175567749775 (by norm_num),
    roundToDouble_of_pos 3 8162774324609023 (by norm_num), ?_, ?_, ?_⟩
  · rw [volume_in_doubles_at_95546875]
    exact percentage_in_doubles_at_145
  · rw [volume_in_doubles_at_95546875,
      specPercentageWith_steps roundToDouble 145 config 14500 (29 / 2)
        (by norm_num [config])
        (roundToDouble_of_pos 13 7971459301376000 (by norm_num))
        (roundToDouble_of_pos 3 8162774324609024 (by norm_num [config])),
      roundHalfUp_of_near 15 (by norm_num)]
    norm_num
  · rw [specPercentageWith_steps id 145 config 14500 (29 / 2) (by norm_num [config])
      (by norm_num) (by norm_num [config]), roundHalfUp_of_near 15 (by norm_num)]
    norm_num

/-- C15, amended: for every volume and configuration the percentage the
pages compute is `Math.round((volume / tankTotalVolume) * 100)`, the
quotient rounded to a double and then the product, with
`volume = calculateVolume(distance, config)` (NaN when `tankTotalVolume`
is 0).  For every percentage the distance page shows `danger` and raises
its alert exactly when the percentage is below 20, and the dashboard
raises its alert exactly then; on NaN neither does.  In doubles, with the
shipped configuration, the distance 6 gives 50 and the distance 9.5546875
gives 14. -/
theorem fill_percentage_and_low_water (rnd : ℚ → ℚ) (v : ℚ) (cfg : Config) (n : ℚ) :
    fillPercentageWith rnd (JsNum.fin v) cfg =
        (if cfg.tankTotalVolume = 0 then JsNum.nan
         else JsNum.fin (roundHalfUp (rnd (rnd (v / cfg.tankTotalVolume) * 100)))) ∧
      fillPercentageWith rnd JsNum.nan cfg = JsNum.nan ∧
      ((distancePageStatus (JsNum.fin n)).className = Indicator.danger ↔ n < 20) ∧
      ((distancePageStatus (JsNum.fin n)).alert = true ↔ n < 20) ∧
      (dashboardLowWaterAlert (JsNum.fin n) = true ↔ n < 20) ∧
      (distancePageStatus JsNum.nan).className = Indicator.safe ∧
      (distancePageStatus JsNum.nan).alert = false ∧
      dashboardLowWaterAlert JsNum.nan = false ∧
      fillPercentageWith roundToDouble
        (calculateVolumeWith roundToDouble (JsNum.fin 6) config) config = JsNum.fin 50 ∧
      fillPercentageWith roundToDouble
        (calculateVolumeWith roundToDouble (JsNum.fin (1223 / 128)) config) config =
          JsNum.fin 14 := by
  refine ⟨fillPercentageWith_fin rnd v cfg, ?_, ?_, ?_, ?_, ?_, ?_, ?_, ?_, ?_⟩
  · simp [fillPercentageWith, JsNum.divWith, JsNum.mulWith, mathRound]
  · unfold distancePageStatus
    by_cases h1 : n < 20
    · simp [JsNum.lt, LevelStatus.className, h1]
    · by_cases h2 : n < 50
      · simp [JsNum.lt, LevelStatus.className, h1, h2]
      · simp [JsNum.lt, LevelStatus.className, h1, h2]
  · unfold distancePageStatus
    by_cases h1 : n < 20
    · simp [JsNum.lt, LevelStatus.alert, h1]
    · by_cases h2 : n < 50
      · simp [JsNum.lt, LevelStatus.alert, h1, h2]
      · simp [JsNum.lt, LevelStatus.alert, h1, h2]
  · simp [dashboardLowWaterAlert, JsNum.lt]
  · simp [distancePageStatus, JsNum.lt, LevelStatus.className]
  · simp [distancePageStatus, JsNum.lt, LevelStatus.alert]
  · simp [dashboardLowWaterAlert, JsNum.lt]
  · rw [volume_in_doubles_at_six,
      fillPercentageWith_steps roundToDouble 500 config (1 / 2) 50 (by norm_num [config])
        (roundToDouble_of_pos (-1) 4503599627370496 (by norm_num [config]))
        (roundToDouble_of_pos 5 7036874417766400 (by norm_num)),
      roundHalfUp_of_near 50 (by norm_num)]
    norm_num
  · rw [volume_in_doubles_at_95546875]
    exact percentage_in_doubles_at_145

/-! ## The turbidity status -/

theorem threshold_in_doubles :
    roundToDouble (config.turbidityThreshold * pointSeven) = 700 :=
  roundToDouble_of_pos 9 6157265115545600 (by norm_num [config, pointSeven])

theorem high_threshold_in_doubles :
    roundToDouble (highThresholdConfig.turbidityThreshold * pointSeven) =
      8426313517891583 / 137438953472 :=
  roundToDouble_of_pos 15 8426313517891583 (by norm_num [highThresholdConfig, config, pointSeven])

theorem turbidityPageStatus_fin (rnd : ℚ → ℚ) (v : ℚ) (cfg : Config) :
    turbidityPageStatus rnd (JsNum.fin v) cfg =
      if v > cfg.turbidityThreshold then Indicator.danger
      else if v > rnd (cfg.turbidityThreshold * pointSeven) then Indicator.warning
      else Indicator.safe := by
  simp [turbidityPageStatus, JsNum.gt, JsNum.lt, JsNum.mulWith]

/-- C17 fails as stated: at 800 with `turbidityThreshold = 1000` the
value exceeds `0.7 * turbidityThreshold`, which is 700 in doubles, without
exceeding the threshold; the turbidity page shows `warning`, and the
dashboard shows `safe`: it has no `warning` level for turbidity. -/
theorem dashboard_turbidity_has_no_warning :
    ¬ (800 : ℚ) > config.turbidityThreshold ∧
      roundToDouble (config.turbidityThreshold * pointSeven) = 700 ∧
      turbidityPageStatus roundToDouble (JsNum.fin 800) config = Indicator.warning ∧
      dashboardTurbidityStatus (JsNum.fin 800) config = Indicator.safe := by
  refine ⟨by norm_num [config], threshold_in_doubles, ?_, ?_⟩
  · rw [turbidityPageStatus_fin, threshold_in_doubles]
    norm_num [config]
  · norm_num [dashboardTurbidityStatus, JsNum.gt, JsNum.lt, config]

/-- C17, amended: for every turbidity value, negative ones included and
used as they are, the turbidity page shows `danger` when
`value > turbidityThreshold`, otherwise `warning` when the value exceeds
the product `turbidityThreshold * 0.7` as the language computes it, with
the double nearest to 0.7 and the product rounded to a double, and `safe`
otherwise; the dashboard shows `danger` when `value > turbidityThreshold`
and `safe` otherwise.  In doubles, with `turbidityThreshold = 1000` the
value -5 is `safe` on both; with `turbidityThreshold = 87585` the product
is 61309.49999999999 and the page shows `warning` at 61309.5. -/
theorem turbidity_status (rnd : ℚ → ℚ) (v : ℚ) (cfg : Config) :
    turbidityPageStatus rnd (JsNum.fin v) cfg =
        (if v > cfg.turbidityThreshold then Indicator.danger
         else if v > rnd (cfg.turbidityThreshold * pointSeven) then Indicator.warning
         else Indicator.safe) ∧
      dashboardTurbidityStatus (JsNum.fin v) cfg =
        (if v > cfg.turbidityThreshold then Indicator.danger else Indicator.safe) ∧
      roundToDouble (7 / 10) = pointSeven ∧
      turbidityPageStatus roundToDouble (JsNum.fin (-5)) config = Indicator.safe ∧
      dashboardTurbidityStatus (JsNum.fin (-5)) config = Indicator.safe ∧
      turbidityPageStatus roundToDouble (JsNum.fin (122619 / 2)) highThresholdConfig =
        Indicator.warning := by
  refine ⟨turbidityPageStatus_fin rnd v cfg, ?_, pointSeven_eq, ?_, ?_, ?_⟩
  · simp [dashboardTurbidityStatus, JsNum.gt, JsNum.lt]
  · rw [turbidityPageStatus_fin, threshold_in_doubles]
    norm_num [config]
  · norm_num [dashboardTurbidityStatus, JsNum.gt, JsNum.lt, config]
  · rw [turbidityPageStatus_fin, high_threshold_in_doubles]
    norm_num [highThresholdConfig, config]

/-! ## Publishing after a message -/

/-- C23 fails on the code: the payload `{"tds": 5, "constructor": 1}` is
a valid JSON object on `sensor/data`; from every state of the server the
handler appends the reading to the history of `tds`, then throws at the
key `constructor` before it reaches `io.emit`, and publishes nothing: no
observer is sent the state of the store after this message.  On the
payload `{"tds": 5, "foo": 1}` it publishes one snapshot, the state it
leaves. -/
theorem valid_message_publishes_nothing (s : Server) :
    inheritedKeyLast.topic = "sensor/data" ∧
      messageKeys inheritedKeyLast = ["tds", "constructor"] ∧
      (onMessage s inheritedKeyLast).state.sensorData.history "tds" =
        pushReading (s.sensorData.history "tds") ⟨JsValue.num 5, 7⟩ ∧
      (tryBlock s inheritedKeyLast).thrown = some JsError.typeError ∧
      emittedBy s inheritedKeyLast = [] ∧
      (onMessage s inheritedKeyLast).state.emitted = s.emitted ∧
      emittedBy s tdsAndFooMessage = [apiLatest (onMessage s tdsAndFooMessage).state] := by
  have hprops : messageProps inheritedKeyLast =
      some [("tds", JsValue.num 5), ("constructor", JsValue.num 1)] := rfl
  have hthrown : (tryBlock s inheritedKeyLast).thrown = some JsError.typeError := by
    rw [tryBlock_thrown s inheritedKeyLast hprops, forEachKey_thrown]
    decide
  have hne : (tryBlock s inheritedKeyLast).thrown ≠ none := by
    rw [hthrown]
    exact Option.some_ne_none _
  have hprops2 : messageProps tdsAndFooMessage =
      some [("tds", JsValue.num 5), ("foo", JsValue.num 1)] := rfl
  have hok : (tryBlock s tdsAndFooMessage).thrown = none := by
    rw [tryBlock_thrown s tdsAndFooMessage hprops2, forEachKey_thrown]
    decide
  refine ⟨rfl, rfl, ?_, hthrown, emittedBy_of_thrown s inheritedKeyLast hne, ?_,
    emittedBy_of_ok s tdsAndFooMessage rfl hok⟩
  · rw [onMessage_history s inheritedKeyLast (by decide) (by decide)]
    have hv : messageValue inheritedKeyLast "tds" = JsValue.num 5 := rfl
    have hvis : "tds" ∈ visitedKeys (messageKeys inheritedKeyLast) := by decide
    have htopic : inheritedKeyLast.topic = "sensor/data" := rfl
    rw [if_pos ⟨htopic, hvis⟩, hv]
    rfl
  · rw [onMessage_emitted_of_topic s inheritedKeyLast rfl]
    exact (tryBlock_unchanged_of_thrown s inheritedKeyLast hne).2

/-! ## The blocks of the `dataUpdate` handlers -/

theorem parseFloat_of_parses {lib : Library} {v : JsValue} (h : parses lib v = true) :
    ∃ n, parseFloat lib v = Except.ok n := by
  unfold parses at h
  cases hp : parseFloat lib v with
  | ok n => exact ⟨n, rfl⟩
  | error err =>
    rw [hp] at h
    exact absurd h (by simp)

theorem parses_of_primitive (lib : Library) (v : JsValue)
    (h : ∀ xs, v ≠ JsValue.arr xs) (h1 : ∀ props, v ≠ JsValue.obj props) :
    parses lib v = true := by
  cases v with
  | arr xs => exact absurd rfl (h xs)
  | obj props => exact absurd rfl (h1 props)
  | _ => rfl

theorem dashboardTemperatureBlock_of_ok {lib : Library} {latest : JsProps} {n : JsNum}
    (cfg : Config) (h : parseFloat lib (getProp latest "temperature_ds18b20") = Except.ok n) :
    dashboardTemperatureBlock lib latest cfg =
      Except.ok (if isPresent latest "temperature_ds18b20"
        then some (dashboardTemperatureAlert n cfg) else none) := by
  unfold dashboardTemperatureBlock
  rw [h]
  split_ifs <;> rfl

theorem dashboardDistanceBlock_of_ok (rnd : ℚ → ℚ) {lib : Library} {latest : JsProps}
    {n : JsNum} (cfg : Config)
    (h : parseFloat lib (getProp latest "distance_ultrasonic") = Except.ok n) :
    dashboardDistanceBlock rnd lib latest cfg =
      Except.ok (if isPresent latest "distance_ultrasonic"
        then some (fillPercentageWith rnd (calculateVolumeWith rnd n cfg) cfg) else none) := by
  unfold dashboardDistanceBlock
  rw [h]
  split_ifs <;> rfl

theorem dashboardTurbidityBlock_of_ok {lib : Library} {latest : JsProps} {n : JsNum}
    (cfg : Config) (h : parseFloat lib (getProp latest "turbidity") = Except.ok n) :
    dashboardTurbidityBlock lib latest cfg =
      Except.ok (if isPresent latest "turbidity"
        then some (dashboardTurbidityStatus n cfg) else none) := by
  unfold dashboardTurbidityBlock
  rw [h]
  split_ifs <;> rfl

theorem dashboardTdsBlock_of_ok {lib : Library} {latest : JsProps} {n : JsNum}
    (cfg : Config) (h : parseFloat lib (getProp latest "tds") = Except.ok n) :
    dashboardTdsBlock lib latest cfg =
      Except.ok (if isPresent latest "tds" then some (dashboardTdsStatus n cfg) else none) := by
  unfold dashboardTdsBlock
  rw [h]
  split_ifs <;> rfl

theorem dashboardIntegrityBlock_of_ok {lib : Library} {latest : JsProps}
    {outside humidity inside : JsNum} (cfg : Config)
    (ha : parseFloat lib (getProp latest "temperature_dht11") = Except.ok outside)
    (hh : parseFloat lib (getProp latest "humidity_dht11") = Except.ok humidity)
    (hw : parseFloat lib (getProp latest "temperature_ds18b20") = Except.ok inside) :
    dashboardIntegrityBlock lib latest cfg =
      Except.ok (if isPresent latest "temperature_dht11" && isPresent latest "humidity_dht11"
        then some (dashboardIntegrity outside inside cfg) else none) := by
  unfold dashboardIntegrityBlock
  rw [ha, hh, hw]
  split_ifs <;> rfl

theorem environmentPageUpdate_of_ok {lib : Library} {latest : JsProps}
    {outside humidity inside : JsNum} (cfg : Config)
    (ha : parseFloat lib (getProp latest "temperature_dht11") = Except.ok outside)
    (hh : parseFloat lib (getProp latest "humidity_dht11") = Except.ok humidity)
    (hw : parseFloat lib ((getProp latest "temperature_ds18b20").orElse (JsValue.num 0)) =
      Except.ok inside) :
    environmentPageUpdate lib latest cfg =
      Except.ok (if isPresent latest "temperature_dht11" && isPresent latest "humidity_dht11"
        then some (environmentIntegrity outside inside cfg) else none) := by
  unfold environmentPageUpdate
  rw [ha, hh, hw]
  split_ifs <;> rfl

theorem temperaturePageUpdate_of_ok {lib : Library} {latest : JsProps} {n : JsNum}
    (cfg : Config) (h : parseFloat lib (getProp latest "temperature_ds18b20") = Except.ok n) :
    temperaturePageUpdate lib latest cfg =
      Except.ok (if isPresent latest "temperature_ds18b20"
        then some (temperaturePageStatus n cfg) else none) := by
  unfold temperaturePageUpdate
  rw [h]
  split_ifs <;> rfl

theorem distancePageUpdate_of_ok (rnd : ℚ → ℚ) {lib : Library} {latest : JsProps} {n : JsNum}
    (cfg : Config) (h : parseFloat lib (getProp latest "distance_ultrasonic") = Except.ok n) :
    distancePageUpdate rnd lib latest cfg =
      Except.ok (if isPresent latest "distance_ultrasonic"
        then some (distancePageStatus
          (fillPercentageWith rnd (calculateVolumeWith rnd n cfg) cfg)) else none) := by
  unfold distancePageUpdate
  rw [h]
  split_ifs <;> rfl

theorem turbidityPageUpdate_of_ok (rnd : ℚ → ℚ) {lib : Library} {latest : JsProps}
    {n : JsNum} (cfg : Config) (h : parseFloat lib (getProp latest "turbidity") = Except.ok n) :
    turbidityPageUpdate rnd lib latest cfg =
      Except.ok (if isPresent latest "turbidity"
        then some (turbidityPageStatus rnd n cfg) else none) := by
  unfold turbidityPageUpdate
  rw [h]
  split_ifs <;> rfl

theorem tdsPageUpdate_of_ok {lib : Library} {latest : JsProps} {n : JsNum}
    (cfg : Config) (h : parseFloat lib (getProp latest "tds") = Except.ok n) :
    tdsPageUpdate lib latest cfg =
      Except.ok (if isPresent latest "tds" then some (tdsPageStatus n cfg) else none) := by
  unfold tdsPageUpdate
  rw [h]
  split_ifs <;> rfl

theorem dashboardUpdate_of_blocks (rnd : ℚ → ℚ) (lib : Library) (latest : JsProps)
    (cfg : Config) {temperatureAlert : Option Bool} {percentage : Option JsNum}
    {turbidity tds : Option Indicator}
    (ht : dashboardTemperatureBlock lib latest cfg = Except.ok temperatureAlert)
    (hd : dashboardDistanceBlock rnd lib latest cfg = Except.ok percentage)
    (hu : dashboardTurbidityBlock lib latest cfg = Except.ok turbidity)
    (hs : dashboardTdsBlock lib latest cfg = Except.ok tds) :
    (dashboardUpdate rnd lib latest cfg).state.temperatureAlert = temperatureAlert ∧
      (dashboardUpdate rnd lib latest cfg).state.percentage = percentage ∧
      (dashboardUpdate rnd lib latest cfg).state.lowWaterAlert =
        percentage.map dashboardLowWaterAlert ∧
      (dashboardUpdate rnd lib latest cfg).state.turbidity = turbidity ∧
      (dashboardUpdate rnd lib latest cfg).state.tds = tds ∧
      ∀ integrity, dashboardIntegrityBlock lib latest cfg = Except.ok integrity →
        (dashboardUpdate rnd lib latest cfg).state.integrity = integrity ∧
          (dashboardUpdate rnd lib latest cfg).thrown = none := by
  unfold dashboardUpdate
  rw [ht, hd, hu, hs]
  cases hi : dashboardIntegrityBlock lib latest cfg with
  | error err => exact ⟨rfl, rfl, rfl, rfl, rfl, fun _ h => Except.noConfusion h⟩
  | ok integrity =>
    refine ⟨rfl, rfl, rfl, rfl, rfl, ?_⟩
    intro other h
    injection h with h1
    subst h1
    exact ⟨rfl, rfl⟩

theorem temperature_alerts_agree (t : JsNum) (cfg : Config) :
    dashboardTemperatureAlert t cfg = (temperaturePageStatus t cfg).alert := by
  unfold dashboardTemperatureAlert temperaturePageStatus
  by_cases h1 : JsNum.lt t (JsNum.fin cfg.tempMin) = true
  · simp [h1, TemperatureStatus.alert]
  · by_cases h2 : JsNum.gt t (JsNum.fin cfg.tempMax) = true
    · simp [h1, h2, TemperatureStatus.alert]
    · simp [h1, h2, TemperatureStatus.alert]

theorem level_alerts_agree (p : JsNum) :
    dashboardLowWaterAlert p = (distancePageStatus p).alert := by
  unfold dashboardLowWaterAlert distancePageStatus
  by_cases h1 : JsNum.lt p (JsNum.fin 20) = true
  · simp [h1, LevelStatus.alert]
  · by_cases h2 : JsNum.lt p (JsNum.fin 50) = true
    · simp [h1, h2, LevelStatus.alert]
    · simp [h1, h2, LevelStatus.alert]

theorem turbidity_alerts_agree (rnd : ℚ → ℚ) (t : JsNum) (cfg : Config) :
    (dashboardTurbidityStatus t cfg).raisesAlert =
      (turbidityPageStatus rnd t cfg).raisesAlert := by
  unfold dashboardTurbidityStatus turbidityPageStatus
  by_cases h1 : JsNum.gt t (JsNum.fin cfg.turbidityThreshold) = true
  · simp [h1, Indicator.raisesAlert]
  · by_cases h2 : JsNum.gt t
        (JsNum.mulWith rnd (JsNum.fin cfg.turbidityThreshold) (JsNum.fin pointSeven)) = true
    · simp [h1, h2, Indicator.raisesAlert]
    · simp [h1, h2, Indicator.raisesAlert]

theorem tds_alerts_agree (t : JsNum) (cfg : Config) :
    (dashboardTdsStatus t cfg).raisesAlert = (tdsPageStatus t cfg).alert := by
  unfold dashboardTdsStatus tdsPageStatus
  by_cases h1 : JsNum.lt t (JsNum.fin cfg.tdsMin) = true
  · simp [h1, Indicator.raisesAlert, TdsStatus.alert]
  · by_cases h2 : JsNum.gt t (JsNum.fin cfg.tdsMax) = true
    · simp [h1, h2, Indicator.raisesAlert, TdsStatus.alert]
    · by_cases h3 : JsNum.le t (JsNum.fin 150) = true
      · simp [h1, h2, h3, Indicator.raisesAlert, TdsStatus.alert]
      · simp [h1, h2, h3, Indicator.raisesAlert, TdsStatus.alert]

theorem integrity_verdicts_agree (o i : JsNum) (cfg : Config) :
    (dashboardIntegrity o i cfg).toEnvironment = environmentIntegrity o i cfg := by
  unfold dashboardIntegrity environmentIntegrity
  split_ifs <;> rfl

theorem parseValues_of_parses (lib : Library) (data : List Reading)
    (h : ∀ r ∈ data, parses lib r.value = true) :
    ∃ values, parseValues lib data = Except.ok values := by
  induction data with
  | nil => exact ⟨[], rfl⟩
  | cons item rest ih =>
    obtain ⟨value, hv⟩ := parseFloat_of_parses (h item (List.mem_cons_self _ _))
    obtain ⟨values, hvs⟩ := ih (fun r hr => h r (List.mem_cons_of_mem _ hr))
    exact ⟨value :: values, by simp [parseValues, hv, hvs]⟩

theorem updateChart_of_parses (lib : Library) (data : List Reading)
    (h : ∀ r ∈ data, parses lib r.value = true) :
    ∃ chart, updateChart lib data = Except.ok chart := by
  unfold updateChart
  split_ifs with h0
  · exact ⟨none, rfl⟩
  · obtain ⟨values, hvs⟩ := parseValues_of_parses lib (data.drop (data.length - 50))
      (fun r hr => h r (List.mem_of_mem_drop hr))
    rw [hvs]
    exact ⟨_, rfl⟩

theorem updateDHTChart_of_parses (lib : Library) (historical : SensorData)
    (ht : ∀ r ∈ historical.temperature_dht11, parses lib r.value = true)
    (hh : ∀ r ∈ historical.humidity_dht11, parses lib r.value = true) :
    ∃ chart, updateDHTChart lib historical = Except.ok chart := by
  unfold updateDHTChart
  obtain ⟨ts, hts⟩ := parseValues_of_parses lib
    (historical.temperature_dht11.drop (historical.temperature_dht11.length - 50))
    (fun r hr => ht r (List.mem_of_mem_drop hr))
  obtain ⟨hs, hhs⟩ := parseValues_of_parses lib
    (historical.humidity_dht11.drop (historical.humidity_dht11.length - 50))
    (fun r hr => hh r (List.mem_of_mem_drop hr))
  rw [hts, hhs]
  exact ⟨_, rfl⟩

theorem dashboardCharts_of_parses (lib : Library) (historical : SensorData)
    (h : ∀ key ∈ knownChannels, ∀ r ∈ historical.history key, parses lib r.value = true) :
    (dashboardCharts lib historical).thrown = none := by
  obtain ⟨c1, h1⟩ := updateChart_of_parses lib historical.temperature_ds18b20
    (h "temperature_ds18b20" (by decide))
  obtain ⟨c2, h2⟩ := updateChart_of_parses lib historical.distance_ultrasonic
    (h "distance_ultrasonic" (by decide))
  obtain ⟨c3, h3⟩ := updateChart_of_parses lib historical.turbidity (h "turbidity" (by decide))
  obtain ⟨c4, h4⟩ := updateChart_of_parses lib historical.tds (h "tds" (by decide))
  obtain ⟨c5, h5⟩ := updateDHTChart_of_parses lib historical
    (h "temperature_dht11" (by decide)) (h "humidity_dht11" (by decide))
  unfold dashboardCharts
  rw [h1, h2, h3, h4, h5]

theorem dashboardHandler_of_update (rnd : ℚ → ℚ) (lib : Library) (data : Snapshot) :
    (dashboardHandler rnd lib data).state.1 =
        (dashboardUpdate rnd lib data.latest data.config).state ∧
      ((dashboardUpdate rnd lib data.latest data.config).thrown = none →
        (dashboardHandler rnd lib data).thrown = (dashboardCharts lib data.historical).thrown) ∧
      (∀ err, (dashboardUpdate rnd lib data.latest data.config).thrown = some err →
        (dashboardHandler rnd lib data).thrown = some err) := by
  unfold dashboardHandler
  cases hu : dashboardUpdate rnd lib data.latest data.config with
  | mk view thrown =>
    cases thrown with
    | none => exact ⟨rfl, fun _ => rfl, fun err h => Option.noConfusion h⟩
    | some err0 =>
      refine ⟨rfl, fun h => Option.noConfusion h, ?_⟩
      intro err h
      injection h with h1
      subst h1
      rfl

/-! ## Tolerance of a partial `latest` -/

theorem dashboardUpdate_of_parses (rnd : ℚ → ℚ) (lib : Library) (latest : JsProps)
    (cfg : Config) (hparse : ∀ key ∈ waterChannels, parses lib (getProp latest key) = true) :
    ∃ temp distance turbidity tds,
      parseFloat lib (getProp latest "temperature_ds18b20") = Except.ok temp ∧
      parseFloat lib (getProp latest "distance_ultrasonic") = Except.ok distance ∧
      parseFloat lib (getProp latest "turbidity") = Except.ok turbidity ∧
      parseFloat lib (getProp latest "tds") = Except.ok tds ∧
      (dashboardUpdate rnd lib latest cfg).state.temperatureAlert =
        (if isPresent latest "temperature_ds18b20"
          then some (dashboardTemperatureAlert temp cfg) else none) ∧
      (dashboardUpdate rnd lib latest cfg).state.percentage =
        (if isPresent latest "distance_ultrasonic"
          then some (fillPercentageWith rnd (calculateVolumeWith rnd distance cfg) cfg)
          else none) ∧
      (dashboardUpdate rnd lib latest cfg).state.lowWaterAlert =
        (if isPresent latest "distance_ultrasonic"
          then some (dashboardLowWaterAlert
            (fillPercentageWith rnd (calculateVolumeWith rnd distance cfg) cfg))
          else none) ∧
      (dashboardUpdate rnd lib latest cfg).state.turbidity =
        (if isPresent latest "turbidity"
          then some (dashboardTurbidityStatus turbidity cfg) else none) ∧
      (dashboardUpdate rnd lib latest cfg).state.tds =
        (if isPresent latest "tds" then some (dashboardTdsStatus tds cfg) else none) ∧
      ∀ integrity, dashboardIntegrityBlock lib latest cfg = Except.ok integrity →
        (dashboardUpdate rnd lib latest cfg).state.integrity = integrity ∧
          (dashboardUpdate rnd lib latest cfg).thrown = none := by
  obtain ⟨temp, ht⟩ := parseFloat_of_parses (hparse "temperature_ds18b20" (by decide))
  obtain ⟨distance, hd⟩ := parseFloat_of_parses (hparse "distance_ultrasonic" (by decide))
  obtain ⟨turbidity, hu⟩ := parseFloat_of_parses (hparse "turbidity" (by decide))
  obtain ⟨tds, hs⟩ := parseFloat_of_parses (hparse "tds" (by decide))
  have hb := dashboardUpdate_of_blocks rnd lib latest cfg
    (dashboardTemperatureBlock_of_ok cfg ht) (dashboardDistanceBlock_of_ok rnd cfg hd)
    (dashboardTurbidityBlock_of_ok cfg hu) (dashboardTdsBlock_of_ok cfg hs)
  refine ⟨temp, distance, turbidity, tds, ht, hd, hu, hs, hb.1, hb.2.1, ?_, hb.2.2.2.1,
    hb.2.2.2.2.1, hb.2.2.2.2.2⟩
  rw [hb.2.2.1]
  split_ifs <;> rfl

theorem water_of_known {p : String → Prop} (h : ∀ key ∈ knownChannels, p key) :
    ∀ key ∈ waterChannels, p key := by
  intro key hk
  apply h
  simp only [waterChannels, List.mem_cons, List.mem_singleton, List.not_mem_nil, or_false] at hk
  rcases hk with rfl | rfl | rfl | rfl <;> decide

/-- C21 fails as stated: a `latest` object that holds the water
temperature `{"toString": 1}` and the TDS 400 holds a subset of the six
channels; `parseFloat` throws `TypeError` on the water temperature in the
first block, the handler ends there, and no status is derived for the
TDS, which is present. -/
theorem unprintable_reading_stops_the_dashboard :
    isPresent latestWithUnprintableWater "temperature_ds18b20" = true ∧
      isPresent latestWithUnprintableWater "tds" = true ∧
      parseFloat parseNothing (getProp latestWithUnprintableWater "temperature_ds18b20") =
        Except.error JsError.typeError ∧
      (dashboardHandler roundToDouble parseNothing
        (payloadOf latestWithUnprintableWater)).thrown = some JsError.typeError ∧
      (dashboardHandler roundToDouble parseNothing
        (payloadOf latestWithUnprintableWater)).state.1.tds = none :=
  ⟨rfl, rfl, rfl, rfl, rfl⟩

/-- C21, amended: for every payload in which `parseFloat` returns, with a
number or NaN, on the value of each channel in `latest` and on the value
of each reading in the histories (it does on every number, string,
boolean and `null`, and on an absent entry), the handler of the dashboard
completes without raising; it derives a result for the water
temperature, the water level, the turbidity and the TDS exactly when that
channel is present in `latest`, and a tank-integrity verdict exactly when
the ambient temperature and the humidity both are.  On an empty `latest`
the blocks derive nothing and do not raise, and `updateChart` on an empty
history returns without touching its chart. -/
theorem dashboard_tolerates_partial_latest (rnd : ℚ → ℚ) (lib : Library) (data : Snapshot)
    (hlatest : ∀ key ∈ knownChannels, parses lib (getProp data.latest key) = true)
    (hhist : ∀ key ∈ knownChannels, ∀ r ∈ data.historical.history key,
      parses lib r.value = true) :
    (dashboardHandler rnd lib data).thrown = none ∧
      (dashboardHandler rnd lib data).state.1.temperatureAlert.isSome =
        isPresent data.latest "temperature_ds18b20" ∧
      (dashboardHandler rnd lib data).state.1.percentage.isSome =
        isPresent data.latest "distance_ultrasonic" ∧
      (dashboardHandler rnd lib data).state.1.lowWaterAlert.isSome =
        isPresent data.latest "distance_ultrasonic" ∧
      (dashboardHandler rnd lib data).state.1.turbidity.isSome =
        isPresent data.latest "turbidity" ∧
      (dashboardHandler rnd lib data).state.1.tds.isSome = isPresent data.latest "tds" ∧
      (dashboardHandler rnd lib data).state.1.integrity.isSome =
        (isPresent data.latest "temperature_dht11" &&
          isPresent data.latest "humidity_dht11") ∧
      dashboardUpdate rnd lib [] data.config = ⟨blankView, none⟩ ∧
      updateChart lib [] = Except.ok none ∧
      (∀ v : JsValue, (∀ xs, v ≠ JsValue.arr xs) → (∀ props, v ≠ JsValue.obj props) →
        parses lib v = true) := by
  obtain ⟨temp, distance, turbidity, tds, ht, _, _, _, e1, e2, e3, e4, e5, hint⟩ :=
    dashboardUpdate_of_parses rnd lib data.latest data.config (water_of_known hlatest)
  obtain ⟨outside, ha⟩ := parseFloat_of_parses (hlatest "temperature_dht11" (by decide))
  obtain ⟨humidity, hh⟩ := parseFloat_of_parses (hlatest "humidity_dht11" (by decide))
  have hi := hint _ (dashboardIntegrityBlock_of_ok data.config ha hh ht)
  have hH := dashboardHandler_of_update rnd lib data
  refine ⟨?_, ?_, ?_, ?_, ?_, ?_, ?_, rfl, rfl, parses_of_primitive lib⟩
  · rw [hH.2.1 hi.2]
    exact dashboardCharts_of_parses lib data.historical hhist
  · rw [hH.1, e1]
    split_ifs with h <;> simp [h]
  · rw [hH.1, e2]
    split_ifs with h <;> simp [h]
  · rw [hH.1, e3]
    split_ifs with h <;> simp [h]
  · rw [hH.1, e4]
    split_ifs with h <;> simp [h]
  · rw [hH.1, e5]
    split_ifs with h <;> simp [h]
  · rw [hH.1, hi.1]
    split_ifs with h <;> simp [h]

/-- C21, amended, at the payload the server publishes after a message
for `turbidity` and a message for `tds` and `turbidity`. -/
theorem dashboard_tolerates_partial_latest_witness :
    (∀ key ∈ knownChannels,
        parses parseNothing
          (getProp (apiLatest (run initialServer turbidityThenBoth)).latest key) = true) ∧
      (∀ key ∈ knownChannels,
        ∀ r ∈ (apiLatest (run initialServer turbidityThenBoth)).historical.history key,
          parses parseNothing r.value = true) ∧
      (dashboardHandler roundToDouble parseNothing
        (apiLatest (run initialServer turbidityThenBoth))).thrown = none ∧
      (dashboardHandler roundToDouble parseNothing
        (apiLatest (run initialServer turbidityThenBoth))).state.1.tds.isSome = true ∧
      (dashboardHandler roundToDouble parseNothing
        (apiLatest (run initialServer turbidityThenBoth))).state.1.percentage.isSome = false := by
  have h := dashboard_tolerates_partial_latest roundToDouble parseNothing
    (apiLatest (run initialServer turbidityThenBoth)) (by decide) (by decide)
  refine ⟨by decide, by decide, h.1, ?_, ?_⟩
  · rw [h.2.2.2.2.2.1]
    rfl
  · rw [h.2.2.1]
    rfl

/-! ## Tank integrity on the two pages -/

theorem orElse_zero_of_number_or_truthy (v : JsValue)
    (hv : (∃ w : ℚ, v = JsValue.num w) ∨ v.truthy = true) (lib : Library) :
    parseFloat lib (v.orElse (JsValue.num 0)) = parseFloat lib v := by
  by_cases ht : v.truthy = true
  · simp [JsValue.orElse, ht]
  · rcases hv with ⟨w, hw⟩ | hv
    · subst hw
      have hw0 : w = 0 := by
        by_contra hne
        exact ht (by simp [JsValue.truthy, hne])
      subst hw0
      simp [JsValue.orElse, JsValue.truthy]
    · exact absurd hv ht

theorem orElse_zero_parses (lib : Library) (v : JsValue) (h : parses lib v = true) :
    parses lib (v.orElse (JsValue.num 0)) = true := by
  unfold JsValue.orElse
  split_ifs
  · exact h
  · rfl

theorem isUndefined_eq (v : JsValue) (h : v.isUndefined = true) : v = JsValue.undefined := by
  cases v <;> first | rfl | exact absurd h (by simp [JsValue.isUndefined])

/-- C20 fails as stated: with both temperatures present and humidity
absent neither page derives a verdict; with the water temperature absent
(ambient 46, humidity 50) the environment page derives the verdict
excellent, its name for good, while the dashboard derives normal; and
with both temperatures present and the humidity `{"toString": 1}` both
handlers end in a `TypeError` and derive no verdict. -/
theorem integrity_gate_is_humidity_not_water :
    isPresent latestWithoutHumidity "temperature_dht11" = true ∧
      isPresent latestWithoutHumidity "temperature_ds18b20" = true ∧
      (dashboardUpdate roundToDouble parseNothing latestWithoutHumidity config).thrown = none ∧
      (dashboardUpdate roundToDouble parseNothing latestWithoutHumidity config).state.integrity =
        none ∧
      environmentPageUpdate parseNothing latestWithoutHumidity config = Except.ok none ∧
      isPresent latestWithoutWater "temperature_ds18b20" = false ∧
      environmentPageUpdate parseNothing latestWithoutWater config =
        Except.ok (some EnvironmentIntegrity.excellent) ∧
      (dashboardUpdate roundToDouble parseNothing latestWithoutWater config).state.integrity =
        some Integrity.normal ∧
      isPresent latestWithUnprintableHumidity "temperature_dht11" = true ∧
      isPresent latestWithUnprintableHumidity "temperature_ds18b20" = true ∧
      (dashboardUpdate roundToDouble parseNothing latestWithUnprintableHumidity
        config).state.integrity = none ∧
      environmentPageUpdate parseNothing latestWithUnprintableHumidity config =
        Except.error JsError.typeError := by
  have ha : parseFloat parseNothing (getProp latestWithoutWater "temperature_dht11") =
      Except.ok (JsNum.fin 46) := rfl
  have hh : parseFloat parseNothing (getProp latestWithoutWater "humidity_dht11") =
      Except.ok (JsNum.fin 50) := rfl
  have hw : parseFloat parseNothing (getProp latestWithoutWater "temperature_ds18b20") =
      Except.ok JsNum.nan := rfl
  have hw0 : parseFloat parseNothing
      ((getProp latestWithoutWater "temperature_ds18b20").orElse (JsValue.num 0)) =
      Except.ok (JsNum.fin 0) := rfl
  have hd := dashboardUpdate_of_parses roundToDouble parseNothing latestWithoutWater config
    (by decide)
  obtain ⟨_, _, _, _, _, _, _, _, _, _, _, _, _, hint⟩ := hd
  have hi := hint _ (dashboardIntegrityBlock_of_ok config ha hh hw)
  refine ⟨rfl, rfl, rfl, rfl, rfl, rfl, ?_, ?_, rfl, rfl, rfl, rfl⟩
  · rw [environmentPageUpdate_of_ok config ha hh hw0]
    have hp : (isPresent latestWithoutWater "temperature_dht11" &&
        isPresent latestWithoutWater "humidity_dht11") = true := rfl
    rw [if_pos hp]
    norm_num [environmentIntegrity, JsNum.gt, JsNum.lt, config]
  · rw [hi.1]
    have hp : (isPresent latestWithoutWater "temperature_dht11" &&
        isPresent latestWithoutWater "humidity_dht11") = true := rfl
    rw [if_pos hp]
    norm_num [dashboardIntegrity, JsNum.gt, JsNum.lt, config]

/-- C20, amended: for every `latest` object on whose channel values
`parseFloat` returns, the handler of the dashboard completes, and on both
pages the tank-integrity verdict is derived exactly when the ambient
temperature and the humidity are both present in `latest`; the water
temperature need not be present.  When it is absent and a verdict is
derived, the dashboard's verdict is normal, and the environment page's
verdict is the one it gives for a water temperature of 0. -/
theorem integrity_gate (rnd : ℚ → ℚ) (lib : Library) (latest : JsProps) (cfg : Config)
    (hparse : ∀ key ∈ knownChannels, parses lib (getProp latest key) = true) :
    (dashboardUpdate rnd lib latest cfg).thrown = none ∧
      (dashboardUpdate rnd lib latest cfg).state.integrity.isSome =
        (isPresent latest "temperature_dht11" && isPresent latest "humidity_dht11") ∧
      (∃ verdict, environmentPageUpdate lib latest cfg = Except.ok verdict ∧
        verdict.isSome =
          (isPresent latest "temperature_dht11" && isPresent latest "humidity_dht11")) ∧
      (isPresent latest "temperature_ds18b20" = false →
        ((dashboardUpdate rnd lib latest cfg).state.integrity = none ∨
          (dashboardUpdate rnd lib latest cfg).state.integrity = some Integrity.normal) ∧
        ∃ outside, parseFloat lib (getProp latest "temperature_dht11") = Except.ok outside ∧
          (environmentPageUpdate lib latest cfg = Except.ok none ∨
            environmentPageUpdate lib latest cfg =
              Except.ok (some (environmentIntegrity outside (JsNum.fin 0) cfg)))) := by
  obtain ⟨temp, _, _, _, ht, _, _, _, _, _, _, _, _, hint⟩ :=
    dashboardUpdate_of_parses rnd lib latest cfg (water_of_known hparse)
  obtain ⟨outside, ha⟩ := parseFloat_of_parses (hparse "temperature_dht11" (by decide))
  obtain ⟨humidity, hh⟩ := parseFloat_of_parses (hparse "humidity_dht11" (by decide))
  obtain ⟨inside0, hw0⟩ := parseFloat_of_parses
    (orElse_zero_parses lib _ (hparse "temperature_ds18b20" (by decide)))
  have hi := hint _ (dashboardIntegrityBlock_of_ok cfg ha hh ht)
  have he := environmentPageUpdate_of_ok cfg ha hh hw0
  refine ⟨hi.2, ?_, ⟨_, he, ?_⟩, ?_⟩
  · rw [hi.1]
    split_ifs with h <;> simp [h]
  · split_ifs with h <;> simp [h]
  · intro hw
    have hundef : getProp latest "temperature_ds18b20" = JsValue.undefined := by
      apply isUndefined_eq
      simpa [isPresent] using hw
    have htemp : temp = JsNum.nan := by
      rw [hundef] at ht
      injection ht with h1
      exact h1.symm
    have hzero : inside0 = JsNum.fin 0 := by
      rw [hundef] at hw0
      injection hw0 with h1
      exact h1.symm
    refine ⟨?_, outside, ha, ?_⟩
    · rw [hi.1, htemp, dashboardIntegrity_nan_inside]
      split_ifs
      · exact Or.inr rfl
      · exact Or.inl rfl
    · rw [he, hzero]
      split_ifs
      · exact Or.inr rfl
      · exact Or.inl rfl

/-- C20, amended, at a `latest` object with ambient temperature 46 and
humidity 50 and no water temperature. -/
theorem integrity_gate_witness :
    (∀ key ∈ knownChannels, parses parseNothing (getProp latestWithoutWater key) = true) ∧
      isPresent latestWithoutWater "temperature_ds18b20" = false ∧
      (dashboardUpdate roundToDouble parseNothing latestWithoutWater config).thrown = none ∧
      (dashboardUpdate roundToDouble parseNothing latestWithoutWater config).state.integrity.isSome
        = true ∧
      ((dashboardUpdate roundToDouble parseNothing latestWithoutWater config).state.integrity =
          none ∨
        (dashboardUpdate roundToDouble parseNothing latestWithoutWater config).state.integrity =
          some Integrity.normal) := by
  have h := integrity_gate roundToDouble parseNothing latestWithoutWater config (by decide)
  refine ⟨by decide, rfl, h.1, ?_, (h.2.2.2 rfl).1⟩
  rw [h.2.1]
  rfl

/-- C28 fails as stated: with ambient temperature 46, humidity 50 and the
water temperature present as `null`, the dashboard reads NaN and says
normal, while the environment page reads 0 and says excellent; and with
water temperature 25 and the TDS `{"toString": 1}` the dashboard throws in
its TDS block and reaches no verdict, while the environment page says
excellent. -/
theorem null_water_splits_the_verdicts :
    isPresent latestWithNullWater "temperature_dht11" = true ∧
      isPresent latestWithNullWater "humidity_dht11" = true ∧
      isPresent latestWithNullWater "temperature_ds18b20" = true ∧
      (dashboardUpdate roundToDouble parseNothing latestWithNullWater config).state.integrity =
        some Integrity.normal ∧
      environmentPageUpdate parseNothing latestWithNullWater config =
        Except.ok (some EnvironmentIntegrity.excellent) ∧
      isPresent latestWithUnprintableTds "temperature_dht11" = true ∧
      isPresent latestWithUnprintableTds "humidity_dht11" = true ∧
      getProp latestWithUnprintableTds "temperature_ds18b20" = JsValue.num 25 ∧
      (dashboardUpdate roundToDouble parseNothing latestWithUnprintableTds config).thrown =
        some JsError.typeError ∧
      (dashboardUpdate roundToDouble parseNothing latestWithUnprintableTds config).state.integrity
        = none ∧
      environmentPageUpdate parseNothing latestWithUnprintableTds config =
        Except.ok (some EnvironmentIntegrity.excellent) := by
  have ha : parseFloat parseNothing (getProp latestWithNullWater "temperature_dht11") =
      Except.ok (JsNum.fin 46) := rfl
  have hh : parseFloat parseNothing (getProp latestWithNullWater "humidity_dht11") =
      Except.ok (JsNum.fin 50) := rfl
  have hw : parseFloat parseNothing (getProp latestWithNullWater "temperature_ds18b20") =
      Except.ok JsNum.nan := rfl
  have hw0 : parseFloat parseNothing
      ((getProp latestWithNullWater "temperature_ds18b20").orElse (JsValue.num 0)) =
      Except.ok (JsNum.fin 0) := rfl
  obtain ⟨_, _, _, _, _, _, _, _, _, _, _, _, _, hint⟩ :=
    dashboardUpdate_of_parses roundToDouble parseNothing latestWithNullWater config (by decide)
  have hi := hint _ (dashboardIntegrityBlock_of_ok config ha hh hw)
  have hp : (isPresent latestWithNullWater "temperature_dht11" &&
      isPresent latestWithNullWater "humidity_dht11") = true := rfl
  have ha2 : parseFloat parseNothing (getProp latestWithUnprintableTds "temperature_dht11") =
      Except.ok (JsNum.fin 46) := rfl
  have hh2 : parseFloat parseNothing (getProp latestWithUnprintableTds "humidity_dht11") =
      Except.ok (JsNum.fin 50) := rfl
  have hw2 : parseFloat parseNothing
      ((getProp latestWithUnprintableTds "temperature_ds18b20").orElse (JsValue.num 0)) =
      Except.ok (JsNum.fin 25) := by
    have hg : getProp latestWithUnprintableTds "temperature_ds18b20" = JsValue.num 25 := rfl
    rw [hg]
    norm_num [JsValue.orElse, JsValue.truthy, parseFloat]
  have hp2 : (isPresent latestWithUnprintableTds "temperature_dht11" &&
      isPresent latestWithUnprintableTds "humidity_dht11") = true := rfl
  refine ⟨rfl, rfl, rfl, ?_, ?_, rfl, rfl, rfl, rfl, rfl, ?_⟩
  · rw [hi.1, if_pos hp]
    norm_num [dashboardIntegrity, JsNum.gt, JsNum.lt, config]
  · rw [environmentPageUpdate_of_ok config ha hh hw0, if_pos hp]
    norm_num [environmentIntegrity, JsNum.gt, JsNum.lt, config]
  · rw [environmentPageUpdate_of_ok config ha2 hh2 hw2, if_pos hp2]
    norm_num [environmentIntegrity, JsNum.gt, JsNum.lt, config]

/-- C28, amended: for every configuration and every `latest` object on
whose channel values `parseFloat` returns and in which the water
temperature is a number, or any other truthy value, the handler of the
dashboard completes, the dashboard and the environment page derive a
verdict in the same cases, and the verdicts correspond: good to excellent,
compromised to compromised, normal to normal. -/
theorem integrity_pages_agree (rnd : ℚ → ℚ) (lib : Library) (latest : JsProps) (cfg : Config)
    (hparse : ∀ key ∈ knownChannels, parses lib (getProp latest key) = true)
    (hw : (∃ w : ℚ, getProp latest "temperature_ds18b20" = JsValue.num w) ∨
      (getProp latest "temperature_ds18b20").truthy = true) :
    (dashboardUpdate rnd lib latest cfg).thrown = none ∧
      environmentPageUpdate lib latest cfg =
        Except.ok ((dashboardUpdate rnd lib latest cfg).state.integrity.map
          Integrity.toEnvironment) := by
  obtain ⟨temp, _, _, _, ht, _, _, _, _, _, _, _, _, hint⟩ :=
    dashboardUpdate_of_parses rnd lib latest cfg (water_of_known hparse)
  obtain ⟨outside, ha⟩ := parseFloat_of_parses (hparse "temperature_dht11" (by decide))
  obtain ⟨humidity, hh⟩ := parseFloat_of_parses (hparse "humidity_dht11" (by decide))
  have hi := hint _ (dashboardIntegrityBlock_of_ok cfg ha hh ht)
  have ht0 : parseFloat lib ((getProp latest "temperature_ds18b20").orElse (JsValue.num 0)) =
      Except.ok temp := by
    rw [orElse_zero_of_number_or_truthy _ hw, ht]
  refine ⟨hi.2, ?_⟩
  rw [environmentPageUpdate_of_ok cfg ha hh ht0, hi.1]
  split_ifs
  · simp [integrity_verdicts_agree]
  · rfl

/-- C28, amended, at a `latest` object with all six channels: ambient
46, water 25. -/
theorem integrity_pages_agree_witness :
    (∀ key ∈ knownChannels, parses parseNothing (getProp latestWithAll key) = true) ∧
      ((∃ w : ℚ, getProp latestWithAll "temperature_ds18b20" = JsValue.num w) ∨
        (getProp latestWithAll "temperature_ds18b20").truthy = true) ∧
      (dashboardUpdate roundToDouble parseNothing latestWithAll config).thrown = none ∧
      environmentPageUpdate parseNothing latestWithAll config =
        Except.ok ((dashboardUpdate roundToDouble parseNothing latestWithAll config).state.integrity.map
          Integrity.toEnvironment) :=
  ⟨by decide, Or.inl ⟨25, rfl⟩,
    integrity_pages_agree roundToDouble parseNothing latestWithAll config (by decide)
      (Or.inl ⟨25, rfl⟩)⟩

/-! ## The dashboard against the sensor pages -/

/-- C29 fails as stated: with the water temperature `{"toString": 1}` and
the TDS 400, above `tdsMax = 300`, the dashboard throws in its first block
and raises no alert for the TDS, while the TDS page shows the status high
and raises its alert. -/
theorem dashboard_misses_the_tds_alert :
    getProp latestWithUnprintableWater "tds" = JsValue.num 400 ∧
      (400 : ℚ) > config.tdsMax ∧
      (dashboardUpdate roundToDouble parseNothing latestWithUnprintableWater config).thrown =
        some JsError.typeError ∧
      (dashboardUpdate roundToDouble parseNothing latestWithUnprintableWater config).state.tds =
        none ∧
      tdsPageUpdate parseNothing latestWithUnprintableWater config =
        Except.ok (some TdsStatus.high) ∧
      TdsStatus.high.alert = true := by
  have hs : parseFloat parseNothing (getProp latestWithUnprintableWater "tds") =
      Except.ok (JsNum.fin 400) := rfl
  have hp : isPresent latestWithUnprintableWater "tds" = true := rfl
  refine ⟨rfl, by norm_num [config], rfl, rfl, ?_, rfl⟩
  rw [tdsPageUpdate_of_ok config hs, if_pos hp, tdsPageStatus_fin]
  norm_num [config]

/-- C29, amended: for every configuration and every `latest` object on
whose values for the water temperature, the distance, the turbidity and
the TDS `parseFloat` returns, the dashboard raises its alert for each of
the four exactly when the page of that sensor raises one, and skips the
block exactly when the page does; for a finite value that is when the
temperature is below `tempMin` or above `tempMax`, the fill percentage is
below 20, the turbidity is above `turbidityThreshold`, the TDS is below
`tdsMin` or above `tdsMax`. -/
theorem dashboard_and_page_alerts_agree (rnd : ℚ → ℚ) (lib : Library) (latest : JsProps)
    (cfg : Config) (hparse : ∀ key ∈ waterChannels, parses lib (getProp latest key) = true)
    (v : ℚ) :
    (temperaturePageUpdate lib latest cfg).map (Option.map TemperatureStatus.alert) =
        Except.ok (dashboardUpdate rnd lib latest cfg).state.temperatureAlert ∧
      (distancePageUpdate rnd lib latest cfg).map (Option.map LevelStatus.alert) =
        Except.ok (dashboardUpdate rnd lib latest cfg).state.lowWaterAlert ∧
      (turbidityPageUpdate rnd lib latest cfg).map (Option.map Indicator.raisesAlert) =
        Except.ok ((dashboardUpdate rnd lib latest cfg).state.turbidity.map
          Indicator.raisesAlert) ∧
      (tdsPageUpdate lib latest cfg).map (Option.map TdsStatus.alert) =
        Except.ok ((dashboardUpdate rnd lib latest cfg).state.tds.map Indicator.raisesAlert) ∧
      (dashboardTemperatureAlert (JsNum.fin v) cfg = true ↔
        (v < cfg.tempMin ∨ v > cfg.tempMax)) ∧
      (dashboardLowWaterAlert (JsNum.fin v) = true ↔ v < 20) ∧
      ((dashboardTurbidityStatus (JsNum.fin v) cfg).raisesAlert = true ↔
        v > cfg.turbidityThreshold) ∧
      ((dashboardTdsStatus (JsNum.fin v) cfg).raisesAlert = true ↔
        (v < cfg.tdsMin ∨ v > cfg.tdsMax)) := by
  obtain ⟨temp, distance, turbidity, tds, ht, hd, hu, hs, e1, _, e3, e4, e5, _⟩ :=
    dashboardUpdate_of_parses rnd lib latest cfg hparse
  refine ⟨?_, ?_, ?_, ?_, ?_, ?_, ?_, ?_⟩
  · rw [temperaturePageUpdate_of_ok cfg ht, e1]
    split_ifs <;> simp [Except.map, temperature_alerts_agree]
  · rw [distancePageUpdate_of_ok rnd cfg hd, e3]
    split_ifs <;> simp [Except.map, level_alerts_agree]
  · rw [turbidityPageUpdate_of_ok rnd cfg hu, e4]
    split_ifs <;> simp [Except.map, turbidity_alerts_agree rnd]
  · rw [tdsPageUpdate_of_ok cfg hs, e5]
    split_ifs <;> simp [Except.map, tds_alerts_agree]
  · simp [dashboardTemperatureAlert, JsNum.lt, JsNum.gt]
  · simp [dashboardLowWaterAlert, JsNum.lt]
  · unfold dashboardTurbidityStatus
    by_cases h : v > cfg.turbidityThreshold
    · simp [JsNum.gt, JsNum.lt, Indicator.raisesAlert, h]
    · have h' : ¬ cfg.turbidityThreshold < v := h
      simp [JsNum.gt, JsNum.lt, Indicator.raisesAlert, h, h']
  · unfold dashboardTdsStatus
    by_cases h : v < cfg.tdsMin ∨ v > cfg.tdsMax
    · have hb : (JsNum.lt (JsNum.fin v) (JsNum.fin cfg.tdsMin) ||
          JsNum.gt (JsNum.fin v) (JsNum.fin cfg.tdsMax)) = true := by
        simpa [JsNum.lt, JsNum.gt] using h
      simp [hb, Indicator.raisesAlert, h]
    · have hb : ¬ ((JsNum.lt (JsNum.fin v) (JsNum.fin cfg.tdsMin) ||
          JsNum.gt (JsNum.fin v) (JsNum.fin cfg.tdsMax)) = true) := by
        simpa [JsNum.lt, JsNum.gt] using h
      simp [hb, Indicator.raisesAlert, h]

/-- C29, amended, at a `latest` object with all six channels: the TDS 40
is below `tdsMin = 50`. -/
theorem dashboard_and_page_alerts_agree_witness :
    (∀ key ∈ waterChannels, parses parseNothing (getProp latestWithAll key) = true) ∧
      (tdsPageUpdate parseNothing latestWithAll config).map (Option.map TdsStatus.alert) =
        Except.ok ((dashboardUpdate roundToDouble parseNothing latestWithAll config).state.tds.map
          Indicator.raisesAlert) ∧
      (temperaturePageUpdate parseNothing latestWithAll config).map
          (Option.map TemperatureStatus.alert) =
        Except.ok (dashboardUpdate roundToDouble parseNothing latestWithAll
          config).state.temperatureAlert :=
  ⟨by decide,
    (dashboard_and_page_alerts_agree roundToDouble parseNothing latestWithAll config
      (by decide) 0).2.2.2.1,
    (dashboard_and_page_alerts_agree roundToDouble parseNothing latestWithAll config
      (by decide) 0).1⟩

end AquaMonitor
